import Mathlib

/-!
# Myblog backend: credential cipher and AI provider registry

A shallow embedding of the credential cipher and the AI provider layer of the backend:

* `backend/pkg/crypto/encryption.go` (`getEncryptionKey`, `Encrypt`, `Decrypt`),
  together with executable models of the Go standard-library primitives these
  functions call (`encoding/base64`, `crypto/aes`, `crypto/cipher` GCM, `io.ReadFull`);
* `backend/internal/service/ai/manager.go` (`AIManager` and its registry operations);
* `backend/internal/service/ai/interface.go` and the five vendor adapters (`glm.go`,
  `deepseek.go`, `qwen.go`, `kimi.go`, `openai.go`), with `encoding/json` and `net/http`
  taken as parameters;
* `backend/internal/api/handlers/ai.go` (`NewAIHandler`, `loadProvidersFromDB`,
  `ReloadProviders`, `Chat`, `GetModels`, `GetCharacters`) and the rows of
  `backend/internal/models/ai.go`, with the database, the environment and the clock as
  arguments.

Go strings and byte slices are both sequences of bytes, so both are `List Byte`.
A Go function returning `(string, error)` returns a pair whose second component is
`none` for a `nil` error.
-/

/-- One octet. -/
abbrev Byte := Fin 256

/-- A Go `string`: an immutable sequence of bytes (not necessarily valid UTF-8). -/
abbrev GoString := List Byte

/-- UTF-8 encoding of one code point, as the Go compiler stores a source literal. -/
def utf8EncodeChar (c : Char) : List Byte :=
  let v := c.toNat
  if v < 0x80 then [Fin.ofNat v]
  else if v < 0x800 then [Fin.ofNat (0xC0 + v / 64), Fin.ofNat (0x80 + v % 64)]
  else if v < 0x10000 then
    [Fin.ofNat (0xE0 + v / 4096), Fin.ofNat (0x80 + v / 64 % 64), Fin.ofNat (0x80 + v % 64)]
  else
    [Fin.ofNat (0xF0 + v / 262144), Fin.ofNat (0x80 + v / 4096 % 64),
     Fin.ofNat (0x80 + v / 64 % 64), Fin.ofNat (0x80 + v % 64)]

/-- The bytes of a Go string literal. -/
def goString (s : String) : GoString := s.toList.flatMap utf8EncodeChar

namespace crypto

/-- The `error` values that `Encrypt` and `Decrypt` can return. The first two are the
package's own sentinels; the others are produced by the standard library. The byte offset
that a `base64.CorruptInputError` carries is not modelled. -/
inductive Error where
  /-- `ErrInvalidKey`, declared by the package (never returned by its functions). -/
  | ErrInvalidKey
  /-- `ErrInvalidCiphertext`, "无效的密文". -/
  | ErrInvalidCiphertext
  /-- `base64.CorruptInputError`: the input is not valid standard base64. -/
  | CorruptInputError
  /-- `aes.KeySizeError`: the key is not 16, 24 or 32 bytes long. -/
  | KeySizeError (n : Nat)
  /-- "cipher: NewGCM requires 128-bit block cipher". -/
  | errGCMBlockSize
  /-- "cipher: message authentication failed", the error of `gcm.Open`. -/
  | errOpen
  /-- `io.EOF`: the reader supplied no byte. -/
  | EOF
  /-- `io.ErrUnexpectedEOF`: the reader supplied some bytes but too few. -/
  | ErrUnexpectedEOF
  deriving DecidableEq, Repr

deriving instance DecidableEq for Except

/-! ## encoding/base64, `StdEncoding` -/

/-- The standard alphabet `encodeStd` of `encoding/base64`. -/
def encodeStd : List Byte :=
  goString "ABCDEFGHIJKLMNOPQRSTUVWXYZabcdefghijklmnopqrstuvwxyz0123456789+/"

/-- The padding character `=` (`StdPadding`). -/
def padChar : Byte := 61

/-- `enc.encode[v]`: the character standing for the 6-bit value `v`. -/
def encodeChar (v : Nat) : Byte := encodeStd.getD v 0

/-- `enc.decodeMap[c]`: the 6-bit value of an alphabet character, `none` for the
`0xff` entry of every other byte. -/
def decodeMap (c : Byte) : Option Nat :=
  let i := encodeStd.indexOf c
  if i < 64 then some i else none

/-- `base64.StdEncoding.EncodeToString`: three bytes become four characters, and a
final group of one or two bytes is padded with `=`. -/
def EncodeToString : List Byte → GoString
  | a :: b :: c :: rest =>
    let val := a.val * 65536 + b.val * 256 + c.val
    encodeChar (val / 262144 % 64) :: encodeChar (val / 4096 % 64) ::
      encodeChar (val / 64 % 64) :: encodeChar (val % 64) :: EncodeToString rest
  | [a, b] =>
    let val := a.val * 65536 + b.val * 256
    [encodeChar (val / 262144 % 64), encodeChar (val / 4096 % 64),
     encodeChar (val / 64 % 64), padChar]
  | [a] =>
    let val := a.val * 65536
    [encodeChar (val / 262144 % 64), encodeChar (val / 4096 % 64), padChar, padChar]
  | [] => []

/-- The decoder's loop that skips `\n` and `\r`. -/
def skipNewlines : List Byte → List Byte
  | [] => []
  | c :: cs => if c = 10 ∨ c = 13 then skipNewlines cs else c :: cs

/-- The three bytes of a full quantum of four 6-bit values: `val` is
`d0<<18 | d1<<12 | d2<<6 | d3` and the bytes are `val>>16`, `val>>8` and `val`. -/
def quantumBytes (d0 d1 d2 d3 : Nat) : List Byte :=
  let val := d0 * 262144 + d1 * 4096 + d2 * 64 + d3
  [Fin.ofNat (val / 65536), Fin.ofNat (val / 256), Fin.ofNat val]

/-- The end of `decodeQuantum` once a padding character has been read after the 6-bit
values `dbuf`, `cs` being the input after it: after two values a second `=` must follow,
after three none; only new lines may follow the padding; padding after fewer than two
values is an error. The unused low bits are not checked (the encoding is not strict). -/
def decodePadding (dbuf : List Nat) (cs : List Byte) : Except Error (List Byte) :=
  match dbuf with
  | [d0, d1] =>
    match skipNewlines cs with
    | [] => .error .CorruptInputError
    | p :: rest =>
      if p ≠ padChar then .error .CorruptInputError
      else if skipNewlines rest = [] then .ok ((quantumBytes d0 d1 0 0).take 1)
      else .error .CorruptInputError
  | [d0, d1, d2] =>
    if skipNewlines cs = [] then .ok ((quantumBytes d0 d1 d2 0).take 2)
    else .error .CorruptInputError
  | _ => .error .CorruptInputError

/-- The decoding loop of `Encoding.Decode` (`decodeQuantum` repeated until the input
ends). `dbuf` holds the 6-bit values read so far in the current quantum. New lines are
ignored, a character that is neither in the alphabet nor the padding is an error, and so is
an input that ends inside a quantum. -/
def decodeLoop : List Byte → List Nat → Except Error (List Byte)
  | [], [] => .ok []
  | [], _ :: _ => .error .CorruptInputError
  | c :: cs, dbuf =>
    match decodeMap c with
    | some v =>
      match dbuf with
      | [d0, d1, d2] =>
        match decodeLoop cs [] with
        | .ok rest => .ok (quantumBytes d0 d1 d2 v ++ rest)
        | .error err => .error err
      | _ => decodeLoop cs (dbuf ++ [v])
    | none =>
      if c = 10 ∨ c = 13 then decodeLoop cs dbuf
      else if c ≠ padChar then .error .CorruptInputError
      else decodePadding dbuf cs

/-- `base64.StdEncoding.DecodeString`. -/
def DecodeString (s : GoString) : Except Error (List Byte) := decodeLoop s []

/-! ## crypto/aes: the AES block cipher (FIPS 197) -/

/-- Byte-wise exclusive or of two byte sequences (up to the shorter one). -/
def xorBytes (a b : List Byte) : List Byte := List.zipWith (fun x y => x ^^^ y) a b

/-- The AES substitution table `sbox0`. -/
def sbox0 : List Nat := [
  99, 124, 119, 123, 242, 107, 111, 197, 48, 1, 103, 43, 254, 215, 171, 118,
  202, 130, 201, 125, 250, 89, 71, 240, 173, 212, 162, 175, 156, 164, 114, 192,
  183, 253, 147, 38, 54, 63, 247, 204, 52, 165, 229, 241, 113, 216, 49, 21,
  4, 199, 35, 195, 24, 150, 5, 154, 7, 18, 128, 226, 235, 39, 178, 117,
  9, 131, 44, 26, 27, 110, 90, 160, 82, 59, 214, 179, 41, 227, 47, 132,
  83, 209, 0, 237, 32, 252, 177, 91, 106, 203, 190, 57, 74, 76, 88, 207,
  208, 239, 170, 251, 67, 77, 51, 133, 69, 249, 2, 127, 80, 60, 159, 168,
  81, 163, 64, 143, 146, 157, 56, 245, 188, 182, 218, 33, 16, 255, 243, 210,
  205, 12, 19, 236, 95, 151, 68, 23, 196, 167, 126, 61, 100, 93, 25, 115,
  96, 129, 79, 220, 34, 42, 144, 136, 70, 238, 184, 20, 222, 94, 11, 219,
  224, 50, 58, 10, 73, 6, 36, 92, 194, 211, 172, 98, 145, 149, 228, 121,
  231, 200, 55, 109, 141, 213, 78, 169, 108, 86, 244, 234, 101, 122, 174, 8,
  186, 120, 37, 46, 28, 166, 180, 198, 232, 221, 116, 31, 75, 189, 139, 138,
  112, 62, 181, 102, 72, 3, 246, 14, 97, 53, 87, 185, 134, 193, 29, 158,
  225, 248, 152, 17, 105, 217, 142, 148, 155, 30, 135, 233, 206, 85, 40, 223,
  140, 161, 137, 13, 191, 230, 66, 104, 65, 153, 45, 15, 176, 84, 187, 22]

/-- SubBytes on one byte. -/
def subByte (b : Byte) : Byte := Fin.ofNat (sbox0.getD b.val 0)

/-- Multiplication by `x` in GF(2^8) modulo `x^8 + x^4 + x^3 + x + 1`. -/
def xtime (b : Byte) : Byte :=
  if b.val < 128 then Fin.ofNat (2 * b.val) else Fin.ofNat (2 * b.val) ^^^ 0x1b

/-- RotWord of the key schedule. -/
def rotWord : List Byte → List Byte
  | [a, b, c, d] => [b, c, d, a]
  | w => w

/-- The round constant `x^n` (`powx[n]`). -/
def rcon : Nat → Byte
  | 0 => 1
  | n + 1 => xtime (rcon n)

/-- A byte sequence cut into 4-byte words (columns). -/
def words4 : List Byte → List (List Byte)
  | a :: b :: c :: d :: rest => [a, b, c, d] :: words4 rest
  | _ => []

/-- One step of the key expansion: the next word of the schedule of an `nk`-word key. -/
def expandStep (nk : Nat) (w : List (List Byte)) : List (List Byte) :=
  let i := w.length
  let prev := w.getD (i - 1) []
  let temp :=
    if i % nk = 0 then xorBytes ((rotWord prev).map subByte) [rcon (i / nk - 1), 0, 0, 0]
    else if 6 < nk ∧ i % nk = 4 then prev.map subByte
    else prev
  w ++ [xorBytes (w.getD (i - nk) []) temp]

/-- `n` steps of the key expansion. -/
def expandLoop (nk : Nat) : Nat → List (List Byte) → List (List Byte)
  | 0, w => w
  | n + 1, w => expandLoop nk n (expandStep nk w)

/-- The key schedule `expandKey`: `4 * (nr + 1)` words for `nr = nk + 6` rounds. -/
def expandKey (key : List Byte) : List (List Byte) :=
  let nk := key.length / 4
  expandLoop nk (4 * (nk + 7) - nk) (words4 key)

/-- AddRoundKey with the round key of round `r`. -/
def addRoundKey (rk : List (List Byte)) (r : Nat) (st : List Byte) : List Byte :=
  xorBytes st ((rk.drop (4 * r)).take 4).flatten

/-- ShiftRows on the column-major state. -/
def shiftRows (st : List Byte) : List Byte :=
  (List.range 16).map fun i => st.getD (i % 4 + 4 * ((i / 4 + i % 4) % 4)) 0

/-- MixColumns on one column. -/
def mixColumn : List Byte → List Byte
  | [a, b, c, d] =>
    [xtime a ^^^ (xtime b ^^^ b) ^^^ c ^^^ d,
     a ^^^ xtime b ^^^ (xtime c ^^^ c) ^^^ d,
     a ^^^ b ^^^ xtime c ^^^ (xtime d ^^^ d),
     (xtime a ^^^ a) ^^^ b ^^^ c ^^^ xtime d]
  | w => w

/-- MixColumns on the state. -/
def mixColumns (st : List Byte) : List Byte := (words4 st).flatMap mixColumn

/-- The `n` full rounds starting with round `r`. -/
def roundLoop (rk : List (List Byte)) : Nat → Nat → List Byte → List Byte
  | 0, _, st => st
  | n + 1, r, st =>
    roundLoop rk n (r + 1) (addRoundKey rk r (mixColumns (shiftRows (st.map subByte))))

/-- The AES cipher on one 16-byte block (`encryptBlockGo`) under the schedule `rk`. -/
def encryptBlock (rk : List (List Byte)) (src : List Byte) : List Byte :=
  let nr := rk.length / 4 - 1
  let st := roundLoop rk (nr - 1) 1 (addRoundKey rk 0 src)
  addRoundKey rk nr (shiftRows (st.map subByte))

/-- A `cipher.Block`: its block size and its `Encrypt` method (GCM uses no other). -/
structure Block where
  BlockSize : Nat
  Encrypt : List Byte → List Byte

/-- `aes.NewCipher`: a key of 16, 24 or 32 bytes selects AES-128, AES-192 or AES-256;
any other length is a `KeySizeError`. -/
def aesNewCipher (key : List Byte) : Except Error Block :=
  if key.length = 16 ∨ key.length = 24 ∨ key.length = 32 then
    .ok { BlockSize := 16, Encrypt := encryptBlock (expandKey key) }
  else .error (.KeySizeError key.length)

/-! ## crypto/cipher: Galois/Counter Mode (NIST SP 800-38D) -/

/-- Big-endian value of a byte sequence. -/
def beNat (bs : List Byte) : Nat := bs.foldl (fun acc b => acc * 256 + b.val) 0

/-- Big-endian encoding of `n` on `len` bytes. -/
def natBE (len n : Nat) : List Byte :=
  (List.range len).map fun i => Fin.ofNat (n / 256 ^ (len - 1 - i))

/-- One step of the multiplication in GF(2^128): bit `i` of `x`, counted from the left. -/
def gfMulStep (x : Nat) (zv : Nat × Nat) (i : Nat) : Nat × Nat :=
  (if x.testBit (127 - i) then zv.1 ^^^ zv.2 else zv.1,
   if zv.2.testBit 0 then (zv.2 >>> 1) ^^^ (0xe1 <<< 120) else zv.2 >>> 1)

/-- Multiplication in GF(2^128) on blocks read as 128-bit numbers. -/
def gfMul (x y : Nat) : Nat := ((List.range 128).foldl (gfMulStep x) (0, y)).1

/-- Zero padding up to a multiple of 16 bytes. -/
def pad16 (bs : List Byte) : List Byte :=
  bs ++ List.replicate ((16 - bs.length % 16) % 16) 0

/-- GHASH over `n` blocks. -/
def ghashLoop (h : Nat) : Nat → Nat → List Byte → Nat
  | 0, y, _ => y
  | n + 1, y, bs => ghashLoop h n (gfMul (y ^^^ beNat (bs.take 16)) h) (bs.drop 16)

/-- GHASH of a sequence of whole blocks under the hash key `h`. -/
def ghash (h : Nat) (bs : List Byte) : Nat := ghashLoop h (bs.length / 16) 0 bs

/-- A GCM instance (`cipher.AEAD`) over a 128-bit block cipher. -/
structure GCM where
  cipher : Block
  nonceSize : Nat
  tagSize : Nat

/-- `cipher.NewGCM`: the standard 12-byte nonce and 16-byte tag; a cipher whose block
size is not 16 is refused. -/
def NewGCM (b : Block) : Except Error GCM :=
  if b.BlockSize ≠ 16 then .error .errGCMBlockSize
  else .ok { cipher := b, nonceSize := 12, tagSize := 16 }

/-- `gcm.NonceSize()`. -/
def GCM.NonceSize (g : GCM) : Nat := g.nonceSize

/-- `deriveCounter`: the pre-counter block `J0` of a nonce. -/
def GCM.deriveCounter (g : GCM) (nonce : List Byte) : List Byte :=
  if nonce.length = 12 then nonce ++ [0, 0, 0, 1]
  else
    natBE 16 (ghash (beNat (g.cipher.Encrypt (List.replicate 16 0)))
      (pad16 nonce ++ natBE 8 0 ++ natBE 8 (nonce.length * 8)))

/-- The counter block `i` steps after `j0`: the last four bytes count modulo `2^32`. -/
def counterBlock (j0 : List Byte) (i : Nat) : List Byte :=
  j0.take 12 ++ natBE 4 ((beNat (j0.drop 12) + i) % 2 ^ 32)

/-- The first `n` bytes of the CTR key stream that starts at the block after `j0`. -/
def GCM.keystream (g : GCM) (j0 : List Byte) (n : Nat) : List Byte :=
  let blocks := (List.range ((n + 15) / 16)).map fun i => g.cipher.Encrypt (counterBlock j0 (i + 1))
  (List.range n).map fun k => (blocks.getD (k / 16) []).getD (k % 16) 0

/-- `counterCrypt`: CTR encryption, which is also CTR decryption. -/
def GCM.counterCrypt (g : GCM) (j0 data : List Byte) : List Byte :=
  xorBytes data (g.keystream j0 data.length)

/-- `gcm.auth`: the 16-byte authentication tag of a ciphertext and its additional data,
the GHASH value masked with the encryption of `j0`. -/
def GCM.auth (g : GCM) (j0 ciphertext additionalData : List Byte) : List Byte :=
  let h := beNat (g.cipher.Encrypt (List.replicate 16 0))
  let s := ghash h (pad16 additionalData ++ pad16 ciphertext ++
    natBE 8 (additionalData.length * 8) ++ natBE 8 (ciphertext.length * 8))
  natBE 16 (beNat (g.cipher.Encrypt j0) ^^^ s)

/-- `gcm.Seal(dst, nonce, plaintext, additionalData)`: appends the ciphertext and its tag
to `dst`. Go's `Seal` panics on a nonce whose length is not `NonceSize()`, which `Encrypt`
never passes, and on a plaintext of more than `2^36 - 32` bytes (64 GiB), the limit of GCM;
messages of that size are outside this model, which counts blocks modulo `2^32`. -/
def GCM.Seal (g : GCM) (dst nonce plaintext additionalData : List Byte) : List Byte :=
  let j0 := g.deriveCounter nonce
  let ciphertext := g.counterCrypt j0 plaintext
  dst ++ ciphertext ++ g.auth j0 ciphertext additionalData

/-- `gcm.Open(dst, nonce, ciphertext, additionalData)`: fails with `errOpen` when the
input is shorter than a tag or the tag does not match; otherwise appends the plaintext to
`dst`. (Go's `Open` panics on a nonce of the wrong length, which `Decrypt` never passes,
and refuses inputs above the 64 GiB limit of GCM, which are outside this model.) -/
def GCM.Open (g : GCM) (dst nonce ciphertext additionalData : List Byte) :
    Except Error (List Byte) :=
  if ciphertext.length < g.tagSize then .error .errOpen
  else
    let tag := ciphertext.drop (ciphertext.length - g.tagSize)
    let body := ciphertext.take (ciphertext.length - g.tagSize)
    let j0 := g.deriveCounter nonce
    if g.auth j0 body additionalData ≠ tag then .error .errOpen
    else .ok (dst ++ g.counterCrypt j0 body)

/-! ## io.ReadFull on crypto/rand -/

/-- `io.ReadFull(rand.Reader, buf)` for a buffer of `n` bytes, `rand` being the bytes the
reader supplies before it ends: the first `n` of them, or an error when there are fewer. -/
def ReadFull (rand : List Byte) (n : Nat) : Except Error (List Byte) :=
  if n ≤ rand.length then .ok (rand.take n)
  else if rand = [] then .error .EOF
  else .error .ErrUnexpectedEOF

/-! ## backend/pkg/crypto/encryption.go -/

/-- The development default of `getEncryptionKey`. -/
def defaultKey : GoString := goString "personal-website-default-key!!"

/-- `getEncryptionKey`, with the value of the environment variable `ENCRYPTION_KEY` as
its argument (empty when the variable is unset): the default when it is empty, then zero
padding or truncation to 32 bytes. -/
def getEncryptionKey (ENCRYPTION_KEY : GoString) : List Byte :=
  let key := if ENCRYPTION_KEY = [] then defaultKey else ENCRYPTION_KEY
  let keyBytes := key
  if keyBytes.length < 32 then
    let padded := keyBytes ++ List.replicate (32 - keyBytes.length) (0 : Byte)
    padded
  else keyBytes.take 32

/-- `Encrypt(plaintext)`: AES-256-GCM under the derived key with a nonce read from
`rand`, the nonce prepended to the sealed output, the whole base64-encoded. -/
def Encrypt (ENCRYPTION_KEY : GoString) (rand : List Byte) (plaintext : GoString) :
    GoString × Option Error :=
  if plaintext = [] then ([], none)
  else
    let key := getEncryptionKey ENCRYPTION_KEY
    match aesNewCipher key with
    | .error err => ([], some err)
    | .ok block =>
      match NewGCM block with
      | .error err => ([], some err)
      | .ok gcm =>
        match ReadFull rand gcm.NonceSize with
        | .error err => ([], some err)
        | .ok nonce =>
          let ciphertext := gcm.Seal nonce nonce plaintext []
          (EncodeToString ciphertext, none)

/-- `Decrypt(ciphertext)`: base64 decoding, the nonce split off by the cipher's nonce
size, then authenticated decryption; every failure returns the empty string and the
error. -/
def Decrypt (ENCRYPTION_KEY : GoString) (ciphertext : GoString) : GoString × Option Error :=
  if ciphertext = [] then ([], none)
  else
    let key := getEncryptionKey ENCRYPTION_KEY
    match DecodeString ciphertext with
    | .error err => ([], some err)
    | .ok data =>
      match aesNewCipher key with
      | .error err => ([], some err)
      | .ok block =>
        match NewGCM block with
        | .error err => ([], some err)
        | .ok gcm =>
          let nonceSize := gcm.NonceSize
          if data.length < nonceSize then ([], some .ErrInvalidCiphertext)
          else
            let nonce := data.take nonceSize
            let ciphertextBytes := data.drop nonceSize
            match gcm.Open [] nonce ciphertextBytes [] with
            | .error err => ([], some err)
            | .ok plaintext => (plaintext, none)

/-- The AES-256-GCM instance that `Encrypt` and `Decrypt` obtain from `aes.NewCipher`
and `cipher.NewGCM` under the key derived from the configured secret. -/
def keyGCM (ENCRYPTION_KEY : GoString) : GCM :=
  { cipher := { BlockSize := 16,
                Encrypt := encryptBlock (expandKey (getEncryptionKey ENCRYPTION_KEY)) },
    nonceSize := 12, tagSize := 16 }

/-- The authentication tag of a sealed message verifies under `g` and `nonce`: the
message holds at least a 16-byte tag, and its last 16 bytes are the tag that `gcm.auth`
computes over the bytes before them (with no additional data). -/
def tagVerifies (g : GCM) (nonce sealed : List Byte) : Bool :=
  decide (16 ≤ sealed.length) &&
    decide (g.auth (g.deriveCounter nonce) (sealed.take (sealed.length - 16)) [] =
      sealed.drop (sealed.length - 16))

/-- `IsEncrypted(s)`: non-empty, valid base64 and longer than 20 bytes. -/
def IsEncrypted (s : GoString) : Bool :=
  if s = [] then false
  else
    match DecodeString s with
    | .error _ => false
    | .ok _ => decide (20 < s.length)

end crypto

namespace ai

/-! ## backend/internal/service/ai/manager.go -/

/-- A Go `map[string]V`: a finite mapping, kept as an association list in which every
key occurs once. The iteration order of a Go map is unspecified; the list order stands
for one such order. -/
abbrev GoMap (V : Type) := List (String × V)

/-- `m[k] = v`: replaces the value of an existing key, adds the key otherwise. -/
def GoMap.set {V : Type} : GoMap V → String → V → GoMap V
  | [], k, v => [(k, v)]
  | (k0, v0) :: rest, k, v =>
    if k0 = k then (k, v) :: rest else (k0, v0) :: GoMap.set rest k v

/-- `v, exists := m[k]`. -/
def GoMap.get {V : Type} : GoMap V → String → Option V
  | [], _ => none
  | (k0, v0) :: rest, k => if k0 = k then some v0 else GoMap.get rest k

/-- The `AIManager` struct, over the type `Provider` of adapter instances (the values of
the `AIProvider` interface). The mutex is left out: the operations are taken one at a
time. -/
structure AIManager (Provider : Type) where
  providers : GoMap Provider
  defaultProvider : String

variable {Provider : Type}

/-- `NewAIManager()`: an empty map and the zero value of the default name. -/
def NewAIManager : AIManager Provider :=
  { providers := [], defaultProvider := "" }

/-- `RegisterProvider(name, provider)`: sets the map entry, and makes `name` the
default when no default is set. The log line is left out. -/
def AIManager.RegisterProvider (m : AIManager Provider) (name : String)
    (provider : Provider) : AIManager Provider :=
  let providers := m.providers.set name provider
  if m.defaultProvider = "" then { providers := providers, defaultProvider := name }
  else { providers := providers, defaultProvider := m.defaultProvider }

/-- `SetDefaultProvider(name)`: the state after the call and the returned error
(`none` for `nil`); the message of the error is that of `fmt.Errorf`. -/
def AIManager.SetDefaultProvider (m : AIManager Provider) (name : String) :
    AIManager Provider × Option String :=
  match m.providers.get name with
  | none => (m, some ("provider " ++ name ++ " 不存在"))
  | some _ => ({ providers := m.providers, defaultProvider := name }, none)

/-- `GetProvider(name)`: the adapter (`none` for `nil`) and the error. -/
def AIManager.GetProvider (m : AIManager Provider) (name : String) :
    Option Provider × Option String :=
  let name := if name = "" then m.defaultProvider else name
  if name = "" then (none, some "没有可用的AI Provider")
  else
    match m.providers.get name with
    | none => (none, some ("provider " ++ name ++ " 不存在"))
    | some provider => (some provider, none)

/-- `GetAllProviders()`: the keys of the map. -/
def AIManager.GetAllProviders (m : AIManager Provider) : List String :=
  m.providers.map fun kv => kv.1

/-- `HasProvider(name)`. -/
def AIManager.HasProvider (m : AIManager Provider) (name : String) : Bool :=
  (m.providers.get name).isSome

/-- `ClearProviders()`: a new empty map and no default. -/
def AIManager.ClearProviders (_m : AIManager Provider) : AIManager Provider :=
  { providers := [], defaultProvider := "" }

/-- One mutating call on the registry. -/
inductive Call (Provider : Type) where
  | RegisterProvider (name : String) (provider : Provider)
  | SetDefaultProvider (name : String)
  | ClearProviders

/-- The state after one call. -/
def AIManager.step (m : AIManager Provider) : Call Provider → AIManager Provider
  | .RegisterProvider name provider => m.RegisterProvider name provider
  | .SetDefaultProvider name => (m.SetDefaultProvider name).1
  | .ClearProviders => m.ClearProviders

/-- The state reached from `NewAIManager()` by a sequence of calls. -/
def AIManager.run (calls : List (Call Provider)) : AIManager Provider :=
  calls.foldl AIManager.step NewAIManager

/-- The registry invariant on a state: a non-empty mapping has its default name
among its keys, so that `GetProvider("")` succeeds, and the default name is empty only
when the mapping is empty. -/
def AIManager.defaultValid (m : AIManager Provider) : Prop :=
  (m.providers ≠ [] →
    m.HasProvider m.defaultProvider = true ∧ (m.GetProvider "").2 = none) ∧
  (m.defaultProvider = "" → m.providers = [])

/-- Every name passed to `RegisterProvider` in a sequence of calls is non-empty. -/
def registersNonEmpty : List (Call Provider) → Prop
  | [] => True
  | .RegisterProvider name _ :: rest => name ≠ "" ∧ registersNonEmpty rest
  | _ :: rest => registersNonEmpty rest

end ai

namespace ai

/-! ## backend/internal/service/ai/interface.go -/

/-- A Go `float32`, kept as its IEEE-754 bit pattern; the adapters only copy it. -/
structure Float32 where
  bits : Nat
  deriving DecidableEq, Repr

/-- `ChatMessage`. -/
structure ChatMessage where
  Role : String
  Content : String
  deriving DecidableEq, Repr

/-- `ChatCompletionRequest`. The request structs of the adapters (`glmRequest`,
`deepseekRequest`, `qwenRequest`, `kimiRequest`) declare the same five fields with the same
JSON tags, so this structure stands for them as well. -/
structure ChatCompletionRequest where
  Model : String
  Messages : List ChatMessage
  Temperature : Float32
  MaxTokens : Int
  Stream : Bool
  deriving DecidableEq, Repr

/-- `ChatChoice`. -/
structure ChatChoice where
  Index : Int
  Message : ChatMessage
  FinishReason : String
  deriving DecidableEq, Repr

/-- `ChatUsage`. -/
structure ChatUsage where
  PromptTokens : Int
  CompletionTokens : Int
  TotalTokens : Int
  deriving DecidableEq, Repr

/-- `ChatCompletionResponse`. -/
structure ChatCompletionResponse where
  ID : String
  Object : String
  Model : String
  Choices : List ChatChoice
  Usage : ChatUsage
  deriving DecidableEq, Repr

/-! ## The vendor wire structs of glm.go, deepseek.go, qwen.go, kimi.go and openai.go -/

/-- `glmRequest`. -/
abbrev glmRequest := ChatCompletionRequest

/-- `deepseekRequest`. -/
abbrev deepseekRequest := ChatCompletionRequest

/-- `qwenRequest`. -/
abbrev qwenRequest := ChatCompletionRequest

/-- `kimiRequest`. -/
abbrev kimiRequest := ChatCompletionRequest

/-- The anonymous struct of one element of `Choices` in the vendor responses. -/
structure vendorChoice where
  Index : Int
  Message : ChatMessage
  FinishReason : String
  deriving DecidableEq, Repr

/-- The anonymous struct `Usage` of the vendor responses. -/
structure vendorUsage where
  PromptTokens : Int
  CompletionTokens : Int
  TotalTokens : Int
  deriving DecidableEq, Repr

/-- `glmResponse` (it has no `object` field). -/
structure glmResponse where
  ID : String
  Created : Int
  Model : String
  Choices : List vendorChoice
  Usage : vendorUsage
  deriving DecidableEq, Repr

/-- `deepseekResponse`. -/
structure deepseekResponse where
  ID : String
  Object : String
  Created : Int
  Model : String
  Choices : List vendorChoice
  Usage : vendorUsage
  deriving DecidableEq, Repr

/-- `qwenResponse`: field for field the struct of `deepseekResponse`. -/
abbrev qwenResponse := deepseekResponse

/-- `kimiResponse`: field for field the struct of `deepseekResponse`. -/
abbrev kimiResponse := deepseekResponse

/-- The anonymous struct `Error` of `glmErrorResponse`. -/
structure glmErrorBody where
  Code : String
  Message : String
  deriving DecidableEq, Repr

/-- `glmErrorResponse`. -/
structure glmErrorResponse where
  Error : glmErrorBody
  deriving DecidableEq, Repr

/-- The anonymous struct `Error` of `deepseekErrorResponse`. -/
structure deepseekErrorBody where
  Message : String
  Type_ : String
  Code : String
  deriving DecidableEq, Repr

/-- `deepseekErrorResponse`. -/
structure deepseekErrorResponse where
  Error : deepseekErrorBody
  deriving DecidableEq, Repr

/-- `qwenErrorResponse`: field for field the struct of `deepseekErrorResponse`. -/
abbrev qwenErrorResponse := deepseekErrorResponse

/-- `kimiErrorResponse`: field for field the struct of `deepseekErrorResponse`. -/
abbrev kimiErrorResponse := deepseekErrorResponse

/-- `openaiErrorResponse`: field for field the struct of `deepseekErrorResponse`. -/
abbrev openaiErrorResponse := deepseekErrorResponse

/-! ## net/http and encoding/json, as far as the adapters use them -/

/-- An `*http.Request` as the adapters build it: the context it is bound to, the method,
the URL, the headers set on it and the body. -/
structure HttpRequest (Ctx : Type) where
  ctx : Ctx
  Method : String
  URL : String
  Header : GoMap GoString
  Body : List Byte

/-- `httpReq.Header.Set(key, value)`. -/
def HttpRequest.HeaderSet {Ctx : Type} (r : HttpRequest Ctx) (key : String)
    (value : GoString) : HttpRequest Ctx :=
  { r with Header := r.Header.set key value }

/-- An `*http.Response`: the status code and what `io.ReadAll(resp.Body)` returns. -/
structure HttpResponse where
  StatusCode : Int
  Body : Except String (List Byte)

/-- The standard library and the network, taken as parameters: `json.Marshal` on the
request struct, `json.Unmarshal` into each of the response structs, the error (if any) of
`http.NewRequestWithContext`, and `client.Do`, which stands for the vendor and the
transport (time-out and cancellation of the context included). An error is its
message. -/
structure Lib (Ctx : Type) where
  Marshal : ChatCompletionRequest → Except String (List Byte)
  UnmarshalGLMResponse : List Byte → Except String glmResponse
  UnmarshalGLMError : List Byte → Except String glmErrorResponse
  UnmarshalDeepseekResponse : List Byte → Except String deepseekResponse
  UnmarshalDeepseekError : List Byte → Except String deepseekErrorResponse
  UnmarshalChatCompletionResponse : List Byte → Except String ChatCompletionResponse
  NewRequestError : Ctx → String → String → Option String
  Do : HttpRequest Ctx → Except String HttpResponse

variable {Ctx : Type}

/-- `http.NewRequestWithContext(ctx, method, url, body)`. -/
def NewRequestWithContext (lib : Lib Ctx) (ctx : Ctx) (method url : String)
    (body : List Byte) : Except String (HttpRequest Ctx) :=
  match lib.NewRequestError ctx method url with
  | some err => .error err
  | none => .ok { ctx := ctx, Method := method, URL := url, Header := [], Body := body }

/-- What a call of `ChatCompletion` does: the two values it returns (`none` for `nil`),
the caller's request struct after the call (the argument is a pointer), and the HTTP
requests handed to `client.Do`, in order. -/
structure CallResult (Ctx : Type) where
  response : Option ChatCompletionResponse
  err : Option String
  req : ChatCompletionRequest
  sent : List (HttpRequest Ctx)

/-- The interface `AIProvider`: a value with the three methods. -/
structure AIProvider (Ctx : Type) where
  ChatCompletion : Ctx → ChatCompletionRequest → CallResult Ctx
  GetModelName : String
  GetProviderName : String

/-! ## glm.go -/

/-- `GLMProvider` (the HTTP client with its 60 s time-out is part of `Lib.Do`). The API
key is the byte string that `crypto.Decrypt` or the environment supplies. -/
structure GLMProvider where
  apiURL : String
  apiKey : GoString
  model : String

/-- `NewGLMProvider(apiURL, apiKey, model)`. -/
def NewGLMProvider (apiURL : String) (apiKey : GoString) (model : String) : GLMProvider :=
  { apiURL := apiURL, apiKey := apiKey, model := model }

/-- `(*GLMProvider).ChatCompletion(ctx, req)`. The log lines are left out. -/
def GLMProvider.ChatCompletion (lib : Lib Ctx) (p : GLMProvider) (ctx : Ctx)
    (req : ChatCompletionRequest) : CallResult Ctx :=
  let glmReq : glmRequest :=
    { Model := p.model, Messages := req.Messages, Temperature := req.Temperature,
      MaxTokens := req.MaxTokens, Stream := false }
  match lib.Marshal glmReq with
  | .error err =>
    { response := none, err := some ("序列化请求失败: " ++ err), req := req, sent := [] }
  | .ok jsonReq =>
    match NewRequestWithContext lib ctx "POST" (p.apiURL ++ "/chat/completions") jsonReq with
    | .error err =>
      { response := none, err := some ("创建请求失败: " ++ err), req := req, sent := [] }
    | .ok httpReq =>
      let httpReq := httpReq.HeaderSet "Content-Type" (goString "application/json")
      let httpReq := httpReq.HeaderSet "Authorization" (goString "Bearer " ++ p.apiKey)
      match lib.Do httpReq with
      | .error err =>
        { response := none, err := some ("请求失败: " ++ err), req := req, sent := [httpReq] }
      | .ok resp =>
        match resp.Body with
        | .error err =>
          { response := none, err := some ("读取响应失败: " ++ err), req := req,
            sent := [httpReq] }
        | .ok body =>
          if resp.StatusCode ≠ 200 then
            match lib.UnmarshalGLMError body with
            | .ok errResp =>
              if errResp.Error.Message ≠ "" then
                { response := none, err := some ("GLM API错误: " ++ errResp.Error.Message),
                  req := req, sent := [httpReq] }
              else
                { response := none,
                  err := some ("GLM API错误: HTTP " ++ toString resp.StatusCode),
                  req := req, sent := [httpReq] }
            | .error _ =>
              { response := none,
                err := some ("GLM API错误: HTTP " ++ toString resp.StatusCode),
                req := req, sent := [httpReq] }
          else
            match lib.UnmarshalGLMResponse body with
            | .error err =>
              { response := none, err := some ("解析响应失败: " ++ err), req := req,
                sent := [httpReq] }
            | .ok glmResp =>
              let result : ChatCompletionResponse :=
                { ID := glmResp.ID, Object := "chat.completion", Model := glmResp.Model,
                  Choices := [],
                  Usage := { PromptTokens := glmResp.Usage.PromptTokens,
                             CompletionTokens := glmResp.Usage.CompletionTokens,
                             TotalTokens := glmResp.Usage.TotalTokens } }
              let result := glmResp.Choices.foldl (fun result choice =>
                { result with Choices := result.Choices ++
                    [{ Index := choice.Index, Message := choice.Message,
                       FinishReason := choice.FinishReason }] }) result
              { response := some result, err := none, req := req, sent := [httpReq] }

/-- `(*GLMProvider).GetModelName()`. -/
def GLMProvider.GetModelName (p : GLMProvider) : String := p.model

/-- `(*GLMProvider).GetProviderName()`. -/
def GLMProvider.GetProviderName (_p : GLMProvider) : String := "glm"

/-! ## deepseek.go -/

/-- `DeepSeekProvider`. -/
structure DeepSeekProvider where
  apiURL : String
  apiKey : GoString
  model : String

/-- `NewDeepSeekProvider(apiURL, apiKey, model)`. -/
def NewDeepSeekProvider (apiURL : String) (apiKey : GoString) (model : String) : DeepSeekProvider :=
  { apiURL := apiURL, apiKey := apiKey, model := model }

/-- `(*DeepSeekProvider).ChatCompletion(ctx, req)`. The log lines are left out. -/
def DeepSeekProvider.ChatCompletion (lib : Lib Ctx) (p : DeepSeekProvider) (ctx : Ctx)
    (req : ChatCompletionRequest) : CallResult Ctx :=
  let dsReq : deepseekRequest :=
    { Model := p.model, Messages := req.Messages, Temperature := req.Temperature,
      MaxTokens := req.MaxTokens, Stream := false }
  match lib.Marshal dsReq with
  | .error err =>
    { response := none, err := some ("序列化请求失败: " ++ err), req := req, sent := [] }
  | .ok jsonReq =>
    match NewRequestWithContext lib ctx "POST" (p.apiURL ++ "/chat/completions") jsonReq with
    | .error err =>
      { response := none, err := some ("创建请求失败: " ++ err), req := req, sent := [] }
    | .ok httpReq =>
      let httpReq := httpReq.HeaderSet "Content-Type" (goString "application/json")
      let httpReq := httpReq.HeaderSet "Authorization" (goString "Bearer " ++ p.apiKey)
      match lib.Do httpReq with
      | .error err =>
        { response := none, err := some ("请求失败: " ++ err), req := req, sent := [httpReq] }
      | .ok resp =>
        match resp.Body with
        | .error err =>
          { response := none, err := some ("读取响应失败: " ++ err), req := req,
            sent := [httpReq] }
        | .ok body =>
          if resp.StatusCode ≠ 200 then
            match (lib.UnmarshalDeepseekError body : Except String deepseekErrorResponse) with
            | .ok errResp =>
              if errResp.Error.Message ≠ "" then
                { response := none, err := some ("DeepSeek API错误: " ++ errResp.Error.Message),
                  req := req, sent := [httpReq] }
              else
                { response := none,
                  err := some ("DeepSeek API错误: HTTP " ++ toString resp.StatusCode),
                  req := req, sent := [httpReq] }
            | .error _ =>
              { response := none,
                err := some ("DeepSeek API错误: HTTP " ++ toString resp.StatusCode),
                req := req, sent := [httpReq] }
          else
            match (lib.UnmarshalDeepseekResponse body : Except String deepseekResponse) with
            | .error err =>
              { response := none, err := some ("解析响应失败: " ++ err), req := req,
                sent := [httpReq] }
            | .ok dsResp =>
              let result : ChatCompletionResponse :=
                { ID := dsResp.ID, Object := dsResp.Object, Model := dsResp.Model,
                  Choices := [],
                  Usage := { PromptTokens := dsResp.Usage.PromptTokens,
                             CompletionTokens := dsResp.Usage.CompletionTokens,
                             TotalTokens := dsResp.Usage.TotalTokens } }
              let result := dsResp.Choices.foldl (fun result choice =>
                { result with Choices := result.Choices ++
                    [{ Index := choice.Index, Message := choice.Message,
                       FinishReason := choice.FinishReason }] }) result
              { response := some result, err := none, req := req, sent := [httpReq] }

/-- `(*DeepSeekProvider).GetModelName()`. -/
def DeepSeekProvider.GetModelName (p : DeepSeekProvider) : String := p.model

/-- `(*DeepSeekProvider).GetProviderName()`. -/
def DeepSeekProvider.GetProviderName (_p : DeepSeekProvider) : String := "deepseek"

/-! ## qwen.go -/

/-- `QwenProvider`. -/
structure QwenProvider where
  apiURL : String
  apiKey : GoString
  model : String

/-- `NewQwenProvider(apiURL, apiKey, model)`. -/
def NewQwenProvider (apiURL : String) (apiKey : GoString) (model : String) : QwenProvider :=
  { apiURL := apiURL, apiKey := apiKey, model := model }

/-- `(*QwenProvider).ChatCompletion(ctx, req)`. The log lines are left out. -/
def QwenProvider.ChatCompletion (lib : Lib Ctx) (p : QwenProvider) (ctx : Ctx)
    (req : ChatCompletionRequest) : CallResult Ctx :=
  let qwenReq : qwenRequest :=
    { Model := p.model, Messages := req.Messages, Temperature := req.Temperature,
      MaxTokens := req.MaxTokens, Stream := false }
  match lib.Marshal qwenReq with
  | .error err =>
    { response := none, err := some ("序列化请求失败: " ++ err), req := req, sent := [] }
  | .ok jsonReq =>
    match NewRequestWithContext lib ctx "POST" (p.apiURL ++ "/chat/completions") jsonReq with
    | .error err =>
      { response := none, err := some ("创建请求失败: " ++ err), req := req, sent := [] }
    | .ok httpReq =>
      let httpReq := httpReq.HeaderSet "Content-Type" (goString "application/json")
      let httpReq := httpReq.HeaderSet "Authorization" (goString "Bearer " ++ p.apiKey)
      match lib.Do httpReq with
      | .error err =>
        { response := none, err := some ("请求失败: " ++ err), req := req, sent := [httpReq] }
      | .ok resp =>
        match resp.Body with
        | .error err =>
          { response := none, err := some ("读取响应失败: " ++ err), req := req,
            sent := [httpReq] }
        | .ok body =>
          if resp.StatusCode ≠ 200 then
            match (lib.UnmarshalDeepseekError body : Except String qwenErrorResponse) with
            | .ok errResp =>
              if errResp.Error.Message ≠ "" then
                { response := none, err := some ("Qwen API错误: " ++ errResp.Error.Message),
                  req := req, sent := [httpReq] }
              else
                { response := none,
                  err := some ("Qwen API错误: HTTP " ++ toString resp.StatusCode),
                  req := req, sent := [httpReq] }
            | .error _ =>
              { response := none,
                err := some ("Qwen API错误: HTTP " ++ toString resp.StatusCode),
                req := req, sent := [httpReq] }
          else
            match (lib.UnmarshalDeepseekResponse body : Except String qwenResponse) with
            | .error err =>
              { response := none, err := some ("解析响应失败: " ++ err), req := req,
                sent := [httpReq] }
            | .ok qwenResp =>
              let result : ChatCompletionResponse :=
                { ID := qwenResp.ID, Object := qwenResp.Object, Model := qwenResp.Model,
                  Choices := [],
                  Usage := { PromptTokens := qwenResp.Usage.PromptTokens,
                             CompletionTokens := qwenResp.Usage.CompletionTokens,
                             TotalTokens := qwenResp.Usage.TotalTokens } }
              let result := qwenResp.Choices.foldl (fun result choice =>
                { result with Choices := result.Choices ++
                    [{ Index := choice.Index, Message := choice.Message,
                       FinishReason := choice.FinishReason }] }) result
              { response := some result, err := none, req := req, sent := [httpReq] }

/-- `(*QwenProvider).GetModelName()`. -/
def QwenProvider.GetModelName (p : QwenProvider) : String := p.model

/-- `(*QwenProvider).GetProviderName()`. -/
def QwenProvider.GetProviderName (_p : QwenProvider) : String := "qwen"

/-! ## kimi.go -/

/-- `KimiProvider`. -/
structure KimiProvider where
  apiURL : String
  apiKey : GoString
  model : String

/-- `NewKimiProvider(apiURL, apiKey, model)`. -/
def NewKimiProvider (apiURL : String) (apiKey : GoString) (model : String) : KimiProvider :=
  { apiURL := apiURL, apiKey := apiKey, model := model }

/-- `(*KimiProvider).ChatCompletion(ctx, req)`. The log lines are left out. -/
def KimiProvider.ChatCompletion (lib : Lib Ctx) (p : KimiProvider) (ctx : Ctx)
    (req : ChatCompletionRequest) : CallResult Ctx :=
  let kimiReq : kimiRequest :=
    { Model := p.model, Messages := req.Messages, Temperature := req.Temperature,
      MaxTokens := req.MaxTokens, Stream := false }
  match lib.Marshal kimiReq with
  | .error err =>
    { response := none, err := some ("序列化请求失败: " ++ err), req := req, sent := [] }
  | .ok jsonReq =>
    match NewRequestWithContext lib ctx "POST" (p.apiURL ++ "/chat/completions") jsonReq with
    | .error err =>
      { response := none, err := some ("创建请求失败: " ++ err), req := req, sent := [] }
    | .ok httpReq =>
      let httpReq := httpReq.HeaderSet "Content-Type" (goString "application/json")
      let httpReq := httpReq.HeaderSet "Authorization" (goString "Bearer " ++ p.apiKey)
      match lib.Do httpReq with
      | .error err =>
        { response := none, err := some ("请求失败: " ++ err), req := req, sent := [httpReq] }
      | .ok resp =>
        match resp.Body with
        | .error err =>
          { response := none, err := some ("读取响应失败: " ++ err), req := req,
            sent := [httpReq] }
        | .ok body =>
          if resp.StatusCode ≠ 200 then
            match (lib.UnmarshalDeepseekError body : Except String kimiErrorResponse) with
            | .ok errResp =>
              if errResp.Error.Message ≠ "" then
                { response := none, err := some ("Kimi API错误: " ++ errResp.Error.Message),
                  req := req, sent := [httpReq] }
              else
                { response := none,
                  err := some ("Kimi API错误: HTTP " ++ toString resp.StatusCode),
                  req := req, sent := [httpReq] }
            | .error _ =>
              { response := none,
                err := some ("Kimi API错误: HTTP " ++ toString resp.StatusCode),
                req := req, sent := [httpReq] }
          else
            match (lib.UnmarshalDeepseekResponse body : Except String kimiResponse) with
            | .error err =>
              { response := none, err := some ("解析响应失败: " ++ err), req := req,
                sent := [httpReq] }
            | .ok kimiResp =>
              let result : ChatCompletionResponse :=
                { ID := kimiResp.ID, Object := kimiResp.Object, Model := kimiResp.Model,
                  Choices := [],
                  Usage := { PromptTokens := kimiResp.Usage.PromptTokens,
                             CompletionTokens := kimiResp.Usage.CompletionTokens,
                             TotalTokens := kimiResp.Usage.TotalTokens } }
              let result := kimiResp.Choices.foldl (fun result choice =>
                { result with Choices := result.Choices ++
                    [{ Index := choice.Index, Message := choice.Message,
                       FinishReason := choice.FinishReason }] }) result
              { response := some result, err := none, req := req, sent := [httpReq] }

/-- `(*KimiProvider).GetModelName()`. -/
def KimiProvider.GetModelName (p : KimiProvider) : String := p.model

/-- `(*KimiProvider).GetProviderName()`. -/
def KimiProvider.GetProviderName (_p : KimiProvider) : String := "kimi"

/-! ## openai.go -/

/-- `OpenAIProvider`. -/
structure OpenAIProvider where
  apiURL : String
  apiKey : GoString
  model : String

/-- `NewOpenAIProvider(apiURL, apiKey, model)`. -/
def NewOpenAIProvider (apiURL : String) (apiKey : GoString) (model : String) :
    OpenAIProvider :=
  { apiURL := apiURL, apiKey := apiKey, model := model }

/-- `(*OpenAIProvider).ChatCompletion(ctx, req)`: the model is written into the caller's
request, which is then marshalled as it is, and the response is decoded into the neutral
struct directly. The log lines are left out. -/
def OpenAIProvider.ChatCompletion (lib : Lib Ctx) (p : OpenAIProvider) (ctx : Ctx)
    (req : ChatCompletionRequest) : CallResult Ctx :=
  let req : ChatCompletionRequest := { req with Model := p.model }
  match lib.Marshal req with
  | .error err =>
    { response := none, err := some ("序列化请求失败: " ++ err), req := req, sent := [] }
  | .ok jsonReq =>
    match NewRequestWithContext lib ctx "POST" (p.apiURL ++ "/chat/completions") jsonReq with
    | .error err =>
      { response := none, err := some ("创建请求失败: " ++ err), req := req, sent := [] }
    | .ok httpReq =>
      let httpReq := httpReq.HeaderSet "Content-Type" (goString "application/json")
      let httpReq := httpReq.HeaderSet "Authorization" (goString "Bearer " ++ p.apiKey)
      match lib.Do httpReq with
      | .error err =>
        { response := none, err := some ("请求失败: " ++ err), req := req, sent := [httpReq] }
      | .ok resp =>
        match resp.Body with
        | .error err =>
          { response := none, err := some ("读取响应失败: " ++ err), req := req,
            sent := [httpReq] }
        | .ok body =>
          if resp.StatusCode ≠ 200 then
            match (lib.UnmarshalDeepseekError body : Except String openaiErrorResponse) with
            | .ok errResp =>
              if errResp.Error.Message ≠ "" then
                { response := none, err := some ("OpenAI API错误: " ++ errResp.Error.Message),
                  req := req, sent := [httpReq] }
              else
                { response := none,
                  err := some ("OpenAI API错误: HTTP " ++ toString resp.StatusCode),
                  req := req, sent := [httpReq] }
            | .error _ =>
              { response := none,
                err := some ("OpenAI API错误: HTTP " ++ toString resp.StatusCode),
                req := req, sent := [httpReq] }
          else
            match lib.UnmarshalChatCompletionResponse body with
            | .error err =>
              { response := none, err := some ("解析响应失败: " ++ err), req := req,
                sent := [httpReq] }
            | .ok result =>
              { response := some result, err := none, req := req, sent := [httpReq] }

/-- `(*OpenAIProvider).GetModelName()`. -/
def OpenAIProvider.GetModelName (p : OpenAIProvider) : String := p.model

/-- `(*OpenAIProvider).GetProviderName()`. -/
def OpenAIProvider.GetProviderName (_p : OpenAIProvider) : String := "openai"

/-! ## The adapters as values of the interface -/

/-- A `*GLMProvider` as an `AIProvider`. -/
def GLMProvider.toAIProvider (lib : Lib Ctx) (p : GLMProvider) : AIProvider Ctx :=
  { ChatCompletion := p.ChatCompletion lib, GetModelName := p.GetModelName,
    GetProviderName := p.GetProviderName }

/-- A `*DeepSeekProvider` as an `AIProvider`. -/
def DeepSeekProvider.toAIProvider (lib : Lib Ctx) (p : DeepSeekProvider) : AIProvider Ctx :=
  { ChatCompletion := p.ChatCompletion lib, GetModelName := p.GetModelName,
    GetProviderName := p.GetProviderName }

/-- A `*QwenProvider` as an `AIProvider`. -/
def QwenProvider.toAIProvider (lib : Lib Ctx) (p : QwenProvider) : AIProvider Ctx :=
  { ChatCompletion := p.ChatCompletion lib, GetModelName := p.GetModelName,
    GetProviderName := p.GetProviderName }

/-- A `*KimiProvider` as an `AIProvider`. -/
def KimiProvider.toAIProvider (lib : Lib Ctx) (p : KimiProvider) : AIProvider Ctx :=
  { ChatCompletion := p.ChatCompletion lib, GetModelName := p.GetModelName,
    GetProviderName := p.GetProviderName }

/-- A `*OpenAIProvider` as an `AIProvider`. -/
def OpenAIProvider.toAIProvider (lib : Lib Ctx) (p : OpenAIProvider) : AIProvider Ctx :=
  { ChatCompletion := p.ChatCompletion lib, GetModelName := p.GetModelName,
    GetProviderName := p.GetProviderName }

/-! ## manager.go: dispatch -/

/-- `(*AIManager).ChatCompletion(ctx, providerName, req)`: the provider is resolved with
`GetProvider`; an error of the resolution is returned as it is, otherwise the call is
handed to the provider. `GetProvider` never returns a nil provider with a nil error; the
last case stands for the nil dereference Go would run into. -/
def AIManager.ChatCompletion (m : AIManager (AIProvider Ctx)) (ctx : Ctx)
    (providerName : String) (req : ChatCompletionRequest) : CallResult Ctx :=
  match m.GetProvider providerName with
  | (_, some err) => { response := none, err := some err, req := req, sent := [] }
  | (some provider, none) => provider.ChatCompletion ctx req
  | (none, none) =>
    { response := none, err := some "invalid memory address or nil pointer dereference",
      req := req, sent := [] }

/-! ## Helpers for stating the adapter claims -/

/-- The vendor body of the four remapping adapters for a request: the adapter's model,
the request's messages, temperature and token limit, and no streaming. -/
def vendorRequest (model : String) (req : ChatCompletionRequest) : ChatCompletionRequest :=
  { Model := model, Messages := req.Messages, Temperature := req.Temperature,
    MaxTokens := req.MaxTokens, Stream := false }

/-- The HTTP request described by the spec for an endpoint, an API key and a body: a POST
to `{endpoint}/chat/completions` with the two headers. -/
def postRequest (ctx : Ctx) (apiURL : String) (apiKey : GoString) (body : List Byte) :
    HttpRequest Ctx :=
  { ctx := ctx, Method := "POST", URL := apiURL ++ "/chat/completions",
    Header := [("Content-Type", goString "application/json"),
               ("Authorization", goString "Bearer " ++ apiKey)],
    Body := body }

/-- The call reaches the vendor and the vendor answers: the request struct `vendorReq` is
marshalled to `jsonReq`, the HTTP request is created, and `client.Do` on the POST request
for `jsonReq` returns a response with status `status` whose body is read as `body`. -/
def Lib.answers (lib : Lib Ctx) (ctx : Ctx) (apiURL : String) (apiKey : GoString)
    (vendorReq : ChatCompletionRequest) (jsonReq : List Byte) (status : Int)
    (body : List Byte) : Prop :=
  lib.Marshal vendorReq = .ok jsonReq ∧
    lib.NewRequestError ctx "POST" (apiURL ++ "/chat/completions") = none ∧
    lib.Do (postRequest ctx apiURL apiKey jsonReq) =
      .ok { StatusCode := status, Body := .ok body }

/-- The neutral choices of a vendor response: one per vendor choice, in order. -/
def neutralChoices (choices : List vendorChoice) : List ChatChoice :=
  choices.map fun choice =>
    { Index := choice.Index, Message := choice.Message, FinishReason := choice.FinishReason }

/-- An error message shares a non-empty excerpt with a body: some byte of the body occurs
in the message. (Any non-empty common excerpt contains such a byte.) -/
def carriesExcerpt (message : String) (body : List Byte) : Bool :=
  body.any fun b => (goString message).contains b

/-- A failed call: no response, the error `message`. -/
def CallResult.failure (req : ChatCompletionRequest) (sent : List (HttpRequest Ctx))
    (message : String) : CallResult Ctx :=
  { response := none, err := some message, req := req, sent := sent }

/-- A successful call: the response and a nil error. -/
def CallResult.success (req : ChatCompletionRequest) (sent : List (HttpRequest Ctx))
    (response : ChatCompletionResponse) : CallResult Ctx :=
  { response := some response, err := none, req := req, sent := sent }

/-- The response of a call is the remapping of a vendor response with the given id, model
and choices: the call succeeds, id and model are the vendor's, and the choices are the
vendor's, as many and in the same order, each with the vendor's index, message and finish
reason. -/
def CallResult.remaps (cr : CallResult Ctx) (id model : String)
    (choices : List vendorChoice) : Prop :=
  ∃ resp : ChatCompletionResponse, cr.response = some resp ∧ cr.err = none ∧
    resp.ID = id ∧ resp.Model = model ∧ resp.Choices.length = choices.length ∧
    resp.Choices = choices.map fun choice =>
      { Index := choice.Index, Message := choice.Message,
        FinishReason := choice.FinishReason }

/-- The message of the GLM error envelope in a body: present when the body parses as the
envelope and the message is non-empty. -/
def Lib.glmErrorMessage (lib : Lib Ctx) (body : List Byte) : Option String :=
  match lib.UnmarshalGLMError body with
  | .ok errResp => if errResp.Error.Message ≠ "" then some errResp.Error.Message else none
  | .error _ => none

/-- The message of the DeepSeek, Qwen, Kimi or OpenAI error envelope in a body: present
when the body parses as the envelope and the message is non-empty. -/
def Lib.deepseekErrorMessage (lib : Lib Ctx) (body : List Byte) : Option String :=
  match lib.UnmarshalDeepseekError body with
  | .ok errResp => if errResp.Error.Message ≠ "" then some errResp.Error.Message else none
  | .error _ => none

/-- The error of the branch for a status other than 200: the vendor's message when there
is one, the HTTP status otherwise. -/
def errorBranchMessage (vendor : String) (status : Int) (message : Option String) : String :=
  match message with
  | some m => vendor ++ " API错误: " ++ m
  | none => vendor ++ " API错误: HTTP " ++ toString status

/-- The error of a decoding, if it failed. -/
def decodeError {α : Type} : Except String α → Option String
  | .ok _ => none
  | .error err => some err

/-- How the outcome of a call depends on the HTTP status: with status 200 the call
succeeds when the body decodes (`decoded = none`) and fails with the decode error
otherwise; with any other status it fails with the error of the error branch. -/
def CallResult.followsStatus (cr : CallResult Ctx) (vendor : String) (status : Int)
    (decoded : Option String) (message : Option String) : Prop :=
  (status = 200 →
    (decoded = none → cr.err = none ∧ cr.response ≠ none) ∧
    (∀ e, decoded = some e → cr.response = none ∧ cr.err = some ("解析响应失败: " ++ e))) ∧
  (status ≠ 200 →
    cr.response = none ∧ cr.err = some (errorBranchMessage vendor status message))

/-- A decoder given by a finite table of bodies and their decodings; every other body is
refused. It stands for `json.Unmarshal` on the bodies listed. -/
def tableDecode {α : Type} (table : List (List Byte × α)) (body : List Byte) :
    Except String α :=
  match table.lookup body with
  | some v => .ok v
  | none => .error "invalid character looking for beginning of value"

/-- The tables of a test library: what `json.Marshal` gives for the listed requests and
what `json.Unmarshal` gives for the listed bodies, per target struct. -/
structure JSONTables where
  marshal : List (ChatCompletionRequest × List Byte) := []
  glmResponse : List (List Byte × glmResponse) := []
  glmError : List (List Byte × glmErrorResponse) := []
  deepseekResponse : List (List Byte × deepseekResponse) := []
  deepseekError : List (List Byte × deepseekErrorResponse) := []
  chatCompletionResponse : List (List Byte × ChatCompletionResponse) := []

/-- A test double in the manner of `httptest.NewServer`: every request is answered with
the status `status` and the body `body`, and the JSON functions are given by tables. -/
def testLib (tables : JSONTables) (status : Int) (body : List Byte) : Lib Unit :=
  { Marshal := fun r =>
      match tables.marshal.lookup r with
      | some b => .ok b
      | none => .error "json: unsupported value"
    UnmarshalGLMResponse := tableDecode tables.glmResponse
    UnmarshalGLMError := tableDecode tables.glmError
    UnmarshalDeepseekResponse := tableDecode tables.deepseekResponse
    UnmarshalDeepseekError := tableDecode tables.deepseekError
    UnmarshalChatCompletionResponse := tableDecode tables.chatCompletionResponse
    NewRequestError := fun _ _ _ => none
    Do := fun _ => .ok { StatusCode := status, Body := .ok body } }

/-- The request of `TestGLMProvider_RequestFormat`: one user message, temperature 0.7
(as a `float32`) and 100 tokens. -/
def testRequest : ChatCompletionRequest :=
  { Model := "", Messages := [{ Role := "user", Content := "Hello" }],
    Temperature := { bits := 0x3f333333 }, MaxTokens := 100, Stream := false }

/-- The JSON text of the vendor body for `testRequest` and the model `glm-4`. -/
def testRequestJSON : List Byte :=
  goString ("\x7b\"model\":\"glm-4\",\"messages\":[\x7b\"role\":\"user\",\"content\":\"Hello\"\x7d]," ++
    "\"temperature\":0.7,\"max_tokens\":100\x7d")

/-- The body that the mock server of `TestGLMProvider_RequestFormat` returns. -/
def testBody : List Byte :=
  goString ("\x7b\"choices\":[\x7b\"finish_reason\":\"stop\",\"index\":0,\"message\":" ++
    "\x7b\"content\":\"Hello!\",\"role\":\"assistant\"\x7d\x7d],\"id\":\"test-id\",\"model\":\"glm-4\"," ++
    "\"usage\":\x7b\"completion_tokens\":5,\"prompt_tokens\":10,\"total_tokens\":15\x7d\x7d\n")

/-- The error body of `TestProvider_ErrorHandling` for the status 401. -/
def testErrorBody : List Byte :=
  goString "\x7b\"error\":\x7b\"message\":\"Invalid API key\"\x7d\x7d"

/-- A success body whose `total_tokens` (99) is not the sum of `prompt_tokens` (10) and
`completion_tokens` (5). -/
def testSkewBody : List Byte :=
  goString ("\x7b\"id\":\"skew\",\"object\":\"chat.completion\",\"model\":\"m\",\"choices\":[]," ++
    "\"usage\":\x7b\"prompt_tokens\":10,\"completion_tokens\":5,\"total_tokens\":99\x7d\x7d")

/-- A body that is no JSON at all, as a gateway in front of a vendor may return. -/
def testHTMLBody : List Byte := goString "<html>oops</html>"

/-- The tables for the test bodies. `testBody` has no `object` and no `created` key, so
these decode to the zero values; the success bodies have no `error` key, so they decode to
an empty error envelope; the error body decodes to its message; the HTML body decodes to
nothing. -/
def testTables : JSONTables :=
  { marshal := [({ testRequest with Model := "glm-4" }, testRequestJSON)]
    glmResponse :=
      [(testBody,
        { ID := "test-id", Created := 0, Model := "glm-4",
          Choices := [{ Index := 0, Message := { Role := "assistant", Content := "Hello!" },
                        FinishReason := "stop" }],
          Usage := { PromptTokens := 10, CompletionTokens := 5, TotalTokens := 15 } }),
       (testSkewBody,
        { ID := "skew", Created := 0, Model := "m", Choices := [],
          Usage := { PromptTokens := 10, CompletionTokens := 5, TotalTokens := 99 } })]
    glmError :=
      [(testBody, { Error := { Code := "", Message := "" } }),
       (testSkewBody, { Error := { Code := "", Message := "" } }),
       (testErrorBody, { Error := { Code := "", Message := "Invalid API key" } })]
    deepseekResponse :=
      [(testBody,
        { ID := "test-id", Object := "", Created := 0, Model := "glm-4",
          Choices := [{ Index := 0, Message := { Role := "assistant", Content := "Hello!" },
                        FinishReason := "stop" }],
          Usage := { PromptTokens := 10, CompletionTokens := 5, TotalTokens := 15 } }),
       (testSkewBody,
        { ID := "skew", Object := "chat.completion", Created := 0, Model := "m", Choices := [],
          Usage := { PromptTokens := 10, CompletionTokens := 5, TotalTokens := 99 } })]
    deepseekError :=
      [(testBody, { Error := { Message := "", Type_ := "", Code := "" } }),
       (testSkewBody, { Error := { Message := "", Type_ := "", Code := "" } }),
       (testErrorBody, { Error := { Message := "Invalid API key", Type_ := "", Code := "" } })]
    chatCompletionResponse :=
      [(testBody,
        { ID := "test-id", Object := "", Model := "glm-4",
          Choices := [{ Index := 0, Message := { Role := "assistant", Content := "Hello!" },
                        FinishReason := "stop" }],
          Usage := { PromptTokens := 10, CompletionTokens := 5, TotalTokens := 15 } }),
       (testSkewBody,
        { ID := "skew", Object := "chat.completion", Model := "m", Choices := [],
          Usage := { PromptTokens := 10, CompletionTokens := 5, TotalTokens := 99 } })] }

/-- The endpoint of the test server. -/
def testURL : String := "http://127.0.0.1:8080"

/-- The API key of the tests. -/
def testKey : GoString := goString "test-key"

/-- A registry holding one GLM adapter that talks to a test server answering `status` and
`body`. -/
def testManager (status : Int) (body : List Byte) : AIManager (AIProvider Unit) :=
  NewAIManager.RegisterProvider "glm"
    ((NewGLMProvider testURL testKey "glm-4").toAIProvider (testLib testTables status body))

end ai

namespace ai

variable {Ctx : Type}

/-! ## Fixtures for a request that asks for streaming -/

/-- The test request with `Stream` set, as a caller of an adapter may pass it. -/
def streamRequest : ChatCompletionRequest := { testRequest with Stream := true }

/-- The JSON text `json.Marshal` gives for `testRequest` with the model `gpt-3.5-turbo`:
the `stream` key is left out (`omitempty` on a false value). -/
def plainRequestJSON : List Byte :=
  goString ("\x7b\"model\":\"gpt-3.5-turbo\",\"messages\":[\x7b\"role\":\"user\"," ++
    "\"content\":\"Hello\"\x7d],\"temperature\":0.7,\"max_tokens\":100\x7d")

/-- The JSON text `json.Marshal` gives for `streamRequest` with the model
`gpt-3.5-turbo`: the `stream` key is present and true. -/
def streamRequestJSON : List Byte :=
  goString ("\x7b\"model\":\"gpt-3.5-turbo\",\"messages\":[\x7b\"role\":\"user\"," ++
    "\"content\":\"Hello\"\x7d],\"temperature\":0.7,\"max_tokens\":100,\"stream\":true\x7d")

/-- The tables of `testTables` with the marshalling of the two requests above. -/
def streamTables : JSONTables :=
  { testTables with
    marshal := [({ testRequest with Model := "gpt-3.5-turbo" }, plainRequestJSON),
                ({ streamRequest with Model := "gpt-3.5-turbo" }, streamRequestJSON)] }

/-- The bodies of a list of HTTP requests. -/
def bodies (sent : List (HttpRequest Ctx)) : List (List Byte) := sent.map fun r => r.Body

/-- A byte string occurs in another as a contiguous excerpt. -/
def occursIn (needle hay : List Byte) : Bool :=
  hay.tails.any fun t => needle.isPrefixOf t

end ai
/-! ## os and time, as far as the bootstrap and the caches use them -/

namespace os

/-- The process environment: the value of every variable, empty for a variable that is
not set. The values are taken as text. -/
abbrev Env := String → String

/-- `os.Getenv(key)`. -/
def Getenv (env : Env) (key : String) : String := env key

end os

namespace time

/-- A `time.Duration`: nanoseconds. -/
abbrev Duration := Int

/-- A `time.Time`, as the nanoseconds elapsed since the Unix epoch. -/
abbrev Time := Int

/-- `time.Minute`. -/
def Minute : Duration := 60 * 1000000000

/-- The zero value `time.Time{}`: January 1 of the year 1, 00:00 UTC. -/
def zeroTime : Time := -62135596800 * 1000000000

/-- The largest `Duration` (an `int64`). -/
def maxDuration : Duration := 2 ^ 63 - 1

/-- The smallest `Duration`. -/
def minDuration : Duration := -(2 ^ 63)

/-- `t.Sub(u)`: the difference, held at the largest or smallest duration when it does not
fit. -/
def Sub (t u : Time) : Duration :=
  let d := t - u
  if d < minDuration then minDuration
  else if maxDuration < d then maxDuration
  else d

/-- `time.Since(t)` when the clock reads `now`. -/
def Since (now t : Time) : Duration := Sub now t

end time

/-! ## backend/internal/models/ai.go -/

namespace models

/-- `AICharacter`. -/
structure AICharacter where
  ID : Nat
  Name : String
  Description : String
  SystemPrompt : String
  Avatar : String
  PersonalityTags : List String
  GreetingMessage : String
  IsActive : Bool
  CreatedAt : time.Time
  UpdatedAt : time.Time
  deriving DecidableEq, Repr

/-- `AIProvider`: a row of provider configuration. The stored API key is the byte string
handed to `crypto.Decrypt`. -/
structure AIProvider where
  ID : Nat
  Name : String
  DisplayName : String
  APIEndpoint : String
  ModelName : String
  MaxTokens : Int
  Temperature : ai.Float32
  APIKeyEncrypted : GoString
  IsActive : Bool
  CreatedAt : time.Time
  UpdatedAt : time.Time
  deriving DecidableEq, Repr

/-- `ChatMessage`: a stored message of a conversation. -/
structure ChatMessage where
  ID : Nat
  ConversationID : Nat
  SessionID : String
  UserIP : String
  CharacterID : Nat
  ProviderID : Nat
  MessageType : String
  Content : String
  TokenCount : Int
  CreatedAt : time.Time
  deriving DecidableEq, Repr

end models

/-! ## gorm, as far as the AI handler uses it -/

namespace gorm

/-- The database at the time of a query: per table either the rows, in the order the
database returns them, or the error the query fails with. -/
structure DB where
  ai_providers : Except String (List models.AIProvider)
  ai_characters : Except String (List models.AICharacter)

/-- `db.Where("is_active = ?", true).Find(&providers)`: the slice after the call (a failed
query leaves it `nil`, a successful one sets it to the active rows) and the error. -/
def DB.FindActiveProviders (db : DB) : Option (List models.AIProvider) × Option String :=
  match db.ai_providers with
  | .error err => (none, some err)
  | .ok rows => (some (rows.filter fun p => p.IsActive), none)

/-- `db.Where("is_active = ?", true).Find(&characters)`. -/
def DB.FindActiveCharacters (db : DB) : Option (List models.AICharacter) × Option String :=
  match db.ai_characters with
  | .error err => (none, some err)
  | .ok rows => (some (rows.filter fun c => c.IsActive), none)

/-- `range` over a slice that may be `nil`. -/
def elems {α : Type} : Option (List α) → List α
  | none => []
  | some xs => xs

end gorm
namespace ai

variable {Ctx : Type}

/-! ## manager.go: the environment fallback -/

/-- `(*AIManager).LoadProvidersFromEnv()`: for each vendor whose `_API_KEY` variable is
not empty, an adapter is registered with the endpoint and the model of the `_API_URL` and
`_MODEL` variables, or with the vendor's defaults where these are empty. -/
def AIManager.LoadProvidersFromEnv (lib : Lib Ctx) (env : os.Env)
    (m : AIManager (AIProvider Ctx)) : AIManager (AIProvider Ctx) :=
  -- GLM
  let m :=
    let apiKey := os.Getenv env "GLM_API_KEY"
    if apiKey ≠ "" then
      let apiURL := os.Getenv env "GLM_API_URL"
      let apiURL := if apiURL = "" then "https://open.bigmodel.cn/api/paas/v4" else apiURL
      let model := os.Getenv env "GLM_MODEL"
      let model := if model = "" then "glm-4-flash" else model
      m.RegisterProvider "glm" ((NewGLMProvider apiURL (goString apiKey) model).toAIProvider lib)
    else m
  -- DeepSeek
  let m :=
    let apiKey := os.Getenv env "DEEPSEEK_API_KEY"
    if apiKey ≠ "" then
      let apiURL := os.Getenv env "DEEPSEEK_API_URL"
      let apiURL := if apiURL = "" then "https://api.deepseek.com/v1" else apiURL
      let model := os.Getenv env "DEEPSEEK_MODEL"
      let model := if model = "" then "deepseek-chat" else model
      m.RegisterProvider "deepseek"
        ((NewDeepSeekProvider apiURL (goString apiKey) model).toAIProvider lib)
    else m
  -- Qwen
  let m :=
    let apiKey := os.Getenv env "QWEN_API_KEY"
    if apiKey ≠ "" then
      let apiURL := os.Getenv env "QWEN_API_URL"
      let apiURL :=
        if apiURL = "" then "https://dashscope.aliyuncs.com/compatible-mode/v1" else apiURL
      let model := os.Getenv env "QWEN_MODEL"
      let model := if model = "" then "qwen-turbo" else model
      m.RegisterProvider "qwen" ((NewQwenProvider apiURL (goString apiKey) model).toAIProvider lib)
    else m
  -- Kimi
  let m :=
    let apiKey := os.Getenv env "KIMI_API_KEY"
    if apiKey ≠ "" then
      let apiURL := os.Getenv env "KIMI_API_URL"
      let apiURL := if apiURL = "" then "https://api.moonshot.cn/v1" else apiURL
      let model := os.Getenv env "KIMI_MODEL"
      let model := if model = "" then "moonshot-v1-8k" else model
      m.RegisterProvider "kimi" ((NewKimiProvider apiURL (goString apiKey) model).toAIProvider lib)
    else m
  -- OpenAI
  let m :=
    let apiKey := os.Getenv env "OPENAI_API_KEY"
    if apiKey ≠ "" then
      let apiURL := os.Getenv env "OPENAI_API_URL"
      let apiURL := if apiURL = "" then "https://api.openai.com/v1" else apiURL
      let model := os.Getenv env "OPENAI_MODEL"
      let model := if model = "" then "gpt-3.5-turbo" else model
      m.RegisterProvider "openai"
        ((NewOpenAIProvider apiURL (goString apiKey) model).toAIProvider lib)
    else m
  m

end ai

/-! ## backend/internal/api/handlers/ai.go -/

namespace handlers

open ai

variable {Ctx : Type}

/-- One element of the model list of `GetModels`: a map with the keys `name`, `model` and
`display_name`. -/
structure ModelEntry where
  name : String
  model : String
  display_name : String
  deriving DecidableEq, Repr

/-- `AIHandler`: the registry and the two caches (`nil` slices are `none`). The database
handle is the `gorm.DB` argument of the methods, which stands for the database at the time
of the call; the mutex is left out, the methods being taken one at a time. -/
structure AIHandler (Ctx : Type) where
  aiManager : AIManager (AIProvider Ctx)
  characterCache : Option (List models.AICharacter)
  characterCacheTime : time.Time
  modelCache : Option (List ModelEntry)
  modelCacheTime : time.Time
  cacheDuration : time.Duration

/-- The loop body of `loadProvidersFromDB` for one row, on the registry: the key is the
decrypted stored value, or the stored value itself when decryption fails; a row with an
empty key or an unknown name is passed over. -/
def loadProvider (lib : Lib Ctx) (env : os.Env) (m : AIManager (AIProvider Ctx))
    (p : models.AIProvider) : AIManager (AIProvider Ctx) :=
  let (apiKey, err) := crypto.Decrypt (goString (os.Getenv env "ENCRYPTION_KEY")) p.APIKeyEncrypted
  let apiKey := if err ≠ none then p.APIKeyEncrypted else apiKey
  if apiKey = [] then m
  else if p.Name = "glm" then
    m.RegisterProvider p.Name ((NewGLMProvider p.APIEndpoint apiKey p.ModelName).toAIProvider lib)
  else if p.Name = "deepseek" then
    m.RegisterProvider p.Name
      ((NewDeepSeekProvider p.APIEndpoint apiKey p.ModelName).toAIProvider lib)
  else if p.Name = "qwen" then
    m.RegisterProvider p.Name ((NewQwenProvider p.APIEndpoint apiKey p.ModelName).toAIProvider lib)
  else if p.Name = "kimi" then
    m.RegisterProvider p.Name ((NewKimiProvider p.APIEndpoint apiKey p.ModelName).toAIProvider lib)
  else if p.Name = "openai" then
    m.RegisterProvider p.Name
      ((NewOpenAIProvider p.APIEndpoint apiKey p.ModelName).toAIProvider lib)
  else m

/-- `(*AIHandler).loadProvidersFromDB()`: nothing is loaded when the query fails;
otherwise the active rows are gone through in order. The log lines are left out. -/
def AIHandler.loadProvidersFromDB (lib : Lib Ctx) (env : os.Env) (db : gorm.DB)
    (h : AIHandler Ctx) : AIHandler Ctx :=
  match db.FindActiveProviders with
  | (_, some _) => h
  | (providers, none) =>
    { h with aiManager := (gorm.elems providers).foldl (loadProvider lib env) h.aiManager }

/-- `NewAIHandler(db)`: an empty registry, empty caches and a cache duration of five
minutes; the providers are loaded from the database, and from the environment when that
leaves the registry without a provider. -/
def NewAIHandler (lib : Lib Ctx) (env : os.Env) (db : gorm.DB) : AIHandler Ctx :=
  let handler : AIHandler Ctx :=
    { aiManager := NewAIManager, characterCache := none, characterCacheTime := time.zeroTime,
      modelCache := none, modelCacheTime := time.zeroTime, cacheDuration := 5 * time.Minute }
  let handler := handler.loadProvidersFromDB lib env db
  if handler.aiManager.GetAllProviders.length = 0 then
    { handler with aiManager := handler.aiManager.LoadProvidersFromEnv lib env }
  else handler

/-- What a handler method does: the handler after the call, the status and the payload
written with `c.JSON`, and the number of queries sent to the database. -/
structure Served (Ctx : Type) (α : Type) where
  handler : AIHandler Ctx
  status : Int
  payload : α
  queries : Nat

/-- `(*AIHandler).ReloadProviders(c)`: the registry is cleared and loaded again as in
`NewAIHandler`, and the model cache and its time are reset; the payload is the list of the
provider names. -/
def AIHandler.ReloadProviders (lib : Lib Ctx) (env : os.Env) (db : gorm.DB)
    (h : AIHandler Ctx) : Served Ctx (List String) :=
  let h := { h with aiManager := h.aiManager.ClearProviders }
  let h := h.loadProvidersFromDB lib env db
  let h :=
    if h.aiManager.GetAllProviders.length = 0 then
      { h with aiManager := h.aiManager.LoadProvidersFromEnv lib env }
    else h
  let h := { h with modelCache := none, modelCacheTime := time.zeroTime }
  { handler := h, status := 200, payload := h.aiManager.GetAllProviders, queries := 1 }

/-- The second loop of `GetModels`: one entry per registered provider. -/
def registryModels (m : AIManager (AIProvider Ctx)) : List ModelEntry :=
  m.GetAllProviders.foldl (fun modelList name =>
    match (m.GetProvider name).1 with
    | some provider =>
      modelList ++ [{ name := name, model := provider.GetModelName,
                      display_name := name ++ " - " ++ provider.GetModelName }]
    | none => modelList) []

/-- `(*AIHandler).GetModels(c)`, with the two readings of the clock as arguments: `now`
when the cache is checked and `stored` when it is filled. A fresh cache is served as it
is; otherwise the list is built from the active rows, or from the registry when there is
none, and cached. -/
def AIHandler.GetModels (h : AIHandler Ctx) (db : gorm.DB) (now stored : time.Time) :
    Served Ctx (Option (List ModelEntry)) :=
  if h.modelCache ≠ none ∧ time.Since now h.modelCacheTime < h.cacheDuration then
    let models := h.modelCache
    { handler := h, status := 200, payload := models, queries := 0 }
  else
    let providers := db.FindActiveProviders.1
    let modelList : List ModelEntry := []
    let modelList := (gorm.elems providers).foldl (fun modelList p =>
      modelList ++ [{ name := p.Name, model := p.ModelName, display_name := p.DisplayName }])
      modelList
    let modelList :=
      if modelList.length = 0 then modelList ++ registryModels h.aiManager else modelList
    { handler := { h with modelCache := some modelList, modelCacheTime := stored },
      status := 200, payload := some modelList, queries := 1 }

/-- `(*AIHandler).GetCharacters(c)`, with the two readings of the clock as arguments. -/
def AIHandler.GetCharacters (h : AIHandler Ctx) (db : gorm.DB) (now stored : time.Time) :
    Served Ctx (Option (List models.AICharacter)) :=
  if h.characterCache ≠ none ∧ time.Since now h.characterCacheTime < h.cacheDuration then
    let characters := h.characterCache
    { handler := h, status := 200, payload := characters, queries := 0 }
  else
    let characters := db.FindActiveCharacters.1
    { handler := { h with characterCache := characters, characterCacheTime := stored },
      status := 200, payload := characters, queries := 1 }

end handlers
namespace handlers

open ai

variable {Ctx : Type}

/-- `ChatRequest`, after `c.ShouldBindJSON`. -/
structure ChatRequest where
  Message : String
  CharacterID : Nat
  Provider : String
  SessionID : String
  ConversationID : Nat
  deriving DecidableEq, Repr

/-- The anonymous struct `TokenUsage` of `ChatResponse`. -/
structure TokenUsage where
  Prompt : Int
  Completion : Int
  Total : Int
  deriving DecidableEq, Repr

/-- `ChatResponse`. -/
structure ChatResponse where
  Reply : String
  SessionID : String
  ConversationID : Nat
  Model : String
  TokenUsage : TokenUsage
  deriving DecidableEq, Repr

/-- What `Chat` writes with `c.JSON`: a status with an error message (`gin.H` with the key
`error`) or a status with a `ChatResponse`. The last case stands for the nil dereference
Go would run into on a nil response with a nil error, which no adapter returns. -/
inductive ChatAnswer where
  | error (status : Int) (message : String)
  | ok (status : Int) (response : ChatResponse)
  | nilDereference
  deriving DecidableEq, Repr

/-- `(*AIHandler).Chat(c)` from the check of the provider on: `req` is the bound request
with the id of the conversation it belongs to, `character` the character found and
`chatHistory` the stored messages of the conversation (at most 20, oldest first). The
steps before it (binding, the length check, finding or creating the conversation, finding
the character) each answer by themselves when they fail. The two message rows saved after
the call and the update of the conversation time are left out, as are the log lines. -/
def AIHandler.Chat (h : AIHandler Ctx) (ctx : Ctx) (req : ChatRequest)
    (character : models.AICharacter) (chatHistory : List models.ChatMessage) : ChatAnswer :=
  if !h.aiManager.HasProvider req.Provider && req.Provider ≠ "" then
    .error 400 "指定的AI模型不可用"
  else
    let messages : List ChatMessage := [{ Role := "system", Content := character.SystemPrompt }]
    let messages := chatHistory.foldl (fun messages msg =>
      messages ++ [{ Role := msg.MessageType, Content := msg.Content }]) messages
    let messages := messages ++ [{ Role := "user", Content := req.Message }]
    let aiReq : ChatCompletionRequest :=
      { Model := "", Messages := messages, Temperature := { bits := 0x3f333333 },
        MaxTokens := 2000, Stream := false }
    let cr := h.aiManager.ChatCompletion ctx req.Provider aiReq
    match cr.err, cr.response with
    | some _, _ => .error 500 "AI服务暂时不可用，请稍后重试"
    | none, none => .nilDereference
    | none, some resp =>
      match resp.Choices with
      | [] => .error 500 "AI没有返回响应"
      | choice :: _ =>
        let reply := choice.Message.Content
        .ok 200
          { Reply := reply, SessionID := req.SessionID, ConversationID := req.ConversationID,
            Model := resp.Model,
            TokenUsage := { Prompt := resp.Usage.PromptTokens,
                            Completion := resp.Usage.CompletionTokens,
                            Total := resp.Usage.TotalTokens } }

/-- A handler around a registry, with empty caches. -/
def testHandler (m : AIManager (AIProvider Unit)) : AIHandler Unit :=
  { aiManager := m, characterCache := none, characterCacheTime := time.zeroTime,
    modelCache := none, modelCacheTime := time.zeroTime, cacheDuration := 5 * time.Minute }

/-- A chat request for the default provider in the conversation 1. -/
def testChatRequest : ChatRequest :=
  { Message := "Hello", CharacterID := 1, Provider := "", SessionID := "s", ConversationID := 1 }

/-- An active character. -/
def testCharacter : models.AICharacter :=
  { ID := 1, Name := "guide", Description := "", SystemPrompt := "You are a guide.",
    Avatar := "", PersonalityTags := [], GreetingMessage := "", IsActive := true,
    CreatedAt := 0, UpdatedAt := 0 }

end handlers

namespace handlers

open ai

/-- The request `Chat` hands to the registry: the character's system prompt, the stored
messages of the conversation in order, and the user's message; temperature 0.7 and 2000
tokens. -/
def chatCompletionRequest (character : models.AICharacter)
    (chatHistory : List models.ChatMessage) (req : ChatRequest) : ChatCompletionRequest :=
  { Model := "",
    Messages := [{ Role := "system", Content := character.SystemPrompt }] ++
      chatHistory.map (fun msg => { Role := msg.MessageType, Content := msg.Content }) ++
      [{ Role := "user", Content := req.Message }],
    Temperature := { bits := 0x3f333333 }, MaxTokens := 2000, Stream := false }

/-- The JSON text of the GLM body for the test chat in a new conversation. -/
def chatRequestJSON : List Byte :=
  goString ("\x7b\"model\":\"glm-4\",\"messages\":[\x7b\"role\":\"system\",\"content\":" ++
    "\"You are a guide.\"\x7d,\x7b\"role\":\"user\",\"content\":\"Hello\"\x7d]," ++
    "\"temperature\":0.7,\"max_tokens\":2000\x7d")

/-- The tables of `testTables` with the marshalling of the test chat. -/
def chatTables : JSONTables :=
  { testTables with
    marshal := [(vendorRequest "glm-4" (chatCompletionRequest testCharacter [] testChatRequest),
                 chatRequestJSON)] }

/-- A handler whose registry holds one GLM adapter that talks to a test server answering
`status` and `body`. -/
def chatHandler (status : Int) (body : List Byte) : AIHandler Unit :=
  testHandler (NewAIManager.RegisterProvider "glm"
    ((NewGLMProvider testURL testKey "glm-4").toAIProvider (testLib chatTables status body)))

end handlers
/-! ## Helpers for stating the bootstrap claims -/

namespace ai

variable {Ctx : Type}

/-- The closed set of vendor names. -/
def vendorNames : List String := ["glm", "deepseek", "qwen", "kimi", "openai"]

/-- The adapter for a vendor name, an endpoint, a key and a model; none for a name outside
the closed set. -/
def adapterFor (lib : Lib Ctx) (name apiURL : String) (apiKey : GoString) (model : String) :
    Option (AIProvider Ctx) :=
  if name = "glm" then some ((NewGLMProvider apiURL apiKey model).toAIProvider lib)
  else if name = "deepseek" then some ((NewDeepSeekProvider apiURL apiKey model).toAIProvider lib)
  else if name = "qwen" then some ((NewQwenProvider apiURL apiKey model).toAIProvider lib)
  else if name = "kimi" then some ((NewKimiProvider apiURL apiKey model).toAIProvider lib)
  else if name = "openai" then some ((NewOpenAIProvider apiURL apiKey model).toAIProvider lib)
  else none

/-- A sequence of registrations, some of which are passed over (`none`). -/
def AIManager.registerAll {Provider : Type} (regs : List (String × Option Provider))
    (m : AIManager Provider) : AIManager Provider :=
  regs.foldl (fun m r =>
    match r.2 with
    | some a => m.RegisterProvider r.1 a
    | none => m) m

/-- Every registered name is in the closed set, and the adapter stored under a name
reports that name. -/
def AIManager.tagged (m : AIManager (AIProvider Ctx)) : Prop :=
  ∀ n ∈ m.GetAllProviders, n ∈ vendorNames ∧
    ∃ a, m.GetProvider n = (some a, none) ∧ a.GetProviderName = n

/-- The environment variables of a vendor and its defaults: the registry name, the
variables of the key, the endpoint and the model, the default endpoint and the default
model. -/
structure VendorEnv where
  name : String
  keyVariable : String
  urlVariable : String
  modelVariable : String
  defaultURL : String
  defaultModel : String

/-- The five vendors, in the order `LoadProvidersFromEnv` goes through them. -/
def vendorEnvs : List VendorEnv :=
  [{ name := "glm", keyVariable := "GLM_API_KEY", urlVariable := "GLM_API_URL",
     modelVariable := "GLM_MODEL", defaultURL := "https://open.bigmodel.cn/api/paas/v4",
     defaultModel := "glm-4-flash" },
   { name := "deepseek", keyVariable := "DEEPSEEK_API_KEY", urlVariable := "DEEPSEEK_API_URL",
     modelVariable := "DEEPSEEK_MODEL", defaultURL := "https://api.deepseek.com/v1",
     defaultModel := "deepseek-chat" },
   { name := "qwen", keyVariable := "QWEN_API_KEY", urlVariable := "QWEN_API_URL",
     modelVariable := "QWEN_MODEL",
     defaultURL := "https://dashscope.aliyuncs.com/compatible-mode/v1",
     defaultModel := "qwen-turbo" },
   { name := "kimi", keyVariable := "KIMI_API_KEY", urlVariable := "KIMI_API_URL",
     modelVariable := "KIMI_MODEL", defaultURL := "https://api.moonshot.cn/v1",
     defaultModel := "moonshot-v1-8k" },
   { name := "openai", keyVariable := "OPENAI_API_KEY", urlVariable := "OPENAI_API_URL",
     modelVariable := "OPENAI_MODEL", defaultURL := "https://api.openai.com/v1",
     defaultModel := "gpt-3.5-turbo" }]

/-- A vendor is configured in the environment: its key variable is not empty. -/
def VendorEnv.configured (v : VendorEnv) (env : os.Env) : Bool :=
  decide (env v.keyVariable ≠ "")

/-- The adapter the environment describes for a vendor: the endpoint and the model of the
variables, or the defaults where these are empty, and the key of the key variable. -/
def VendorEnv.adapter (lib : Lib Ctx) (env : os.Env) (v : VendorEnv) : Option (AIProvider Ctx) :=
  adapterFor lib v.name (if env v.urlVariable = "" then v.defaultURL else env v.urlVariable)
    (goString (env v.keyVariable))
    (if env v.modelVariable = "" then v.defaultModel else env v.modelVariable)

/-- The registration of a vendor from the environment: passed over when the vendor is not
configured. -/
def VendorEnv.registration (lib : Lib Ctx) (env : os.Env) (v : VendorEnv) :
    String × Option (AIProvider Ctx) :=
  (v.name, if v.configured env then v.adapter lib env else none)

end ai

namespace handlers

open ai

variable {Ctx : Type}

/-- The key a row is loaded with: the decrypted stored value, or the stored value itself
when decryption fails. -/
def rowKey (env : os.Env) (p : models.AIProvider) : GoString :=
  match crypto.Decrypt (goString (os.Getenv env "ENCRYPTION_KEY")) p.APIKeyEncrypted with
  | (apiKey, none) => apiKey
  | (_, some _) => p.APIKeyEncrypted

/-- A row is passed over: its key is empty or its name is outside the closed set. -/
def rowSkipped (env : os.Env) (p : models.AIProvider) : Bool :=
  decide (rowKey env p = []) || !vendorNames.contains p.Name

/-- The registration of a row. -/
def rowRegistration (lib : Lib Ctx) (env : os.Env) (p : models.AIProvider) :
    String × Option (AIProvider Ctx) :=
  (p.Name,
    if rowKey env p = [] then none
    else adapterFor lib p.Name p.APIEndpoint (rowKey env p) p.ModelName)

/-- The handler `NewAIHandler` starts from, before the providers are loaded. -/
def emptyHandler : AIHandler Ctx :=
  { aiManager := NewAIManager, characterCache := none, characterCacheTime := time.zeroTime,
    modelCache := none, modelCacheTime := time.zeroTime, cacheDuration := 5 * time.Minute }

end handlers
namespace handlers

open ai

/-- An environment with a key for GLM, and a key and a model for OpenAI; every other
variable is unset. -/
def testEnv : os.Env := fun key =>
  if key = "GLM_API_KEY" then "sk-glm"
  else if key = "OPENAI_API_KEY" then "sk-openai"
  else if key = "OPENAI_MODEL" then "gpt-4o"
  else ""

/-- A GLM row whose stored key is plain text, which is no base64. -/
def plainRow : models.AIProvider :=
  { ID := 1, Name := "glm", DisplayName := "GLM-4", APIEndpoint := testURL,
    ModelName := "glm-4", MaxTokens := 4000, Temperature := { bits := 0x3f333333 },
    APIKeyEncrypted := goString "sk-plain", IsActive := true, CreatedAt := 0, UpdatedAt := 0 }

/-- A row of a vendor outside the closed set. -/
def unknownRow : models.AIProvider :=
  { plainRow with ID := 2, Name := "gemini", DisplayName := "Gemini", ModelName := "gemini-pro" }

/-- A DeepSeek row without a stored key. -/
def emptyKeyRow : models.AIProvider :=
  { plainRow with ID := 3, Name := "deepseek", DisplayName := "DeepSeek",
                  ModelName := "deepseek-chat", APIKeyEncrypted := [] }

/-- A Kimi row that is not active. -/
def inactiveRow : models.AIProvider :=
  { plainRow with ID := 4, Name := "kimi", DisplayName := "Kimi", ModelName := "moonshot-v1-8k",
                  IsActive := false }

/-- A Qwen row whose stored key is plain text. -/
def qwenRow : models.AIProvider :=
  { plainRow with ID := 5, Name := "qwen", DisplayName := "Qwen", ModelName := "qwen-turbo",
                  APIKeyEncrypted := goString "sk-qwen" }

/-- A database with the five rows above and one character. -/
def testDB : gorm.DB :=
  { ai_providers := .ok [plainRow, unknownRow, emptyKeyRow, inactiveRow, qwenRow],
    ai_characters := .ok [testCharacter] }

/-- A database without rows. -/
def emptyDB : gorm.DB := { ai_providers := .ok [], ai_characters := .ok [] }

end handlers
/-! ## Helpers for stating the cache claims -/

namespace handlers

open ai

variable {Ctx : Type}

/-- The model catalog of a registry and a database: one entry per active row, or, when
there is no such row (or the query fails), one entry per registered provider. -/
def modelCatalog (m : AIManager (AIProvider Ctx)) (db : gorm.DB) : List ModelEntry :=
  let rows := (gorm.elems db.FindActiveProviders.1).map fun p =>
    ({ name := p.Name, model := p.ModelName, display_name := p.DisplayName } : ModelEntry)
  if rows = [] then registryModels m else rows

/-- One call of a cached handler method: the database at the time of the call and the two
readings of the clock. -/
structure CacheCall where
  db : gorm.DB
  now : time.Time
  stored : time.Time

/-- Successive calls of `GetModels`: the handler after them and what each call did, in
order. -/
def AIHandler.GetModelsSeq (h : AIHandler Ctx) :
    List CacheCall → AIHandler Ctx × List (Served Ctx (Option (List ModelEntry)))
  | [] => (h, [])
  | c :: rest =>
    let s := h.GetModels c.db c.now c.stored
    let r := s.handler.GetModelsSeq rest
    (r.1, s :: r.2)

/-- Successive calls of `GetCharacters`: the handler after them and what each call did,
in order. -/
def AIHandler.GetCharactersSeq (h : AIHandler Ctx) :
    List CacheCall → AIHandler Ctx × List (Served Ctx (Option (List models.AICharacter)))
  | [] => (h, [])
  | c :: rest =>
    let s := h.GetCharacters c.db c.now c.stored
    let r := s.handler.GetCharactersSeq rest
    (r.1, s :: r.2)

/-- A database whose only provider row is the Qwen row and which holds no character. -/
def laterDB : gorm.DB := { ai_providers := .ok [qwenRow], ai_characters := .ok [] }

end handlers

/-! # Theorems -/

namespace crypto

/-! ## base64 -/

theorem decodeMap_encodeChar (v : Nat) (h : v < 64) : decodeMap (encodeChar v) = some v := by
  have key : ∀ w : Fin 64, decodeMap (encodeChar w.val) = some w.val := by decide
  exact key ⟨v, h⟩

theorem byte_ofNat_val (n : Nat) (b : Byte) (h : n % 256 = b.val) : (Fin.ofNat n : Byte) = b := by
  apply Fin.ext
  simpa [Fin.ofNat] using h

theorem decodeLoop_quantum (v0 v1 v2 v3 : Nat) (h0 : v0 < 64) (h1 : v1 < 64) (h2 : v2 < 64)
    (h3 : v3 < 64) (cs : List Byte) :
    decodeLoop (encodeChar v0 :: encodeChar v1 :: encodeChar v2 :: encodeChar v3 :: cs) [] =
      match decodeLoop cs [] with
      | .ok rest =>
        .ok (Fin.ofNat ((v0 * 262144 + v1 * 4096 + v2 * 64 + v3) / 65536) ::
             Fin.ofNat ((v0 * 262144 + v1 * 4096 + v2 * 64 + v3) / 256) ::
             Fin.ofNat (v0 * 262144 + v1 * 4096 + v2 * 64 + v3) :: rest)
      | .error err => .error err := by
  simp only [decodeLoop, decodeMap_encodeChar, h0, h1, h2, h3, List.nil_append,
    List.singleton_append, List.cons_append, quantumBytes]

theorem decodeLoop_pad2 (v0 v1 : Nat) (h0 : v0 < 64) (h1 : v1 < 64) :
    decodeLoop [encodeChar v0, encodeChar v1, padChar, padChar] [] =
      .ok [Fin.ofNat ((v0 * 262144 + v1 * 4096) / 65536)] := by
  have hp : decodeMap padChar = none := by decide
  have hp' : ¬ (padChar = 10 ∨ padChar = 13) := by decide
  simp [decodeLoop, decodePadding, quantumBytes, decodeMap_encodeChar, h0, h1, hp, hp',
    skipNewlines]

theorem decodeLoop_pad1 (v0 v1 v2 : Nat) (h0 : v0 < 64) (h1 : v1 < 64) (h2 : v2 < 64) :
    decodeLoop [encodeChar v0, encodeChar v1, encodeChar v2, padChar] [] =
      .ok [Fin.ofNat ((v0 * 262144 + v1 * 4096 + v2 * 64) / 65536),
           Fin.ofNat ((v0 * 262144 + v1 * 4096 + v2 * 64) / 256)] := by
  have hp : decodeMap padChar = none := by decide
  have hp' : ¬ (padChar = 10 ∨ padChar = 13) := by decide
  simp [decodeLoop, decodePadding, quantumBytes, decodeMap_encodeChar, h0, h1, h2, hp, hp',
    skipNewlines]

theorem DecodeString_EncodeToString (bs : List Byte) :
    DecodeString (EncodeToString bs) = .ok bs := by
  unfold DecodeString
  induction bs using EncodeToString.induct with
  | case1 a b c rest ih =>
    have ha := a.isLt
    have hb := b.isLt
    have hc := c.isLt
    rw [EncodeToString]
    rw [decodeLoop_quantum _ _ _ _ (Nat.mod_lt _ (by decide)) (Nat.mod_lt _ (by decide))
      (Nat.mod_lt _ (by decide)) (Nat.mod_lt _ (by decide)), ih]
    simp only [Except.ok.injEq, List.cons.injEq, and_true]
    refine ⟨byte_ofNat_val _ _ ?_, byte_ofNat_val _ _ ?_, byte_ofNat_val _ _ ?_⟩ <;> omega
  | case2 a b =>
    have ha := a.isLt
    have hb := b.isLt
    rw [EncodeToString]
    rw [decodeLoop_pad1 _ _ _ (Nat.mod_lt _ (by decide)) (Nat.mod_lt _ (by decide))
      (Nat.mod_lt _ (by decide))]
    simp only [Except.ok.injEq, List.cons.injEq, and_true]
    refine ⟨byte_ofNat_val _ _ ?_, byte_ofNat_val _ _ ?_⟩ <;> omega
  | case3 a =>
    have ha := a.isLt
    rw [EncodeToString]
    rw [decodeLoop_pad2 _ _ (Nat.mod_lt _ (by decide)) (Nat.mod_lt _ (by decide))]
    simp only [Except.ok.injEq, List.cons.injEq, and_true]
    exact byte_ofNat_val _ _ (by omega)
  | case4 => rfl

theorem EncodeToString_injective (a b : List Byte) (h : EncodeToString a = EncodeToString b) :
    a = b := by
  have := DecodeString_EncodeToString a
  rw [h, DecodeString_EncodeToString] at this
  exact (Except.ok.inj this).symm

theorem EncodeToString_ne_nil (bs : List Byte) (h : bs ≠ []) : EncodeToString bs ≠ [] := by
  intro h0
  exact h (EncodeToString_injective bs [] (by rw [h0]; rfl))

theorem decodePadding_length (dbuf : List Nat) (cs data : List Byte)
    (h : decodePadding dbuf cs = .ok data) : data.length < dbuf.length := by
  unfold decodePadding at h
  repeat' split at h
  all_goals first
    | (simp at h; done)
    | (simp only [Except.ok.injEq] at h; subst h; simp [quantumBytes])

theorem decodeLoop_length (s : List Byte) : ∀ (dbuf : List Nat) (data : List Byte),
    decodeLoop s dbuf = .ok data → data.length ≤ s.length + dbuf.length := by
  induction s with
  | nil =>
    intro dbuf data h
    cases dbuf with
    | nil => simp [decodeLoop] at h; simp [← h]
    | cons d ds => simp [decodeLoop] at h
  | cons c cs ih =>
    intro dbuf data h
    unfold decodeLoop at h
    repeat' split at h
    all_goals first
      | (simp at h; done)
      | (have hb := ih _ _ h; simp at hb ⊢; omega)
      | (have hb := decodePadding_length _ _ _ h; simp only [List.length_cons]; omega)
      | (rename_i rest hrest; have := ih [] rest hrest
         simp only [Except.ok.injEq] at h; subst h
         simp [quantumBytes] at this ⊢; omega)

/-! ## AES-GCM -/

theorem byte_xor_cancel (x k : Byte) : (x ^^^ k) ^^^ k = x := by
  apply Fin.ext
  have hx := x.isLt
  have hk := k.isLt
  have h1 : x.val ^^^ k.val < 256 := @Nat.xor_lt_two_pow x.val k.val 8 hx hk
  show ((x.val ^^^ k.val) % 256 ^^^ k.val) % 256 = x.val
  rw [Nat.mod_eq_of_lt h1, Nat.xor_assoc, Nat.xor_self, Nat.xor_zero, Nat.mod_eq_of_lt hx]

theorem xorBytes_length (a b : List Byte) (h : b.length = a.length) :
    (xorBytes a b).length = a.length := by
  simp [xorBytes, h]

theorem xorBytes_cancel : ∀ (a b : List Byte), b.length = a.length →
    xorBytes (xorBytes a b) b = a
  | [], _, _ => by simp [xorBytes]
  | x :: xs, [], h => by simp at h
  | x :: xs, k :: ks, h => by
    have ih := xorBytes_cancel xs ks (by simpa using h)
    simp only [xorBytes, List.zipWith_cons_cons, List.cons.injEq] at ih ⊢
    exact ⟨byte_xor_cancel x k, ih⟩

theorem keystream_length (g : GCM) (j0 : List Byte) (n : Nat) :
    (g.keystream j0 n).length = n := by
  simp [GCM.keystream]

theorem counterCrypt_length (g : GCM) (j0 data : List Byte) :
    (g.counterCrypt j0 data).length = data.length := by
  unfold GCM.counterCrypt
  exact xorBytes_length _ _ (keystream_length g j0 _)

theorem counterCrypt_counterCrypt (g : GCM) (j0 data : List Byte) :
    g.counterCrypt j0 (g.counterCrypt j0 data) = data := by
  have hlen : (xorBytes data (g.keystream j0 data.length)).length = data.length :=
    xorBytes_length _ _ (keystream_length g j0 _)
  unfold GCM.counterCrypt
  rw [hlen]
  exact xorBytes_cancel _ _ (keystream_length g j0 _)

theorem auth_length (g : GCM) (j0 ciphertext additionalData : List Byte) :
    (g.auth j0 ciphertext additionalData).length = 16 := by
  simp [GCM.auth, natBE]

theorem Open_Seal (g : GCM) (htag : g.tagSize = 16) (nonce plaintext : List Byte) :
    g.Open [] nonce (g.Seal [] nonce plaintext []) [] = .ok plaintext := by
  have hlen := auth_length g (g.deriveCounter nonce)
    (g.counterCrypt (g.deriveCounter nonce) plaintext) []
  simp only [GCM.Open, GCM.Seal, htag, List.nil_append, List.length_append, hlen]
  simp [counterCrypt_counterCrypt]

theorem Seal_dst (g : GCM) (dst nonce plaintext : List Byte) :
    g.Seal dst nonce plaintext [] = dst ++ g.Seal [] nonce plaintext [] := by
  simp [GCM.Seal]

/-! ## Encrypt and Decrypt -/

theorem getEncryptionKey_length (k : GoString) : (getEncryptionKey k).length = 32 := by
  have key : ∀ l : List Byte,
      (if l.length < 32 then l ++ List.replicate (32 - l.length) (0 : Byte)
        else l.take 32).length = 32 := by
    intro l
    split
    · simp; omega
    · simp; omega
  exact key _

theorem aesNewCipher_key (k : GoString) :
    aesNewCipher (getEncryptionKey k) = .ok (keyGCM k).cipher := by
  simp [aesNewCipher, getEncryptionKey_length, keyGCM]

theorem NewGCM_key (k : GoString) : NewGCM (keyGCM k).cipher = .ok (keyGCM k) := by
  simp [NewGCM, keyGCM]

theorem Encrypt_eq (k : GoString) (rand : List Byte) (p : GoString) (hp : p ≠ []) :
    Encrypt k rand p =
      match ReadFull rand 12 with
      | .error err => ([], some err)
      | .ok nonce => (EncodeToString ((keyGCM k).Seal nonce nonce p []), none) := by
  simp only [Encrypt, hp, if_false, aesNewCipher_key, NewGCM_key]
  rfl

theorem Decrypt_eq (k : GoString) (c : GoString) (hc : c ≠ []) :
    Decrypt k c =
      match DecodeString c with
      | .error err => ([], some err)
      | .ok data =>
        if data.length < 12 then ([], some .ErrInvalidCiphertext)
        else
          match (keyGCM k).Open [] (data.take 12) (data.drop 12) [] with
          | .error err => ([], some err)
          | .ok plaintext => (plaintext, none) := by
  simp only [Decrypt, hc, if_false, aesNewCipher_key, NewGCM_key]
  rfl

theorem Encrypt_of_rand (k : GoString) (rand : List Byte) (p : GoString) (hp : p ≠ [])
    (hrand : 12 ≤ rand.length) :
    Encrypt k rand p =
      (EncodeToString (rand.take 12 ++ (keyGCM k).Seal [] (rand.take 12) p []), none) := by
  rw [Encrypt_eq k rand p hp]
  simp [ReadFull, hrand, ← Seal_dst]

theorem Decrypt_sealed (k : GoString) (nonce p : List Byte) (hn : nonce.length = 12) :
    Decrypt k (EncodeToString (nonce ++ (keyGCM k).Seal [] nonce p [])) = (p, none) := by
  have hne : EncodeToString (nonce ++ (keyGCM k).Seal [] nonce p []) ≠ [] := by
    apply EncodeToString_ne_nil
    intro h
    have := congrArg List.length h
    simp [hn] at this
  rw [Decrypt_eq k _ hne, DecodeString_EncodeToString]
  have h1 : ¬ (nonce ++ (keyGCM k).Seal [] nonce p []).length < 12 := by simp [hn]
  have h2 : (nonce ++ (keyGCM k).Seal [] nonce p []).take 12 = nonce := by
    rw [← hn]; simp
  have h3 : (nonce ++ (keyGCM k).Seal [] nonce p []).drop 12 = (keyGCM k).Seal [] nonce p [] := by
    rw [← hn]; simp
  simp only [h1, if_false, h2, h3, Open_Seal (keyGCM k) rfl]

theorem Decrypt_Encrypt_aux (k : GoString) (rand : List Byte) (s : GoString)
    (hrand : 12 ≤ rand.length) :
    (Encrypt k rand s).2 = none ∧ Decrypt k (Encrypt k rand s).1 = (s, none) := by
  by_cases hs : s = []
  · subst hs
    simp [Encrypt, Decrypt]
  · rw [Encrypt_of_rand k rand s hs hrand]
    exact ⟨rfl, Decrypt_sealed k _ s (by simp [hrand])⟩


theorem Open_of_tagVerifies_false (g : GCM) (htag : g.tagSize = 16) (nonce sealed : List Byte)
    (h : tagVerifies g nonce sealed = false) :
    g.Open [] nonce sealed [] = .error .errOpen := by
  unfold tagVerifies at h
  unfold GCM.Open
  rw [htag]
  by_cases hlen : sealed.length < 16
  · simp [hlen]
  · have h16 : 16 ≤ sealed.length := by omega
    simp only [h16, decide_True, Bool.true_and, decide_eq_false_iff_not] at h
    simp [hlen, h]

theorem Open_of_tagVerifies_true (g : GCM) (htag : g.tagSize = 16) (nonce sealed : List Byte)
    (h : tagVerifies g nonce sealed = true) :
    g.Open [] nonce sealed [] =
      .ok (g.counterCrypt (g.deriveCounter nonce) (sealed.take (sealed.length - 16))) := by
  unfold tagVerifies at h
  simp only [Bool.and_eq_true, decide_eq_true_eq] at h
  unfold GCM.Open
  rw [htag]
  have hlen : ¬ sealed.length < 16 := by omega
  simp [hlen, h.2]

set_option maxRecDepth 1000000 in
/-- Known-answer check of the AES model: the AES-256 example vector of FIPS 197,
appendix C.3 (key `00 01 ... 1f`, plaintext `00 11 ... ff`). -/
theorem encryptBlock_fips197_c3 :
    encryptBlock (expandKey ((List.range 32).map Fin.ofNat))
        ((List.range 16).map fun i => Fin.ofNat (17 * i)) =
      [0x8e, 0xa2, 0xb7, 0xca, 0x51, 0x67, 0x45, 0xbf, 0xea, 0xfc, 0x49, 0x90, 0x4b, 0x49,
       0x60, 0x89] := by
  decide

set_option maxRecDepth 1000000 in
/-- Known-answer check of the GCM model: test case 14 of the GCM specification (a zero
256-bit key, a zero 96-bit nonce and one zero block of plaintext). -/
theorem Seal_gcm_test_case_14 :
    (keyGCM (List.replicate 32 0)).Seal [] (List.replicate 12 0) (List.replicate 16 0) [] =
      [0xce, 0xa7, 0x40, 0x3d, 0x4d, 0x60, 0x6b, 0x6e, 0x07, 0x4e, 0xc5, 0xd3, 0xba, 0xf3,
       0x9d, 0x18, 0xd0, 0xd1, 0xc8, 0xa7, 0x99, 0x99, 0x6b, 0xf0, 0x26, 0x5b, 0x98, 0xb5,
       0xd4, 0x8a, 0xb9, 0x19] := by
  decide

theorem Decrypt_error_empty (k c : GoString) (h : (Decrypt k c).2 ≠ none) :
    (Decrypt k c).1 = [] := by
  by_cases hc : c = []
  · subst hc
    simp [Decrypt]
  · rw [Decrypt_eq k c hc] at h ⊢
    cases hdec : DecodeString c with
    | error err => rfl
    | ok data =>
      rw [hdec] at h
      simp only []
      by_cases hlen : data.length < 12
      · simp only [hlen, if_true]
      · simp only [hlen, if_false] at h ⊢
        cases hopen : (keyGCM k).Open [] (data.take 12) (data.drop 12) [] with
        | error err => rfl
        | ok plaintext =>
          rw [hopen] at h
          exact absurd rfl h

/-- C1: for every plaintext string `s` (the empty string, multi-byte UTF-8 text and
strings of 1000 characters included), every configured secret and every nonce drawn
(twelve bytes supplied by the random reader), `Encrypt(s)` succeeds and
`Decrypt(Encrypt(s))` succeeds and returns exactly `s`. -/
theorem Decrypt_Encrypt_roundtrip (ENCRYPTION_KEY : GoString) (rand : List Byte)
    (s : GoString) (hrand : 12 ≤ rand.length) :
    (Encrypt ENCRYPTION_KEY rand s).2 = none ∧
      Decrypt ENCRYPTION_KEY (Encrypt ENCRYPTION_KEY rand s).1 = (s, none) :=
  Decrypt_Encrypt_aux ENCRYPTION_KEY rand s hrand

/-- Witness for C1: the round trip at a multi-byte plaintext under a configured secret and
at a plaintext of 1000 characters under the default key. -/
theorem Decrypt_Encrypt_roundtrip_witness :
    12 ≤ (List.replicate 12 (7 : Byte)).length ∧
    ((Encrypt (goString "s3cret") (List.replicate 12 7) (goString "中文密钥测试")).2 = none ∧
      Decrypt (goString "s3cret")
        (Encrypt (goString "s3cret") (List.replicate 12 7) (goString "中文密钥测试")).1 =
        (goString "中文密钥测试", none)) ∧
    ((Encrypt [] (List.replicate 12 7) (List.replicate 1000 120)).2 = none ∧
      Decrypt [] (Encrypt [] (List.replicate 12 7) (List.replicate 1000 120)).1 =
        (List.replicate 1000 120, none)) :=
  ⟨by decide,
   Decrypt_Encrypt_roundtrip (goString "s3cret") (List.replicate 12 7) (goString "中文密钥测试")
     (by decide),
   Decrypt_Encrypt_roundtrip [] (List.replicate 12 7) (List.replicate 1000 120) (by decide)⟩

/-- C2: for every non-empty plaintext `s`, two calls to `Encrypt(s)` that draw different
nonces both succeed and return different ciphertext strings, and `Decrypt` of each of the
two ciphertexts returns `s`. -/
theorem Encrypt_different_results (ENCRYPTION_KEY : GoString) (rand1 rand2 : List Byte)
    (s : GoString) (hs : s ≠ []) (h1 : 12 ≤ rand1.length) (h2 : 12 ≤ rand2.length)
    (hne : rand1.take 12 ≠ rand2.take 12) :
    (Encrypt ENCRYPTION_KEY rand1 s).2 = none ∧ (Encrypt ENCRYPTION_KEY rand2 s).2 = none ∧
      (Encrypt ENCRYPTION_KEY rand1 s).1 ≠ (Encrypt ENCRYPTION_KEY rand2 s).1 ∧
      Decrypt ENCRYPTION_KEY (Encrypt ENCRYPTION_KEY rand1 s).1 = (s, none) ∧
      Decrypt ENCRYPTION_KEY (Encrypt ENCRYPTION_KEY rand2 s).1 = (s, none) := by
  refine ⟨(Decrypt_Encrypt_aux _ rand1 s h1).1, (Decrypt_Encrypt_aux _ rand2 s h2).1, ?_,
    (Decrypt_Encrypt_aux _ rand1 s h1).2, (Decrypt_Encrypt_aux _ rand2 s h2).2⟩
  rw [Encrypt_of_rand _ rand1 s hs h1, Encrypt_of_rand _ rand2 s hs h2]
  intro h
  have h' := EncodeToString_injective _ _ h
  have hl : (rand1.take 12).length = (rand2.take 12).length := by simp [h1, h2]
  exact hne (List.append_inj h' hl).1

/-- Witness for C2: the plaintext of the test under the nonces `0,0,...` and `1,1,...`. -/
theorem Encrypt_different_results_witness :
    goString "test-api-key" ≠ [] ∧
    ((Encrypt [] (List.replicate 12 0) (goString "test-api-key")).1 ≠
      (Encrypt [] (List.replicate 12 1) (goString "test-api-key")).1) ∧
    Decrypt [] (Encrypt [] (List.replicate 12 0) (goString "test-api-key")).1 =
      (goString "test-api-key", none) ∧
    Decrypt [] (Encrypt [] (List.replicate 12 1) (goString "test-api-key")).1 =
      (goString "test-api-key", none) :=
  have h := Encrypt_different_results [] (List.replicate 12 0) (List.replicate 12 1)
    (goString "test-api-key") (by decide) (by decide) (by decide) (by decide)
  ⟨by decide, h.2.2.1, h.2.2.2.1, h.2.2.2.2⟩

/-- C3: `Encrypt("")` returns the empty string with no error and `Decrypt("")` returns the
empty string with no error, whatever the configured secret (and whatever the random
reader holds); the empty plaintext is not sealed: the result differs from the encoding of
every nonce followed by a sealed empty message. -/
theorem Encrypt_Decrypt_empty (ENCRYPTION_KEY : GoString) (rand : List Byte) :
    Encrypt ENCRYPTION_KEY rand [] = ([], none) ∧ Decrypt ENCRYPTION_KEY [] = ([], none) ∧
      ∀ nonce : List Byte, (Encrypt ENCRYPTION_KEY rand []).1 ≠
        EncodeToString ((keyGCM ENCRYPTION_KEY).Seal nonce nonce [] []) := by
  refine ⟨by simp [Encrypt], by simp [Decrypt], ?_⟩
  intro nonce h
  have hne : (keyGCM ENCRYPTION_KEY).Seal nonce nonce [] [] ≠ [] := by
    intro h0
    have := congrArg List.length h0
    simp [GCM.Seal, auth_length] at this
  exact EncodeToString_ne_nil _ hne (by simpa [Encrypt] using h.symm)

/-- C4: for every ciphertext that decodes as base64 to at least nonce-length (12) bytes
but whose authentication tag does not verify under the configured key, `Decrypt` returns
the empty string together with the authentication error of `gcm.Open`; and for every
input whatever, an error is returned only together with the empty string. -/
theorem Decrypt_authentication_failure (ENCRYPTION_KEY : GoString) (c : GoString)
    (data : List Byte) (hdec : DecodeString c = .ok data) (hlen : 12 ≤ data.length)
    (htag : tagVerifies (keyGCM ENCRYPTION_KEY) (data.take 12) (data.drop 12) = false) :
    Decrypt ENCRYPTION_KEY c = ([], some .errOpen) ∧
      ∀ c' : GoString, (Decrypt ENCRYPTION_KEY c').2 ≠ none →
        (Decrypt ENCRYPTION_KEY c').1 = [] := by
  refine ⟨?_, fun c' h => Decrypt_error_empty ENCRYPTION_KEY c' h⟩
  have hc : c ≠ [] := by
    intro h0
    subst h0
    have : data = [] := by
      have h1 : DecodeString [] = .ok ([] : List Byte) := rfl
      rw [h1] at hdec
      exact (Except.ok.inj hdec).symm
    subst this
    simp at hlen
  rw [Decrypt_eq ENCRYPTION_KEY c hc, hdec]
  have h1 : ¬ data.length < 12 := by omega
  simp only [h1, if_false, Open_of_tagVerifies_false (keyGCM ENCRYPTION_KEY) rfl _ _ htag]

set_option maxRecDepth 1000000 in
/-- Witness for C4: the ciphertext `AAECAwQFBgcICQoL8ytB5g1VwCTCOwubRWi08whGSQ==` is
`Encrypt("key")` under the default key with the nonce `0,1,...,11`; with one bit of its
first sealed byte flipped (`8ytB` replaced by `8itB`) the tag no longer verifies, and
`Decrypt` returns the authentication error. -/
theorem Decrypt_authentication_failure_witness :
    Decrypt [] (goString "AAECAwQFBgcICQoL8itB5g1VwCTCOwubRWi08whGSQ==") =
      ([], some .errOpen) :=
  (Decrypt_authentication_failure [] (goString "AAECAwQFBgcICQoL8itB5g1VwCTCOwubRWi08whGSQ==")
    [0, 1, 2, 3, 4, 5, 6, 7, 8, 9, 10, 11, 242, 43, 65, 230, 13, 85, 192, 36, 194, 59, 11,
      155, 69, 104, 180, 243, 8, 70, 73]
    (by decide) (by decide) (by decide)).1

/-- C5: for every non-empty input string whose base64 decoding succeeds and yields fewer
bytes than the nonce length of the cipher (12), `Decrypt` fails with exactly
`ErrInvalidCiphertext` (and returns the empty string). -/
theorem Decrypt_short_payload (ENCRYPTION_KEY : GoString) (s : GoString) (data : List Byte)
    (hs : s ≠ []) (hdec : DecodeString s = .ok data) (hlen : data.length < 12) :
    Decrypt ENCRYPTION_KEY s = ([], some .ErrInvalidCiphertext) := by
  rw [Decrypt_eq ENCRYPTION_KEY s hs, hdec]
  simp only [hlen, if_true]

/-- Witness for C5: `dG9vLXNob3J0` decodes to the 9 bytes of `too-short`. -/
theorem Decrypt_short_payload_witness :
    DecodeString (goString "dG9vLXNob3J0") = .ok (goString "too-short") ∧
    (goString "too-short").length = 9 ∧
    Decrypt (goString "any-secret") (goString "dG9vLXNob3J0") =
      ([], some .ErrInvalidCiphertext) :=
  ⟨by decide, by decide,
   Decrypt_short_payload (goString "any-secret") (goString "dG9vLXNob3J0")
     (goString "too-short") (by decide) (by decide) (by decide)⟩

/-- Counterexample to C6 as stated: the three-character input `abc` is non-empty and
shorter than the nonce length, and `Decrypt` fails on it with the base64 error
`CorruptInputError`, which is not `ErrInvalidCiphertext`. -/
theorem Decrypt_short_string_counterexample :
    goString "abc" ≠ [] ∧ (goString "abc").length < 12 ∧
    Decrypt [] (goString "abc") = ([], some .CorruptInputError) ∧
    (Decrypt [] (goString "abc")).2 ≠ some .ErrInvalidCiphertext := by
  decide

/-- C6, amended: for every non-empty input string of fewer than 12 characters (bytes)
`Decrypt` fails and returns the empty string; the error is `ErrInvalidCiphertext` when the string
is valid base64 (its decoding then has fewer than 12 bytes), and it is the error of the
base64 decoder when the string is not valid base64. -/
theorem Decrypt_short_string (ENCRYPTION_KEY : GoString) (s : GoString) (hs : s ≠ [])
    (hlen : s.length < 12) :
    (Decrypt ENCRYPTION_KEY s).1 = [] ∧ (Decrypt ENCRYPTION_KEY s).2 ≠ none ∧
      (∀ data, DecodeString s = .ok data →
        Decrypt ENCRYPTION_KEY s = ([], some .ErrInvalidCiphertext)) ∧
      (∀ err, DecodeString s = .error err → Decrypt ENCRYPTION_KEY s = ([], some err)) := by
  have hok : ∀ data, DecodeString s = .ok data →
      Decrypt ENCRYPTION_KEY s = ([], some .ErrInvalidCiphertext) := by
    intro data hdec
    have := decodeLoop_length s [] data hdec
    simp only [List.length_nil, Nat.add_zero] at this
    rw [Decrypt_eq ENCRYPTION_KEY s hs, hdec]
    have h1 : data.length < 12 := by omega
    simp only [h1, if_true]
  have herr : ∀ err, DecodeString s = .error err →
      Decrypt ENCRYPTION_KEY s = ([], some err) := by
    intro err hdec
    rw [Decrypt_eq ENCRYPTION_KEY s hs, hdec]
  refine ⟨?_, ?_, hok, herr⟩
  · cases hdec : DecodeString s with
    | ok data => rw [hok data hdec]
    | error err => rw [herr err hdec]
  · cases hdec : DecodeString s with
    | ok data => rw [hok data hdec]; simp
    | error err => rw [herr err hdec]; simp

/-- Witness for C6, amended: a valid short base64 string and an invalid one. -/
theorem Decrypt_short_string_witness :
    Decrypt [] (goString "YQ==") = ([], some .ErrInvalidCiphertext) ∧
    Decrypt [] (goString "a") = ([], some .CorruptInputError) :=
  ⟨(Decrypt_short_string [] (goString "YQ==") (by decide) (by decide)).2.2.1
      (goString "a") (by decide),
   (Decrypt_short_string [] (goString "a") (by decide) (by decide)).2.2.2
      .CorruptInputError (by decide)⟩

end crypto

namespace ai

variable {Provider : Type}

/-! ## The provider map -/

theorem GoMap.get_set_self (m : GoMap Provider) (k : String) (v : Provider) :
    (m.set k v).get k = some v := by
  induction m with
  | nil => simp [GoMap.set, GoMap.get]
  | cons kv rest ih =>
    obtain ⟨k0, v0⟩ := kv
    by_cases h : k0 = k
    · simp [GoMap.set, GoMap.get, h]
    · simp [GoMap.set, GoMap.get, h, ih]

theorem GoMap.get_set_of_ne (m : GoMap Provider) (k k1 : String) (v : Provider)
    (hne : k1 ≠ k) : (m.set k v).get k1 = m.get k1 := by
  induction m with
  | nil => simp [GoMap.set, GoMap.get, Ne.symm hne]
  | cons kv rest ih =>
    obtain ⟨k0, v0⟩ := kv
    by_cases h : k0 = k
    · subst h
      simp [GoMap.set, GoMap.get, Ne.symm hne]
    · by_cases h1 : k0 = k1
      · subst h1
        simp [GoMap.set, GoMap.get, h]
      · simp [GoMap.set, GoMap.get, h, h1, ih]

theorem GoMap.set_ne_nil (m : GoMap Provider) (k : String) (v : Provider) :
    m.set k v ≠ [] := by
  cases m with
  | nil => simp [GoMap.set]
  | cons kv rest =>
    obtain ⟨k0, v0⟩ := kv
    by_cases h : k0 = k <;> simp [GoMap.set, h]

theorem GetProvider_of_get (m : AIManager Provider) (name : String) (p : Provider)
    (hname : name ≠ "") (h : m.providers.get name = some p) :
    m.GetProvider name = (some p, none) := by
  simp [AIManager.GetProvider, hname, h]

theorem GetProvider_default (m : AIManager Provider) (p : Provider)
    (hd : m.defaultProvider ≠ "") (h : m.providers.get m.defaultProvider = some p) :
    m.GetProvider "" = (some p, none) := by
  simp [AIManager.GetProvider, hd, h]

theorem noProvider_ne_notFound (name : String) :
    "没有可用的AI Provider" ≠ "provider " ++ name ++ " 不存在" := by
  intro h
  have h1 := congrArg (fun s => s.data.head?) h
  simp only [String.data_append, List.cons_append, List.head?_cons, Option.some.injEq] at h1
  exact absurd h1 (by decide)

/-! ## The registry claims -/

/-- C7: on a fresh registry, after `RegisterProvider(a, X)` then `RegisterProvider(b, Y)`
with `a ≠ b` both non-empty, `GetProvider("")` returns `X` (the first registered is the
default); `SetDefaultProvider(b)` then succeeds, and after it `GetProvider("")` returns
`Y`. -/
theorem first_registered_is_default (a b : String) (X Y : Provider) (hab : a ≠ b)
    (ha : a ≠ "") (hb : b ≠ "") :
    (((NewAIManager : AIManager Provider).RegisterProvider a X).RegisterProvider b Y).GetProvider ""
        = (some X, none) ∧
      ((((NewAIManager : AIManager Provider).RegisterProvider a X).RegisterProvider b
        Y).SetDefaultProvider b).2 = none ∧
      ((((NewAIManager : AIManager Provider).RegisterProvider a X).RegisterProvider b
        Y).SetDefaultProvider b).1.GetProvider "" = (some Y, none) := by
  have hm : ((NewAIManager : AIManager Provider).RegisterProvider a X).RegisterProvider b Y =
      { providers := [(a, X), (b, Y)], defaultProvider := a } := by
    simp [NewAIManager, AIManager.RegisterProvider, GoMap.set, ha, hab]
  rw [hm]
  simp [AIManager.GetProvider, AIManager.SetDefaultProvider, GoMap.get, ha, hb, hab]

/-- Witness for C7: the two provider names of the registry test. -/
theorem first_registered_is_default_witness :
    "glm" ≠ "deepseek" ∧
    (((NewAIManager : AIManager Nat).RegisterProvider "glm" 1).RegisterProvider "deepseek"
      2).GetProvider "" = (some 1, none) ∧
    ((((NewAIManager : AIManager Nat).RegisterProvider "glm" 1).RegisterProvider "deepseek"
      2).SetDefaultProvider "deepseek").1.GetProvider "" = (some 2, none) :=
  have h := @first_registered_is_default Nat "glm" "deepseek" 1 2
    (by decide) (by decide) (by decide)
  ⟨by decide, h.1, h.2.2⟩

/-- Counterexample to C8 as stated: the empty string can be registered as a name, and
`GetProvider("")` then does not return the adapter registered under it but fails with
the no-providers error. -/
theorem GetProvider_registered_counterexample :
    ((NewAIManager : AIManager Nat).RegisterProvider "" 1).HasProvider "" = true ∧
    ((NewAIManager : AIManager Nat).RegisterProvider "" 1).GetProvider "" =
      (none, some "没有可用的AI Provider") ∧
    ((NewAIManager : AIManager Nat).RegisterProvider "" 1).GetProvider "" ≠ (some 1, none) := by
  decide

/-- C8, amended: `GetProvider(name)` with a non-empty name that is not a key of the
registry fails with the error "provider <name> 不存在" and returns no adapter;
`GetProvider("")` on an empty registry with no default fails with the error
"没有可用的AI Provider", which differs from every not-found error; `GetProvider(name)` for
a registered non-empty name returns exactly the adapter held under that name, which after
`RegisterProvider(name, P)` is `P`. -/
theorem GetProvider_results (m : AIManager Provider) :
    (∀ name : String, name ≠ "" → m.HasProvider name = false →
        m.GetProvider name = (none, some ("provider " ++ name ++ " 不存在"))) ∧
      (m.providers = [] → m.defaultProvider = "" →
        m.GetProvider "" = (none, some "没有可用的AI Provider")) ∧
      (∀ name : String, "没有可用的AI Provider" ≠ "provider " ++ name ++ " 不存在") ∧
      (∀ (name : String) (P : Provider), name ≠ "" → m.providers.get name = some P →
        m.GetProvider name = (some P, none)) ∧
      (∀ (name : String) (P : Provider), name ≠ "" →
        (m.RegisterProvider name P).GetProvider name = (some P, none)) := by
  refine ⟨?_, ?_, noProvider_ne_notFound, ?_, ?_⟩
  · intro name hname hhas
    have hget : m.providers.get name = none := by
      simpa [AIManager.HasProvider] using hhas
    simp [AIManager.GetProvider, hname, hget]
  · intro _ hd
    simp [AIManager.GetProvider, hd]
  · intro name P hname hget
    exact GetProvider_of_get m name P hname hget
  · intro name P hname
    apply GetProvider_of_get _ name P hname
    unfold AIManager.RegisterProvider
    split <;> exact GoMap.get_set_self _ _ _

/-- Witness for C8, amended: a registry holding only "a". -/
theorem GetProvider_results_witness :
    ((NewAIManager : AIManager Nat).RegisterProvider "a" 1).GetProvider "missing" =
      (none, some "provider missing 不存在") ∧
    (NewAIManager : AIManager Nat).GetProvider "" = (none, some "没有可用的AI Provider") ∧
    ((NewAIManager : AIManager Nat).RegisterProvider "a" 1).GetProvider "a" = (some 1, none) :=
  ⟨(GetProvider_results ((NewAIManager : AIManager Nat).RegisterProvider "a" 1)).1 "missing"
      (by decide) (by decide),
   (GetProvider_results (NewAIManager : AIManager Nat)).2.1 rfl rfl,
   (GetProvider_results ((NewAIManager : AIManager Nat).RegisterProvider "a" 1)).2.2.2.1 "a" 1
      (by decide) (by decide)⟩

/-- Counterexample to C9 as stated: after `ClearProviders()` the call
`RegisterProvider("", P)` leaves the registry holding the empty name, but the empty name
is the registry's marker for no default: the default stays unset, `GetProvider("")` fails
with the no-providers error and the registry invariant is broken. -/
theorem ClearProviders_then_register_counterexample :
    ((((NewAIManager : AIManager Nat).RegisterProvider "glm" 7).ClearProviders).RegisterProvider
        "" 1).GetAllProviders = [""] ∧
      ((((NewAIManager : AIManager Nat).RegisterProvider "glm" 7).ClearProviders).RegisterProvider
        "" 1).GetProvider "" = (none, some "没有可用的AI Provider") ∧
      ¬ ((((NewAIManager : AIManager Nat).RegisterProvider "glm" 7).ClearProviders).RegisterProvider
        "" 1).defaultValid := by
  refine ⟨by decide, by decide, ?_⟩
  intro h
  exact absurd (h.2 (by decide)) (by decide)

/-- C9, amended: for every registry state, after `ClearProviders()` the list returned by
`GetAllProviders()` is empty, `HasProvider(n)` is false for every `n`, and
`GetProvider("")` fails with the no-providers error; a following
`RegisterProvider(n, P)` with a non-empty name `n` makes the registry contain exactly `n`
(bound to `P`) with `n` as the default: the default name is `n`, and `GetProvider("")`
and `GetProvider(n)` return `P`. -/
theorem ClearProviders_then_register (m : AIManager Provider) :
    m.ClearProviders.GetAllProviders = [] ∧
      (∀ n : String, m.ClearProviders.HasProvider n = false) ∧
      m.ClearProviders.GetProvider "" = (none, some "没有可用的AI Provider") ∧
      ∀ (n : String) (P : Provider), n ≠ "" →
        (m.ClearProviders.RegisterProvider n P).GetAllProviders = [n] ∧
        (m.ClearProviders.RegisterProvider n P).providers = [(n, P)] ∧
        (m.ClearProviders.RegisterProvider n P).HasProvider n = true ∧
        (m.ClearProviders.RegisterProvider n P).defaultProvider = n ∧
        (m.ClearProviders.RegisterProvider n P).GetProvider "" = (some P, none) ∧
        (m.ClearProviders.RegisterProvider n P).GetProvider n = (some P, none) ∧
        (m.ClearProviders.RegisterProvider n P).defaultValid := by
  refine ⟨rfl, fun n => rfl, by simp [AIManager.ClearProviders, AIManager.GetProvider], ?_⟩
  intro n P hn
  simp [AIManager.ClearProviders, AIManager.RegisterProvider, AIManager.GetAllProviders,
    AIManager.HasProvider, AIManager.GetProvider, AIManager.defaultValid, GoMap.set,
    GoMap.get, hn]

/-- Witness for C9, amended: a registry holding `glm` is cleared and `kimi` registered;
the registry then holds `kimi` alone, and the default resolves to its adapter. -/
theorem ClearProviders_then_register_witness :
    ((((NewAIManager : AIManager Nat).RegisterProvider "glm" 7).ClearProviders).RegisterProvider
        "kimi" 1).GetAllProviders = ["kimi"] ∧
      ((((NewAIManager : AIManager Nat).RegisterProvider "glm" 7).ClearProviders).RegisterProvider
        "kimi" 1).GetProvider "" = (some 1, none) :=
  have h := (ClearProviders_then_register
    ((NewAIManager : AIManager Nat).RegisterProvider "glm" 7)).2.2.2 "kimi" 1 (by decide)
  ⟨h.1, h.2.2.2.2.1⟩

/-- The inductive form of the registry invariant: the empty string is not a key, and
either nothing is registered and no default is set, or the default is a non-empty key. -/
theorem step_preserves (m : AIManager Provider) (c : Call Provider)
    (hc : ∀ name p, c = .RegisterProvider name p → name ≠ "")
    (h0 : m.providers.get "" = none)
    (h1 : (m.defaultProvider = "" ∧ m.providers = []) ∨
      (m.defaultProvider ≠ "" ∧ ∃ p, m.providers.get m.defaultProvider = some p)) :
    (m.step c).providers.get "" = none ∧
      (((m.step c).defaultProvider = "" ∧ (m.step c).providers = []) ∨
        ((m.step c).defaultProvider ≠ "" ∧
          ∃ p, (m.step c).providers.get (m.step c).defaultProvider = some p)) := by
  cases c with
  | RegisterProvider name provider =>
    have hname : name ≠ "" := hc name provider rfl
    have hget0 : (m.providers.set name provider).get "" = none := by
      rw [GoMap.get_set_of_ne _ _ _ _ (Ne.symm hname)]
      exact h0
    by_cases hd : m.defaultProvider = ""
    · simp only [AIManager.step, AIManager.RegisterProvider, hd, if_true]
      exact ⟨hget0, Or.inr ⟨hname, provider, GoMap.get_set_self _ _ _⟩⟩
    · simp only [AIManager.step, AIManager.RegisterProvider, hd, if_false]
      refine ⟨hget0, Or.inr ⟨hd, ?_⟩⟩
      rcases h1 with h1 | ⟨_, p, hp⟩
      · exact absurd h1.1 hd
      · by_cases hn : m.defaultProvider = name
        · exact ⟨provider, by rw [hn]; exact GoMap.get_set_self _ _ _⟩
        · exact ⟨p, by rw [GoMap.get_set_of_ne _ _ _ _ hn]; exact hp⟩
  | SetDefaultProvider name =>
    cases hget : m.providers.get name with
    | none =>
      simp only [AIManager.step, AIManager.SetDefaultProvider, hget]
      exact ⟨h0, h1⟩
    | some p =>
      simp only [AIManager.step, AIManager.SetDefaultProvider, hget]
      have hname : name ≠ "" := by
        intro h
        rw [h, h0] at hget
        exact Option.noConfusion hget
      exact ⟨h0, Or.inr ⟨hname, p, rfl⟩⟩
  | ClearProviders =>
    simp [AIManager.step, AIManager.ClearProviders, GoMap.get]

theorem foldl_preserves (calls : List (Call Provider)) : ∀ (m : AIManager Provider),
    registersNonEmpty calls → m.providers.get "" = none →
    ((m.defaultProvider = "" ∧ m.providers = []) ∨
      (m.defaultProvider ≠ "" ∧ ∃ p, m.providers.get m.defaultProvider = some p)) →
    (calls.foldl AIManager.step m).defaultValid := by
  induction calls with
  | nil =>
    intro m _ h0 h1
    simp only [List.foldl_nil, AIManager.defaultValid]
    rcases h1 with ⟨hd, hp⟩ | ⟨hd, p, hp⟩
    · exact ⟨fun h => absurd hp h, fun _ => hp⟩
    · refine ⟨fun _ => ⟨by simp [AIManager.HasProvider, hp], ?_⟩, fun h => absurd h hd⟩
      rw [GetProvider_default m p hd hp]
  | cons c rest ih =>
    intro m hreg h0 h1
    have hc : ∀ name p, c = .RegisterProvider name p → name ≠ "" := by
      intro name p hcp
      subst hcp
      exact hreg.1
    have hrest : registersNonEmpty rest := by
      cases c with
      | RegisterProvider name provider => exact hreg.2
      | SetDefaultProvider name => exact hreg
      | ClearProviders => exact hreg
    have hs := step_preserves m c hc h0 h1
    exact ih (m.step c) hrest hs.1 hs.2

/-- Counterexample to C10 as stated: after the single call `RegisterProvider("", P)` on a
fresh registry the mapping is non-empty while the default name is empty and
`GetProvider("")` fails, so the invariant does not hold for arbitrary name arguments. -/
theorem defaultValid_counterexample :
    (AIManager.run [Call.RegisterProvider "" (1 : Nat)]).providers ≠ [] ∧
    (AIManager.run [Call.RegisterProvider "" (1 : Nat)]).defaultProvider = "" ∧
    (AIManager.run [Call.RegisterProvider "" (1 : Nat)]).GetProvider "" =
      (none, some "没有可用的AI Provider") ∧
    ¬ (AIManager.run [Call.RegisterProvider "" (1 : Nat)]).defaultValid := by
  refine ⟨by decide, by decide, by decide, ?_⟩
  intro h
  exact absurd (h.2 (by decide)) (by decide)

/-- C10, amended: in every state reachable from `NewAIManager()` by any sequence of
`RegisterProvider`, `SetDefaultProvider` and `ClearProviders` calls in which every name
passed to `RegisterProvider` is non-empty, if the provider mapping is non-empty then
`defaultProvider` is a key present in the mapping and `GetProvider("")` succeeds, and
`defaultProvider` is empty only when the mapping is empty. -/
theorem defaultValid_of_registersNonEmpty (calls : List (Call Provider))
    (h : registersNonEmpty calls) : (AIManager.run calls).defaultValid :=
  foldl_preserves calls NewAIManager h rfl (Or.inl ⟨rfl, rfl⟩)

/-- Witness for C10, amended: a sequence that registers, switches the default, clears
and registers again. -/
theorem defaultValid_of_registersNonEmpty_witness :
    (AIManager.run [Call.RegisterProvider "glm" (1 : Nat), .RegisterProvider "kimi" 2,
      .SetDefaultProvider "kimi", .SetDefaultProvider "", .ClearProviders,
      .RegisterProvider "qwen" 3]).defaultValid :=
  defaultValid_of_registersNonEmpty _ (by simp [registersNonEmpty])

end ai

namespace ai

variable {Provider : Type}

/-! ## SetDefaultProvider and re-registration -/

theorem GoMap.keys_set (m : GoMap Provider) (k : String) (v : Provider) :
    (m.set k v).map (fun kv => kv.1) =
      if k ∈ m.map (fun kv => kv.1) then m.map (fun kv => kv.1)
      else m.map (fun kv => kv.1) ++ [k] := by
  induction m with
  | nil => simp [GoMap.set]
  | cons kv rest ih =>
    obtain ⟨k0, v0⟩ := kv
    by_cases h : k0 = k
    · subst h
      simp [GoMap.set]
    · have h' : ¬ k = k0 := fun e => h e.symm
      simp only [GoMap.set, h, if_false, List.map_cons, ih, List.mem_cons, h', false_or]
      split <;> simp

theorem GoMap.keys_set_set (m : GoMap Provider) (k : String) (v w : Provider) :
    ((m.set k v).set k w).map (fun kv => kv.1) = (m.set k v).map (fun kv => kv.1) := by
  rw [GoMap.keys_set (m.set k v) k w]
  have hmem : k ∈ (m.set k v).map (fun kv => kv.1) := by
    rw [GoMap.keys_set]
    split
    · assumption
    · simp
  simp [hmem]

theorem GoMap.keys_set_nodup (m : GoMap Provider) (k : String) (v : Provider)
    (h : (m.map (fun kv => kv.1)).Nodup) : ((m.set k v).map (fun kv => kv.1)).Nodup := by
  rw [GoMap.keys_set]
  split
  · exact h
  · rename_i hk
    exact List.Nodup.append h (List.nodup_singleton k) (by simpa using hk)

theorem GoMap.mem_keys_set (m : GoMap Provider) (k : String) (v : Provider) :
    k ∈ (m.set k v).map (fun kv => kv.1) := by
  rw [GoMap.keys_set]
  split
  · assumption
  · simp

theorem RegisterProvider_providers (m : AIManager Provider) (n : String) (P : Provider) :
    (m.RegisterProvider n P).providers = m.providers.set n P := by
  unfold AIManager.RegisterProvider
  split <;> rfl

theorem RegisterProvider_defaultProvider (m : AIManager Provider) (n : String) (P : Provider) :
    (m.RegisterProvider n P).defaultProvider =
      if m.defaultProvider = "" then n else m.defaultProvider := by
  unfold AIManager.RegisterProvider
  split <;> simp [*]

/-- C11: `SetDefaultProvider(name)` returns an error if and only if `name` is not a key of
the registry; when it returns an error the registry (mapping and default name) is
unchanged, and when it succeeds only the default name changes (to `name`) while the
mapping is unchanged. -/
theorem SetDefaultProvider_result (m : AIManager Provider) (name : String) :
    ((m.SetDefaultProvider name).2 ≠ none ↔ m.HasProvider name = false) ∧
      ((m.SetDefaultProvider name).2 ≠ none →
        (m.SetDefaultProvider name).2 = some ("provider " ++ name ++ " 不存在") ∧
        (m.SetDefaultProvider name).1 = m) ∧
      ((m.SetDefaultProvider name).2 = none →
        (m.SetDefaultProvider name).1.providers = m.providers ∧
        (m.SetDefaultProvider name).1.defaultProvider = name) := by
  cases hget : m.providers.get name with
  | none => simp [AIManager.SetDefaultProvider, AIManager.HasProvider, hget]
  | some p => simp [AIManager.SetDefaultProvider, AIManager.HasProvider, hget]

/-- Witness for C11: on a registry holding "glm" and "kimi", `SetDefaultProvider("kimi")`
succeeds and changes the default only, and `SetDefaultProvider("qwen")` fails and changes
nothing. -/
theorem SetDefaultProvider_result_witness :
    (((AIManager.run [Call.RegisterProvider "glm" (1 : Nat), .RegisterProvider "kimi" 2]
        ).SetDefaultProvider "kimi").1.providers =
        (AIManager.run [Call.RegisterProvider "glm" (1 : Nat), .RegisterProvider "kimi" 2]
          ).providers ∧
      ((AIManager.run [Call.RegisterProvider "glm" (1 : Nat), .RegisterProvider "kimi" 2]
        ).SetDefaultProvider "kimi").1.defaultProvider = "kimi") ∧
    ((AIManager.run [Call.RegisterProvider "glm" (1 : Nat), .RegisterProvider "kimi" 2]
        ).SetDefaultProvider "qwen").1 =
      AIManager.run [Call.RegisterProvider "glm" (1 : Nat), .RegisterProvider "kimi" 2] :=
  ⟨(SetDefaultProvider_result
      (AIManager.run [Call.RegisterProvider "glm" (1 : Nat), .RegisterProvider "kimi" 2])
      "kimi").2.2 (by decide),
   ((SetDefaultProvider_result
      (AIManager.run [Call.RegisterProvider "glm" (1 : Nat), .RegisterProvider "kimi" 2])
      "qwen").2.1 (by decide)).2⟩

/-- Counterexample to C12 as stated: for the empty name, after registering it twice on a
fresh registry `GetProvider("")` does not return the most recently registered adapter; it
fails with the no-providers error. -/
theorem RegisterProvider_twice_counterexample :
    (((NewAIManager : AIManager Nat).RegisterProvider "" 1).RegisterProvider "" 2).GetProvider ""
        = (none, some "没有可用的AI Provider") ∧
    (((NewAIManager : AIManager Nat).RegisterProvider "" 1).RegisterProvider "" 2).GetProvider ""
        ≠ (some 2, none) := by
  decide

/-- C12, amended: for every registry state (a map, so every key occurs once) and name `n`,
registering `n` a second time (with the same or another adapter) leaves the names returned
by `GetAllProviders` unchanged, with `n` among them exactly once; the entry of `n` is the
most recently registered adapter, which `GetProvider(n)` returns when `n` is non-empty; an
already set default name is not changed, and the registered name becomes the default only
when no default was set. -/
theorem RegisterProvider_twice (m : AIManager Provider) (n : String) (P Q : Provider)
    (hm : m.GetAllProviders.Nodup) :
    ((m.RegisterProvider n P).RegisterProvider n Q).GetAllProviders =
        (m.RegisterProvider n P).GetAllProviders ∧
      ((m.RegisterProvider n P).RegisterProvider n Q).GetAllProviders.count n = 1 ∧
      ((m.RegisterProvider n P).RegisterProvider n Q).providers.get n = some Q ∧
      (n ≠ "" →
        ((m.RegisterProvider n P).RegisterProvider n Q).GetProvider n = (some Q, none)) ∧
      (m.defaultProvider ≠ "" →
        (m.RegisterProvider n P).defaultProvider = m.defaultProvider ∧
        ((m.RegisterProvider n P).RegisterProvider n Q).defaultProvider = m.defaultProvider) ∧
      (m.defaultProvider = "" →
        (m.RegisterProvider n P).defaultProvider = n ∧
        ((m.RegisterProvider n P).RegisterProvider n Q).defaultProvider = n) := by
  have hget : ((m.RegisterProvider n P).RegisterProvider n Q).providers.get n = some Q := by
    rw [RegisterProvider_providers]
    exact GoMap.get_set_self _ _ _
  have hkeys : ((m.RegisterProvider n P).RegisterProvider n Q).GetAllProviders =
      (m.RegisterProvider n P).GetAllProviders := by
    simp only [AIManager.GetAllProviders, RegisterProvider_providers]
    exact GoMap.keys_set_set _ _ _ _
  refine ⟨hkeys, ?_, hget, fun hn => GetProvider_of_get _ n Q hn hget, ?_, ?_⟩
  · rw [hkeys]
    simp only [AIManager.GetAllProviders, RegisterProvider_providers]
    exact List.count_eq_one_of_mem (GoMap.keys_set_nodup _ _ _ hm) (GoMap.mem_keys_set _ _ _)
  · intro hd
    simp [RegisterProvider_defaultProvider, hd]
  · intro hd
    simp only [RegisterProvider_defaultProvider, hd, if_true, true_and]
    split <;> simp_all

/-- Witness for C12, amended: "glm" registered again on a registry whose default is
"kimi". -/
theorem RegisterProvider_twice_witness :
    (((AIManager.run [Call.RegisterProvider "kimi" (1 : Nat)]).RegisterProvider "glm"
        2).RegisterProvider "glm" 3).GetAllProviders = ["kimi", "glm"] ∧
    (((AIManager.run [Call.RegisterProvider "kimi" (1 : Nat)]).RegisterProvider "glm"
        2).RegisterProvider "glm" 3).GetProvider "glm" = (some 3, none) ∧
    (((AIManager.run [Call.RegisterProvider "kimi" (1 : Nat)]).RegisterProvider "glm"
        2).RegisterProvider "glm" 3).defaultProvider = "kimi" :=
  have h := RegisterProvider_twice (AIManager.run [Call.RegisterProvider "kimi" (1 : Nat)])
    "glm" 2 3 (by decide)
  ⟨by decide, h.2.2.2.1 (by decide), (h.2.2.2.2.1 (by decide)).2⟩

end ai

namespace ai

variable {Ctx : Type}

/-! ## The adapters -/

theorem foldl_choices (cs : List vendorChoice) (res : ChatCompletionResponse) :
    cs.foldl (fun result choice =>
      { result with Choices := result.Choices ++
          [{ Index := choice.Index, Message := choice.Message,
             FinishReason := choice.FinishReason }] }) res =
      { res with Choices := res.Choices ++ neutralChoices cs } := by
  induction cs generalizing res with
  | nil => simp [neutralChoices]
  | cons c cs ih => simp [ih, neutralChoices]

theorem NewRequestWithContext_ok (lib : Lib Ctx) (ctx : Ctx) (method url : String)
    (body : List Byte) (h : lib.NewRequestError ctx method url = none) :
    NewRequestWithContext lib ctx method url body =
      .ok { ctx := ctx, Method := method, URL := url, Header := [], Body := body } := by
  simp [NewRequestWithContext, h]

theorem HeaderSet_post (ctx : Ctx) (apiURL : String) (apiKey : GoString) (body : List Byte) :
    (({ ctx := ctx, Method := "POST", URL := apiURL ++ "/chat/completions", Header := [],
        Body := body } : HttpRequest Ctx).HeaderSet "Content-Type"
          (goString "application/json")).HeaderSet "Authorization"
          (goString "Bearer " ++ apiKey) = postRequest ctx apiURL apiKey body := by
  simp [HttpRequest.HeaderSet, postRequest, GoMap.set]

theorem GLM_ChatCompletion_answers (lib : Lib Ctx) (p : GLMProvider) (ctx : Ctx)
    (req : ChatCompletionRequest) (jsonReq : List Byte) (status : Int) (body : List Byte)
    (h : lib.answers ctx p.apiURL p.apiKey (vendorRequest p.model req) jsonReq status body) :
    p.ChatCompletion lib ctx req =
      if status ≠ 200 then
        match lib.UnmarshalGLMError body with
        | .ok errResp =>
          if errResp.Error.Message ≠ "" then
            .failure req [postRequest ctx p.apiURL p.apiKey jsonReq]
              ("GLM API错误: " ++ errResp.Error.Message)
          else
            .failure req [postRequest ctx p.apiURL p.apiKey jsonReq]
              ("GLM API错误: HTTP " ++ toString status)
        | .error _ =>
          .failure req [postRequest ctx p.apiURL p.apiKey jsonReq]
            ("GLM API错误: HTTP " ++ toString status)
      else
        match lib.UnmarshalGLMResponse body with
        | .error err =>
          .failure req [postRequest ctx p.apiURL p.apiKey jsonReq] ("解析响应失败: " ++ err)
        | .ok r =>
          .success req [postRequest ctx p.apiURL p.apiKey jsonReq]
            { ID := r.ID, Object := "chat.completion", Model := r.Model,
              Choices := neutralChoices r.Choices,
              Usage := { PromptTokens := r.Usage.PromptTokens,
                         CompletionTokens := r.Usage.CompletionTokens,
                         TotalTokens := r.Usage.TotalTokens } } := by
  obtain ⟨hm, hn, hd⟩ := h
  unfold vendorRequest at hm
  simp only [GLMProvider.ChatCompletion, hm, NewRequestWithContext_ok lib ctx _ _ _ hn,
    HeaderSet_post, hd, foldl_choices, List.nil_append, CallResult.failure,
    CallResult.success]

theorem DeepSeek_ChatCompletion_answers (lib : Lib Ctx) (p : DeepSeekProvider) (ctx : Ctx)
    (req : ChatCompletionRequest) (jsonReq : List Byte) (status : Int) (body : List Byte)
    (h : lib.answers ctx p.apiURL p.apiKey (vendorRequest p.model req) jsonReq status body) :
    p.ChatCompletion lib ctx req =
      if status ≠ 200 then
        match lib.UnmarshalDeepseekError body with
        | .ok errResp =>
          if errResp.Error.Message ≠ "" then
            .failure req [postRequest ctx p.apiURL p.apiKey jsonReq]
              ("DeepSeek API错误: " ++ errResp.Error.Message)
          else
            .failure req [postRequest ctx p.apiURL p.apiKey jsonReq]
              ("DeepSeek API错误: HTTP " ++ toString status)
        | .error _ =>
          .failure req [postRequest ctx p.apiURL p.apiKey jsonReq]
            ("DeepSeek API错误: HTTP " ++ toString status)
      else
        match lib.UnmarshalDeepseekResponse body with
        | .error err =>
          .failure req [postRequest ctx p.apiURL p.apiKey jsonReq] ("解析响应失败: " ++ err)
        | .ok r =>
          .success req [postRequest ctx p.apiURL p.apiKey jsonReq]
            { ID := r.ID, Object := r.Object, Model := r.Model,
              Choices := neutralChoices r.Choices,
              Usage := { PromptTokens := r.Usage.PromptTokens,
                         CompletionTokens := r.Usage.CompletionTokens,
                         TotalTokens := r.Usage.TotalTokens } } := by
  obtain ⟨hm, hn, hd⟩ := h
  unfold vendorRequest at hm
  simp only [DeepSeekProvider.ChatCompletion, hm, NewRequestWithContext_ok lib ctx _ _ _ hn,
    HeaderSet_post, hd, foldl_choices, List.nil_append, CallResult.failure,
    CallResult.success]

theorem Qwen_ChatCompletion_answers (lib : Lib Ctx) (p : QwenProvider) (ctx : Ctx)
    (req : ChatCompletionRequest) (jsonReq : List Byte) (status : Int) (body : List Byte)
    (h : lib.answers ctx p.apiURL p.apiKey (vendorRequest p.model req) jsonReq status body) :
    p.ChatCompletion lib ctx req =
      if status ≠ 200 then
        match lib.UnmarshalDeepseekError body with
        | .ok errResp =>
          if errResp.Error.Message ≠ "" then
            .failure req [postRequest ctx p.apiURL p.apiKey jsonReq]
              ("Qwen API错误: " ++ errResp.Error.Message)
          else
            .failure req [postRequest ctx p.apiURL p.apiKey jsonReq]
              ("Qwen API错误: HTTP " ++ toString status)
        | .error _ =>
          .failure req [postRequest ctx p.apiURL p.apiKey jsonReq]
            ("Qwen API错误: HTTP " ++ toString status)
      else
        match lib.UnmarshalDeepseekResponse body with
        | .error err =>
          .failure req [postRequest ctx p.apiURL p.apiKey jsonReq] ("解析响应失败: " ++ err)
        | .ok r =>
          .success req [postRequest ctx p.apiURL p.apiKey jsonReq]
            { ID := r.ID, Object := r.Object, Model := r.Model,
              Choices := neutralChoices r.Choices,
              Usage := { PromptTokens := r.Usage.PromptTokens,
                         CompletionTokens := r.Usage.CompletionTokens,
                         TotalTokens := r.Usage.TotalTokens } } := by
  obtain ⟨hm, hn, hd⟩ := h
  unfold vendorRequest at hm
  simp only [QwenProvider.ChatCompletion, hm, NewRequestWithContext_ok lib ctx _ _ _ hn,
    HeaderSet_post, hd, foldl_choices, List.nil_append, CallResult.failure,
    CallResult.success]

theorem Kimi_ChatCompletion_answers (lib : Lib Ctx) (p : KimiProvider) (ctx : Ctx)
    (req : ChatCompletionRequest) (jsonReq : List Byte) (status : Int) (body : List Byte)
    (h : lib.answers ctx p.apiURL p.apiKey (vendorRequest p.model req) jsonReq status body) :
    p.ChatCompletion lib ctx req =
      if status ≠ 200 then
        match lib.UnmarshalDeepseekError body with
        | .ok errResp =>
          if errResp.Error.Message ≠ "" then
            .failure req [postRequest ctx p.apiURL p.apiKey jsonReq]
              ("Kimi API错误: " ++ errResp.Error.Message)
          else
            .failure req [postRequest ctx p.apiURL p.apiKey jsonReq]
              ("Kimi API错误: HTTP " ++ toString status)
        | .error _ =>
          .failure req [postRequest ctx p.apiURL p.apiKey jsonReq]
            ("Kimi API错误: HTTP " ++ toString status)
      else
        match lib.UnmarshalDeepseekResponse body with
        | .error err =>
          .failure req [postRequest ctx p.apiURL p.apiKey jsonReq] ("解析响应失败: " ++ err)
        | .ok r =>
          .success req [postRequest ctx p.apiURL p.apiKey jsonReq]
            { ID := r.ID, Object := r.Object, Model := r.Model,
              Choices := neutralChoices r.Choices,
              Usage := { PromptTokens := r.Usage.PromptTokens,
                         CompletionTokens := r.Usage.CompletionTokens,
                         TotalTokens := r.Usage.TotalTokens } } := by
  obtain ⟨hm, hn, hd⟩ := h
  unfold vendorRequest at hm
  simp only [KimiProvider.ChatCompletion, hm, NewRequestWithContext_ok lib ctx _ _ _ hn,
    HeaderSet_post, hd, foldl_choices, List.nil_append, CallResult.failure,
    CallResult.success]

theorem OpenAI_ChatCompletion_answers (lib : Lib Ctx) (p : OpenAIProvider) (ctx : Ctx)
    (req : ChatCompletionRequest) (jsonReq : List Byte) (status : Int) (body : List Byte)
    (h : lib.answers ctx p.apiURL p.apiKey { req with Model := p.model } jsonReq status
      body) :
    p.ChatCompletion lib ctx req =
      if status ≠ 200 then
        match lib.UnmarshalDeepseekError body with
        | .ok errResp =>
          if errResp.Error.Message ≠ "" then
            .failure { req with Model := p.model } [postRequest ctx p.apiURL p.apiKey jsonReq]
              ("OpenAI API错误: " ++ errResp.Error.Message)
          else
            .failure { req with Model := p.model } [postRequest ctx p.apiURL p.apiKey jsonReq]
              ("OpenAI API错误: HTTP " ++ toString status)
        | .error _ =>
          .failure { req with Model := p.model } [postRequest ctx p.apiURL p.apiKey jsonReq]
            ("OpenAI API错误: HTTP " ++ toString status)
      else
        match lib.UnmarshalChatCompletionResponse body with
        | .error err =>
          .failure { req with Model := p.model } [postRequest ctx p.apiURL p.apiKey jsonReq]
            ("解析响应失败: " ++ err)
        | .ok r =>
          .success { req with Model := p.model } [postRequest ctx p.apiURL p.apiKey jsonReq]
            r := by
  obtain ⟨hm, hn, hd⟩ := h
  simp only [OpenAIProvider.ChatCompletion, hm, NewRequestWithContext_ok lib ctx _ _ _ hn,
    HeaderSet_post, hd, CallResult.failure, CallResult.success]

end ai

namespace ai

variable {Ctx : Type}

/-! ## The adapter claims -/

theorem testLib_answers (tables : JSONTables) (status : Int) (body : List Byte)
    (apiURL : String) (apiKey : GoString) (vendorReq : ChatCompletionRequest)
    (jsonReq : List Byte) (h : tables.marshal.lookup vendorReq = some jsonReq) :
    (testLib tables status body).answers () apiURL apiKey vendorReq jsonReq status body := by
  simp [Lib.answers, testLib, h]

theorem GetProvider_cases {Provider : Type} (m : AIManager Provider) (name : String) :
    (∃ e, m.GetProvider name = (none, some e)) ∨ (∃ p, m.GetProvider name = (some p, none)) := by
  simp only [AIManager.GetProvider]
  generalize (if name = "" then m.defaultProvider else name) = resolved
  by_cases hr : resolved = ""
  · exact Or.inl ⟨"没有可用的AI Provider", by simp [hr]⟩
  · cases hget : m.providers.get resolved with
    | none => exact Or.inl ⟨"provider " ++ resolved ++ " 不存在", by simp [hr]⟩
    | some p => exact Or.inr ⟨p, by simp [hr]⟩

/-- C13: `AIManager.ChatCompletion(ctx, name, req)` resolves with `GetProvider(name)`; if
the resolution fails it returns no response and that error, sends nothing and leaves the
request untouched, whatever the adapters are; otherwise it returns exactly what the
resolved adapter's `ChatCompletion(ctx, req)` returns, the error neither wrapped nor
replaced. One of the two cases always applies. -/
theorem ChatCompletion_dispatch (m : AIManager (AIProvider Ctx)) (ctx : Ctx) (name : String)
    (req : ChatCompletionRequest) :
    (∀ e : String, (m.GetProvider name).2 = some e →
        m.ChatCompletion ctx name req = .failure req [] e) ∧
      (∀ p : AIProvider Ctx, m.GetProvider name = (some p, none) →
        m.ChatCompletion ctx name req = p.ChatCompletion ctx req) ∧
      ((m.GetProvider name).2 = none → ∃ p, m.GetProvider name = (some p, none)) := by
  refine ⟨?_, ?_, ?_⟩
  · intro e he
    unfold AIManager.ChatCompletion
    split
    · rename_i err heq
      rw [heq] at he
      simp only [Option.some.injEq] at he
      subst he
      rfl
    · rename_i heq
      rw [heq] at he
      exact Option.noConfusion he
    · rename_i heq
      rw [heq] at he
      exact Option.noConfusion he
  · intro p hp
    simp [AIManager.ChatCompletion, hp]
  · intro h
    rcases GetProvider_cases m name with ⟨e, he⟩ | ⟨p, hp⟩
    · rw [he] at h
      exact Option.noConfusion h
    · exact ⟨p, hp⟩

/-- C14: for each remapping adapter (GLM, DeepSeek, Qwen, Kimi) and every HTTP 200 vendor
body that decodes to a vendor response `r`, `ChatCompletion` succeeds with a response whose
id and model equal `r`'s and whose choices are `r.choices`, as many and in the same order,
each with the index, message role, message content and finish reason of the vendor's
choice. -/
theorem ChatCompletion_remaps (lib : Lib Ctx) (ctx : Ctx) (req : ChatCompletionRequest)
    (apiURL : String) (apiKey : GoString) (model : String) (jsonReq body : List Byte)
    (h : lib.answers ctx apiURL apiKey (vendorRequest model req) jsonReq 200 body) :
    (∀ r : glmResponse, lib.UnmarshalGLMResponse body = .ok r →
        ((NewGLMProvider apiURL apiKey model).ChatCompletion lib ctx req).remaps
          r.ID r.Model r.Choices) ∧
      (∀ r : deepseekResponse, lib.UnmarshalDeepseekResponse body = .ok r →
        ((NewDeepSeekProvider apiURL apiKey model).ChatCompletion lib ctx req).remaps
          r.ID r.Model r.Choices ∧
        ((NewQwenProvider apiURL apiKey model).ChatCompletion lib ctx req).remaps
          r.ID r.Model r.Choices ∧
        ((NewKimiProvider apiURL apiKey model).ChatCompletion lib ctx req).remaps
          r.ID r.Model r.Choices) := by
  refine ⟨fun r hr => ?_, fun r hr => ⟨?_, ?_, ?_⟩⟩
  · rw [GLM_ChatCompletion_answers lib (NewGLMProvider apiURL apiKey model) ctx req
      jsonReq 200 body h]
    simp [hr, CallResult.success, CallResult.remaps, neutralChoices]
  · rw [DeepSeek_ChatCompletion_answers lib (NewDeepSeekProvider apiURL apiKey model)
      ctx req jsonReq 200 body h]
    simp [hr, CallResult.success, CallResult.remaps, neutralChoices]
  · rw [Qwen_ChatCompletion_answers lib (NewQwenProvider apiURL apiKey model) ctx req
      jsonReq 200 body h]
    simp [hr, CallResult.success, CallResult.remaps, neutralChoices]
  · rw [Kimi_ChatCompletion_answers lib (NewKimiProvider apiURL apiKey model) ctx req
      jsonReq 200 body h]
    simp [hr, CallResult.success, CallResult.remaps, neutralChoices]

end ai

namespace ai

variable {Ctx : Type}

theorem GLM_ChatCompletion_sent (lib : Lib Ctx) (p : GLMProvider) (ctx : Ctx)
    (req : ChatCompletionRequest) :
    (p.ChatCompletion lib ctx req).sent =
      match lib.Marshal (vendorRequest p.model req) with
      | .error _ => []
      | .ok jsonReq =>
        match lib.NewRequestError ctx "POST" (p.apiURL ++ "/chat/completions") with
        | some _ => []
        | none => [postRequest ctx p.apiURL p.apiKey jsonReq] := by
  simp only [GLMProvider.ChatCompletion, vendorRequest, NewRequestWithContext]
  split
  · rfl
  · split
    · rename_i heq
      split at heq
      · simp
      · exact Except.noConfusion heq
    · rename_i httpReq heq
      split at heq
      · exact Except.noConfusion heq
      · simp only [Except.ok.injEq] at heq
        subst heq
        simp only [HeaderSet_post]
        repeat' split
        all_goals rfl

theorem DeepSeek_ChatCompletion_sent (lib : Lib Ctx) (p : DeepSeekProvider) (ctx : Ctx)
    (req : ChatCompletionRequest) :
    (p.ChatCompletion lib ctx req).sent =
      match lib.Marshal (vendorRequest p.model req) with
      | .error _ => []
      | .ok jsonReq =>
        match lib.NewRequestError ctx "POST" (p.apiURL ++ "/chat/completions") with
        | some _ => []
        | none => [postRequest ctx p.apiURL p.apiKey jsonReq] := by
  simp only [DeepSeekProvider.ChatCompletion, vendorRequest, NewRequestWithContext]
  split
  · rfl
  · split
    · rename_i heq
      split at heq
      · simp
      · exact Except.noConfusion heq
    · rename_i httpReq heq
      split at heq
      · exact Except.noConfusion heq
      · simp only [Except.ok.injEq] at heq
        subst heq
        simp only [HeaderSet_post]
        repeat' split
        all_goals rfl

theorem Qwen_ChatCompletion_sent (lib : Lib Ctx) (p : QwenProvider) (ctx : Ctx)
    (req : ChatCompletionRequest) :
    (p.ChatCompletion lib ctx req).sent =
      match lib.Marshal (vendorRequest p.model req) with
      | .error _ => []
      | .ok jsonReq =>
        match lib.NewRequestError ctx "POST" (p.apiURL ++ "/chat/completions") with
        | some _ => []
        | none => [postRequest ctx p.apiURL p.apiKey jsonReq] := by
  simp only [QwenProvider.ChatCompletion, vendorRequest, NewRequestWithContext]
  split
  · rfl
  · split
    · rename_i heq
      split at heq
      · simp
      · exact Except.noConfusion heq
    · rename_i httpReq heq
      split at heq
      · exact Except.noConfusion heq
      · simp only [Except.ok.injEq] at heq
        subst heq
        simp only [HeaderSet_post]
        repeat' split
        all_goals rfl

theorem Kimi_ChatCompletion_sent (lib : Lib Ctx) (p : KimiProvider) (ctx : Ctx)
    (req : ChatCompletionRequest) :
    (p.ChatCompletion lib ctx req).sent =
      match lib.Marshal (vendorRequest p.model req) with
      | .error _ => []
      | .ok jsonReq =>
        match lib.NewRequestError ctx "POST" (p.apiURL ++ "/chat/completions") with
        | some _ => []
        | none => [postRequest ctx p.apiURL p.apiKey jsonReq] := by
  simp only [KimiProvider.ChatCompletion, vendorRequest, NewRequestWithContext]
  split
  · rfl
  · split
    · rename_i heq
      split at heq
      · simp
      · exact Except.noConfusion heq
    · rename_i httpReq heq
      split at heq
      · exact Except.noConfusion heq
      · simp only [Except.ok.injEq] at heq
        subst heq
        simp only [HeaderSet_post]
        repeat' split
        all_goals rfl

theorem OpenAI_ChatCompletion_sent (lib : Lib Ctx) (p : OpenAIProvider) (ctx : Ctx)
    (req : ChatCompletionRequest) :
    (p.ChatCompletion lib ctx req).sent =
      match lib.Marshal { req with Model := p.model } with
      | .error _ => []
      | .ok jsonReq =>
        match lib.NewRequestError ctx "POST" (p.apiURL ++ "/chat/completions") with
        | some _ => []
        | none => [postRequest ctx p.apiURL p.apiKey jsonReq] := by
  simp only [OpenAIProvider.ChatCompletion, NewRequestWithContext]
  split
  · rfl
  · split
    · rename_i heq
      split at heq
      · simp
      · exact Except.noConfusion heq
    · rename_i httpReq heq
      split at heq
      · exact Except.noConfusion heq
      · simp only [Except.ok.injEq] at heq
        subst heq
        simp only [HeaderSet_post]
        repeat' split
        all_goals rfl


/-- C15: for every adapter and every successful vendor response, the returned usage has
`prompt_tokens`, `completion_tokens` and `total_tokens` each equal to the vendor-reported
value, so that `total_tokens` is passed through unchanged whatever its relation to the
other two; for DeepSeek, Qwen and Kimi the object tag is the vendor's, and the OpenAI
adapter returns the decoded response as it is. -/
theorem ChatCompletion_usage (lib : Lib Ctx) (ctx : Ctx) (req : ChatCompletionRequest)
    (apiURL : String) (apiKey : GoString) (model : String) (jsonReq body : List Byte)
    (h : lib.answers ctx apiURL apiKey (vendorRequest model req) jsonReq 200 body) :
    (∀ r : glmResponse, lib.UnmarshalGLMResponse body = .ok r →
        ∃ resp, ((NewGLMProvider apiURL apiKey model).ChatCompletion lib ctx req).response =
            some resp ∧
          resp.Usage = { PromptTokens := r.Usage.PromptTokens,
                         CompletionTokens := r.Usage.CompletionTokens,
                         TotalTokens := r.Usage.TotalTokens }) ∧
      (∀ r : deepseekResponse, lib.UnmarshalDeepseekResponse body = .ok r →
        ∃ resp,
          ((NewDeepSeekProvider apiURL apiKey model).ChatCompletion lib ctx req).response =
            some resp ∧
          ((NewQwenProvider apiURL apiKey model).ChatCompletion lib ctx req).response =
            some resp ∧
          ((NewKimiProvider apiURL apiKey model).ChatCompletion lib ctx req).response =
            some resp ∧
          resp.Object = r.Object ∧
          resp.Usage = { PromptTokens := r.Usage.PromptTokens,
                         CompletionTokens := r.Usage.CompletionTokens,
                         TotalTokens := r.Usage.TotalTokens }) ∧
      (∀ (jsonReq1 : List Byte) (r : ChatCompletionResponse),
        lib.answers ctx apiURL apiKey { req with Model := model } jsonReq1 200 body →
        lib.UnmarshalChatCompletionResponse body = .ok r →
        ((NewOpenAIProvider apiURL apiKey model).ChatCompletion lib ctx req).response =
          some r) := by
  refine ⟨fun r hr => ?_, fun r hr => ?_, fun jsonReq1 r h1 hr => ?_⟩
  · rw [GLM_ChatCompletion_answers lib (NewGLMProvider apiURL apiKey model) ctx req
      jsonReq 200 body h]
    simp [hr, CallResult.success]
  · rw [DeepSeek_ChatCompletion_answers lib (NewDeepSeekProvider apiURL apiKey model)
      ctx req jsonReq 200 body h,
      Qwen_ChatCompletion_answers lib (NewQwenProvider apiURL apiKey model) ctx req
      jsonReq 200 body h,
      Kimi_ChatCompletion_answers lib (NewKimiProvider apiURL apiKey model) ctx req
      jsonReq 200 body h]
    simp [hr, CallResult.success]
  · rw [OpenAI_ChatCompletion_answers lib (NewOpenAIProvider apiURL apiKey model) ctx
      req jsonReq1 200 body h1]
    simp [hr, CallResult.success]

/-- C16: for every adapter, every status other than 200 (so every non-success status) and
every body that parses as an error envelope whose message `m` is non-empty,
`ChatCompletion` returns no response and an error that names the vendor and carries `m`
verbatim. -/
theorem ChatCompletion_api_error (lib : Lib Ctx) (ctx : Ctx) (req : ChatCompletionRequest)
    (apiURL : String) (apiKey : GoString) (model : String) (jsonReq body : List Byte)
    (status : Int) (m : String) (hstatus : status ≠ 200) (hm : m ≠ "")
    (h : lib.answers ctx apiURL apiKey (vendorRequest model req) jsonReq status body) :
    (∀ e : glmErrorResponse, lib.UnmarshalGLMError body = .ok e → e.Error.Message = m →
        (NewGLMProvider apiURL apiKey model).ChatCompletion lib ctx req =
          .failure req [postRequest ctx apiURL apiKey jsonReq] ("GLM API错误: " ++ m)) ∧
      (∀ e : deepseekErrorResponse, lib.UnmarshalDeepseekError body = .ok e →
        e.Error.Message = m →
        (NewDeepSeekProvider apiURL apiKey model).ChatCompletion lib ctx req =
          .failure req [postRequest ctx apiURL apiKey jsonReq] ("DeepSeek API错误: " ++ m) ∧
        (NewQwenProvider apiURL apiKey model).ChatCompletion lib ctx req =
          .failure req [postRequest ctx apiURL apiKey jsonReq] ("Qwen API错误: " ++ m) ∧
        (NewKimiProvider apiURL apiKey model).ChatCompletion lib ctx req =
          .failure req [postRequest ctx apiURL apiKey jsonReq] ("Kimi API错误: " ++ m) ∧
        ∀ jsonReq1 : List Byte,
          lib.answers ctx apiURL apiKey { req with Model := model } jsonReq1 status body →
          ((NewOpenAIProvider apiURL apiKey model).ChatCompletion lib ctx req).response =
            none ∧
          ((NewOpenAIProvider apiURL apiKey model).ChatCompletion lib ctx req).err =
            some ("OpenAI API错误: " ++ m)) := by
  refine ⟨fun e he hem => ?_, fun e he hem => ⟨?_, ?_, ?_, fun jsonReq1 h1 => ?_⟩⟩
  · rw [GLM_ChatCompletion_answers lib (NewGLMProvider apiURL apiKey model) ctx req
      jsonReq status body h]
    subst hem
    simp [hstatus, he, hm, NewGLMProvider]
  · rw [DeepSeek_ChatCompletion_answers lib (NewDeepSeekProvider apiURL apiKey model)
      ctx req jsonReq status body h]
    subst hem
    simp [hstatus, he, hm, NewDeepSeekProvider]
  · rw [Qwen_ChatCompletion_answers lib (NewQwenProvider apiURL apiKey model) ctx req
      jsonReq status body h]
    subst hem
    simp [hstatus, he, hm, NewQwenProvider]
  · rw [Kimi_ChatCompletion_answers lib (NewKimiProvider apiURL apiKey model) ctx req
      jsonReq status body h]
    subst hem
    simp [hstatus, he, hm, NewKimiProvider]
  · rw [OpenAI_ChatCompletion_answers lib (NewOpenAIProvider apiURL apiKey model) ctx
      req jsonReq1 status body h1]
    subst hem
    simp [hstatus, he, hm, CallResult.failure]

end ai

namespace ai

variable {Ctx : Type}

/-- Counterexample to C17 as stated: a vendor answers 500 with a body that is no error
envelope; the GLM adapter fails with "GLM API错误: HTTP 500", which carries the status code
but shares not a single byte with the body. -/
theorem ChatCompletion_http_error_counterexample :
    decodeError ((testLib testTables 500 testHTMLBody).UnmarshalGLMError testHTMLBody) ≠ none ∧
    ((NewGLMProvider "http://127.0.0.1:8080" (goString "test-key") "glm-4").ChatCompletion
        (testLib testTables 500 testHTMLBody) () testRequest).err =
      some "GLM API错误: HTTP 500" ∧
    carriesExcerpt "GLM API错误: HTTP 500" testHTMLBody = false := by
  decide

/-- C17, amended: for every adapter and every response with a status other than 200
(every non-2xx status among them) whose body is not a parseable error envelope or whose
envelope message is empty, `ChatCompletion` returns no response and an error that names
the vendor and carries the HTTP status code and nothing else: it is the vendor's tag
followed by `HTTP` and the status, the same for every such body. -/
theorem ChatCompletion_http_error (lib : Lib Ctx) (ctx : Ctx) (req : ChatCompletionRequest)
    (apiURL : String) (apiKey : GoString) (model : String) (jsonReq body : List Byte)
    (status : Int) (hstatus : status ≠ 200)
    (h : lib.answers ctx apiURL apiKey (vendorRequest model req) jsonReq status body) :
    ((∀ e : glmErrorResponse, lib.UnmarshalGLMError body = .ok e → e.Error.Message = "") →
        (NewGLMProvider apiURL apiKey model).ChatCompletion lib ctx req =
          .failure req [postRequest ctx apiURL apiKey jsonReq]
            ("GLM API错误: HTTP " ++ toString status)) ∧
      ((∀ e : deepseekErrorResponse, lib.UnmarshalDeepseekError body = .ok e →
          e.Error.Message = "") →
        (NewDeepSeekProvider apiURL apiKey model).ChatCompletion lib ctx req =
          .failure req [postRequest ctx apiURL apiKey jsonReq]
            ("DeepSeek API错误: HTTP " ++ toString status) ∧
        (NewQwenProvider apiURL apiKey model).ChatCompletion lib ctx req =
          .failure req [postRequest ctx apiURL apiKey jsonReq]
            ("Qwen API错误: HTTP " ++ toString status) ∧
        (NewKimiProvider apiURL apiKey model).ChatCompletion lib ctx req =
          .failure req [postRequest ctx apiURL apiKey jsonReq]
            ("Kimi API错误: HTTP " ++ toString status) ∧
        ∀ jsonReq1 : List Byte,
          lib.answers ctx apiURL apiKey { req with Model := model } jsonReq1 status body →
          ((NewOpenAIProvider apiURL apiKey model).ChatCompletion lib ctx req).response =
            none ∧
          ((NewOpenAIProvider apiURL apiKey model).ChatCompletion lib ctx req).err =
            some ("OpenAI API错误: HTTP " ++ toString status)) := by
  refine ⟨fun he => ?_, fun he => ⟨?_, ?_, ?_, fun jsonReq1 h1 => ?_⟩⟩
  · rw [GLM_ChatCompletion_answers lib (NewGLMProvider apiURL apiKey model) ctx req
      jsonReq status body h]
    simp only [hstatus, ne_eq, not_false_eq_true, if_true, NewGLMProvider]
    split
    · rename_i errResp heq
      simp [he errResp heq]
    · rfl
  · rw [DeepSeek_ChatCompletion_answers lib (NewDeepSeekProvider apiURL apiKey model)
      ctx req jsonReq status body h]
    simp only [hstatus, ne_eq, not_false_eq_true, if_true, NewDeepSeekProvider]
    split
    · rename_i errResp heq
      simp [he errResp heq]
    · rfl
  · rw [Qwen_ChatCompletion_answers lib (NewQwenProvider apiURL apiKey model) ctx req
      jsonReq status body h]
    simp only [hstatus, ne_eq, not_false_eq_true, if_true, NewQwenProvider]
    split
    · rename_i errResp heq
      simp [he errResp heq]
    · rfl
  · rw [Kimi_ChatCompletion_answers lib (NewKimiProvider apiURL apiKey model) ctx req
      jsonReq status body h]
    simp only [hstatus, ne_eq, not_false_eq_true, if_true, NewKimiProvider]
    split
    · rename_i errResp heq
      simp [he errResp heq]
    · rfl
  · rw [OpenAI_ChatCompletion_answers lib (NewOpenAIProvider apiURL apiKey model) ctx
      req jsonReq1 status body h1]
    simp only [hstatus, ne_eq, not_false_eq_true, if_true]
    split
    · rename_i errResp heq
      simp [he errResp heq, CallResult.failure]
    · simp [CallResult.failure]

theorem followsStatus_of_eq (cr : CallResult Ctx) (vendor : String) (status : Int)
    {α : Type} (decoded : Except String α) (envelope : Option String)
    (req : ChatCompletionRequest) (sent : List (HttpRequest Ctx))
    (mk : α → ChatCompletionResponse)
    (h : cr =
      if status ≠ 200 then .failure req sent (errorBranchMessage vendor status envelope)
      else
        match decoded with
        | .error err => .failure req sent ("解析响应失败: " ++ err)
        | .ok r => .success req sent (mk r)) :
    cr.followsStatus vendor status (decodeError decoded) envelope := by
  subst h
  refine ⟨fun h200 => ?_, fun hne => ?_⟩
  · subst h200
    cases decoded with
    | ok r => simp [decodeError, CallResult.success]
    | error err => simp [decodeError, CallResult.failure]
  · simp [hne, CallResult.failure]

theorem GLM_ChatCompletion_followsStatus (lib : Lib Ctx) (ctx : Ctx)
    (req : ChatCompletionRequest) (apiURL : String) (apiKey : GoString) (model : String)
    (jsonReq body : List Byte) (status : Int)
    (h : lib.answers ctx apiURL apiKey (vendorRequest model req) jsonReq status body) :
    ((NewGLMProvider apiURL apiKey model).ChatCompletion lib ctx req).followsStatus "GLM"
      status (decodeError (lib.UnmarshalGLMResponse body)) (lib.glmErrorMessage body) := by
  apply followsStatus_of_eq _ _ _ _ _ req [postRequest ctx apiURL apiKey jsonReq]
    (fun r => { ID := r.ID, Object := "chat.completion", Model := r.Model,
                Choices := neutralChoices r.Choices,
                Usage := { PromptTokens := r.Usage.PromptTokens,
                           CompletionTokens := r.Usage.CompletionTokens,
                           TotalTokens := r.Usage.TotalTokens } })
  rw [GLM_ChatCompletion_answers lib (NewGLMProvider apiURL apiKey model) ctx req
    jsonReq status body h]
  simp only [NewGLMProvider, Lib.glmErrorMessage, errorBranchMessage]
  split
  · split
    · split <;> rfl
    · rfl
  · split <;> (rename_i heq; simp only [heq])

theorem DeepSeek_ChatCompletion_followsStatus (lib : Lib Ctx) (ctx : Ctx)
    (req : ChatCompletionRequest) (apiURL : String) (apiKey : GoString) (model : String)
    (jsonReq body : List Byte) (status : Int)
    (h : lib.answers ctx apiURL apiKey (vendorRequest model req) jsonReq status body) :
    ((NewDeepSeekProvider apiURL apiKey model).ChatCompletion lib ctx req).followsStatus "DeepSeek"
      status (decodeError (lib.UnmarshalDeepseekResponse body)) (lib.deepseekErrorMessage body) := by
  apply followsStatus_of_eq _ _ _ _ _ req [postRequest ctx apiURL apiKey jsonReq]
    (fun r => { ID := r.ID, Object := r.Object, Model := r.Model,
                Choices := neutralChoices r.Choices,
                Usage := { PromptTokens := r.Usage.PromptTokens,
                           CompletionTokens := r.Usage.CompletionTokens,
                           TotalTokens := r.Usage.TotalTokens } })
  rw [DeepSeek_ChatCompletion_answers lib (NewDeepSeekProvider apiURL apiKey model) ctx req
    jsonReq status body h]
  simp only [NewDeepSeekProvider, Lib.deepseekErrorMessage, errorBranchMessage]
  split
  · split
    · split <;> rfl
    · rfl
  · split <;> (rename_i heq; simp only [heq])

theorem Qwen_ChatCompletion_followsStatus (lib : Lib Ctx) (ctx : Ctx)
    (req : ChatCompletionRequest) (apiURL : String) (apiKey : GoString) (model : String)
    (jsonReq body : List Byte) (status : Int)
    (h : lib.answers ctx apiURL apiKey (vendorRequest model req) jsonReq status body) :
    ((NewQwenProvider apiURL apiKey model).ChatCompletion lib ctx req).followsStatus "Qwen"
      status (decodeError (lib.UnmarshalDeepseekResponse body)) (lib.deepseekErrorMessage body) := by
  apply followsStatus_of_eq _ _ _ _ _ req [postRequest ctx apiURL apiKey jsonReq]
    (fun r => { ID := r.ID, Object := r.Object, Model := r.Model,
                Choices := neutralChoices r.Choices,
                Usage := { PromptTokens := r.Usage.PromptTokens,
                           CompletionTokens := r.Usage.CompletionTokens,
                           TotalTokens := r.Usage.TotalTokens } })
  rw [Qwen_ChatCompletion_answers lib (NewQwenProvider apiURL apiKey model) ctx req
    jsonReq status body h]
  simp only [NewQwenProvider, Lib.deepseekErrorMessage, errorBranchMessage]
  split
  · split
    · split <;> rfl
    · rfl
  · split <;> (rename_i heq; simp only [heq])

theorem Kimi_ChatCompletion_followsStatus (lib : Lib Ctx) (ctx : Ctx)
    (req : ChatCompletionRequest) (apiURL : String) (apiKey : GoString) (model : String)
    (jsonReq body : List Byte) (status : Int)
    (h : lib.answers ctx apiURL apiKey (vendorRequest model req) jsonReq status body) :
    ((NewKimiProvider apiURL apiKey model).ChatCompletion lib ctx req).followsStatus "Kimi"
      status (decodeError (lib.UnmarshalDeepseekResponse body)) (lib.deepseekErrorMessage body) := by
  apply followsStatus_of_eq _ _ _ _ _ req [postRequest ctx apiURL apiKey jsonReq]
    (fun r => { ID := r.ID, Object := r.Object, Model := r.Model,
                Choices := neutralChoices r.Choices,
                Usage := { PromptTokens := r.Usage.PromptTokens,
                           CompletionTokens := r.Usage.CompletionTokens,
                           TotalTokens := r.Usage.TotalTokens } })
  rw [Kimi_ChatCompletion_answers lib (NewKimiProvider apiURL apiKey model) ctx req
    jsonReq status body h]
  simp only [NewKimiProvider, Lib.deepseekErrorMessage, errorBranchMessage]
  split
  · split
    · split <;> rfl
    · rfl
  · split <;> (rename_i heq; simp only [heq])

theorem OpenAI_ChatCompletion_followsStatus (lib : Lib Ctx) (ctx : Ctx)
    (req : ChatCompletionRequest) (apiURL : String) (apiKey : GoString) (model : String)
    (jsonReq body : List Byte) (status : Int)
    (h : lib.answers ctx apiURL apiKey { req with Model := model } jsonReq status body) :
    ((NewOpenAIProvider apiURL apiKey model).ChatCompletion lib ctx req).followsStatus
      "OpenAI" status (decodeError (lib.UnmarshalChatCompletionResponse body))
      (lib.deepseekErrorMessage body) := by
  apply followsStatus_of_eq _ _ _ _ _ { req with Model := model }
    [postRequest ctx apiURL apiKey jsonReq] (fun r => r)
  rw [OpenAI_ChatCompletion_answers lib (NewOpenAIProvider apiURL apiKey model) ctx
    req jsonReq status body h]
  simp only [NewOpenAIProvider, Lib.deepseekErrorMessage, errorBranchMessage]
  split
  · split
    · split <;> rfl
    · rfl
  · split <;> (rename_i heq; simp only [heq])

/-- Counterexample to C18 as stated: a vendor answers with the 2xx status 201 and the body
of the format test, which parses as the vendor success shape; the GLM adapter does not
return a response but fails with "GLM API错误: HTTP 201". -/
theorem ChatCompletion_status_counterexample :
    decodeError ((testLib testTables 201 testBody).UnmarshalGLMResponse testBody) = none ∧
    ((NewGLMProvider "http://127.0.0.1:8080" (goString "test-key") "glm-4").ChatCompletion
        (testLib testTables 201 testBody) () testRequest).response = none ∧
    ((NewGLMProvider "http://127.0.0.1:8080" (goString "test-key") "glm-4").ChatCompletion
        (testLib testTables 201 testBody) () testRequest).err =
      some "GLM API错误: HTTP 201" := by
  decide

/-- C18, amended: for every adapter, a response with status 200 whose body parses as the
vendor success shape is mapped to a neutral `ChatCompletionResponse` and returned as
success, and a response with status 200 whose body does not parse fails with the
response-decode error; for every other status, the other 2xx codes included, the adapter
takes the error-envelope branch and fails. -/
theorem ChatCompletion_status (lib : Lib Ctx) (ctx : Ctx) (req : ChatCompletionRequest)
    (apiURL : String) (apiKey : GoString) (model : String) (jsonReq body : List Byte)
    (status : Int)
    (h : lib.answers ctx apiURL apiKey (vendorRequest model req) jsonReq status body) :
    ((NewGLMProvider apiURL apiKey model).ChatCompletion lib ctx req).followsStatus "GLM"
        status (decodeError (lib.UnmarshalGLMResponse body)) (lib.glmErrorMessage body) ∧
      ((NewDeepSeekProvider apiURL apiKey model).ChatCompletion lib ctx req).followsStatus
        "DeepSeek" status (decodeError (lib.UnmarshalDeepseekResponse body))
        (lib.deepseekErrorMessage body) ∧
      ((NewQwenProvider apiURL apiKey model).ChatCompletion lib ctx req).followsStatus
        "Qwen" status (decodeError (lib.UnmarshalDeepseekResponse body))
        (lib.deepseekErrorMessage body) ∧
      ((NewKimiProvider apiURL apiKey model).ChatCompletion lib ctx req).followsStatus
        "Kimi" status (decodeError (lib.UnmarshalDeepseekResponse body))
        (lib.deepseekErrorMessage body) ∧
      (∀ jsonReq1 : List Byte,
        lib.answers ctx apiURL apiKey { req with Model := model } jsonReq1 status body →
        ((NewOpenAIProvider apiURL apiKey model).ChatCompletion lib ctx req).followsStatus
          "OpenAI" status (decodeError (lib.UnmarshalChatCompletionResponse body))
          (lib.deepseekErrorMessage body)) :=
  ⟨GLM_ChatCompletion_followsStatus lib ctx req apiURL apiKey model jsonReq body
      status h,
   DeepSeek_ChatCompletion_followsStatus lib ctx req apiURL apiKey model jsonReq body
      status h,
   Qwen_ChatCompletion_followsStatus lib ctx req apiURL apiKey model jsonReq body
      status h,
   Kimi_ChatCompletion_followsStatus lib ctx req apiURL apiKey model jsonReq body
      status h,
   fun jsonReq1 h1 =>
     OpenAI_ChatCompletion_followsStatus lib ctx req apiURL apiKey model jsonReq1 body
       status h1⟩

theorem mem_sent_cases (lib : Lib Ctx) (ctx : Ctx) (apiURL : String) (apiKey : GoString)
    (v : ChatCompletionRequest) (r : HttpRequest Ctx)
    (h : r ∈ (match lib.Marshal v with
      | .error _ => []
      | .ok jsonReq =>
        match lib.NewRequestError ctx "POST" (apiURL ++ "/chat/completions") with
        | some _ => []
        | none => [postRequest ctx apiURL apiKey jsonReq])) :
    lib.Marshal v = .ok r.Body ∧ r = postRequest ctx apiURL apiKey r.Body := by
  split at h
  · simp at h
  · rename_i jsonReq heq
    split at h
    · simp at h
    · simp only [List.mem_singleton] at h
      subst h
      exact ⟨heq, rfl⟩

theorem mem_sent_remap (lib : Lib Ctx) (ctx : Ctx) (req : ChatCompletionRequest)
    (apiURL : String) (apiKey : GoString) (model : String) (r : HttpRequest Ctx)
    (h : r ∈ ((NewGLMProvider apiURL apiKey model).ChatCompletion lib ctx req).sent ∨
      r ∈ ((NewDeepSeekProvider apiURL apiKey model).ChatCompletion lib ctx req).sent ∨
      r ∈ ((NewQwenProvider apiURL apiKey model).ChatCompletion lib ctx req).sent ∨
      r ∈ ((NewKimiProvider apiURL apiKey model).ChatCompletion lib ctx req).sent) :
    lib.Marshal (vendorRequest model req) = .ok r.Body ∧
      r = postRequest ctx apiURL apiKey r.Body := by
  rw [GLM_ChatCompletion_sent, DeepSeek_ChatCompletion_sent,
    Qwen_ChatCompletion_sent, Kimi_ChatCompletion_sent] at h
  rcases h with h | h | h | h <;> exact mem_sent_cases lib ctx apiURL apiKey _ r h

theorem mem_sent_openai (lib : Lib Ctx) (ctx : Ctx) (req : ChatCompletionRequest)
    (apiURL : String) (apiKey : GoString) (model : String) (r : HttpRequest Ctx)
    (h : r ∈ ((NewOpenAIProvider apiURL apiKey model).ChatCompletion lib ctx req).sent) :
    lib.Marshal { req with Model := model } = .ok r.Body ∧
      r = postRequest ctx apiURL apiKey r.Body := by
  rw [OpenAI_ChatCompletion_sent] at h
  exact mem_sent_cases lib ctx apiURL apiKey _ r h

/-- C19: for every one of the five vendor adapters constructed with endpoint `e` and API
key `k`, and every request, every HTTP request the adapter sends is a POST to the URL
`e + "/chat/completions"` with the header `Content-Type` equal to `application/json` and
the header `Authorization` equal to `"Bearer " + k`; and the adapter sends exactly one
such request whenever the body can be marshalled and the HTTP request created. -/
theorem ChatCompletion_outbound (lib : Lib Ctx) (ctx : Ctx) (req : ChatCompletionRequest)
    (e : String) (k : GoString) (model : String) :
    (∀ r : HttpRequest Ctx,
        (r ∈ ((NewGLMProvider e k model).ChatCompletion lib ctx req).sent ∨
          r ∈ ((NewDeepSeekProvider e k model).ChatCompletion lib ctx req).sent ∨
          r ∈ ((NewQwenProvider e k model).ChatCompletion lib ctx req).sent ∨
          r ∈ ((NewKimiProvider e k model).ChatCompletion lib ctx req).sent ∨
          r ∈ ((NewOpenAIProvider e k model).ChatCompletion lib ctx req).sent) →
        r.Method = "POST" ∧ r.URL = e ++ "/chat/completions" ∧
          r.Header.get "Content-Type" = some (goString "application/json") ∧
          r.Header.get "Authorization" = some (goString "Bearer " ++ k)) ∧
      (lib.NewRequestError ctx "POST" (e ++ "/chat/completions") = none →
        (∀ jsonReq, lib.Marshal (vendorRequest model req) = .ok jsonReq →
          ((NewGLMProvider e k model).ChatCompletion lib ctx req).sent =
            [postRequest ctx e k jsonReq] ∧
          ((NewDeepSeekProvider e k model).ChatCompletion lib ctx req).sent =
            [postRequest ctx e k jsonReq] ∧
          ((NewQwenProvider e k model).ChatCompletion lib ctx req).sent =
            [postRequest ctx e k jsonReq] ∧
          ((NewKimiProvider e k model).ChatCompletion lib ctx req).sent =
            [postRequest ctx e k jsonReq]) ∧
        (∀ jsonReq, lib.Marshal { req with Model := model } = .ok jsonReq →
          ((NewOpenAIProvider e k model).ChatCompletion lib ctx req).sent =
            [postRequest ctx e k jsonReq])) := by
  refine ⟨fun r hr => ?_, fun hn => ⟨fun jsonReq hm => ?_, fun jsonReq hm => ?_⟩⟩
  · have hp : r = postRequest ctx e k r.Body := by
      rcases hr with h | h | h | h | h
      · exact (mem_sent_remap lib ctx req e k model r (Or.inl h)).2
      · exact (mem_sent_remap lib ctx req e k model r (Or.inr (Or.inl h))).2
      · exact (mem_sent_remap lib ctx req e k model r (Or.inr (Or.inr (Or.inl h)))).2
      · exact (mem_sent_remap lib ctx req e k model r (Or.inr (Or.inr (Or.inr h)))).2
      · exact (mem_sent_openai lib ctx req e k model r h).2
    rw [hp]
    simp [postRequest, GoMap.get]
  · rw [GLM_ChatCompletion_sent, DeepSeek_ChatCompletion_sent,
      Qwen_ChatCompletion_sent, Kimi_ChatCompletion_sent]
    simp only [NewGLMProvider, NewDeepSeekProvider, NewQwenProvider, NewKimiProvider, hm, hn,
      and_self]
  · rw [OpenAI_ChatCompletion_sent]
    simp only [NewOpenAIProvider, hm, hn]

end ai

namespace ai

/-! ## Witnesses of the adapter claims on the test server -/

theorem testTables_marshal :
    testTables.marshal.lookup (vendorRequest "glm-4" testRequest) = some testRequestJSON := by
  decide

/-- Witness for C13: on a registry holding one GLM adapter, dispatch to an unknown name
fails with the resolution error and sends nothing, and dispatch to the default is the
adapter's own call. -/
theorem ChatCompletion_dispatch_witness :
    (testManager 200 testBody).ChatCompletion () "missing" testRequest =
      .failure testRequest [] "provider missing 不存在" ∧
    (testManager 200 testBody).ChatCompletion () "" testRequest =
      (NewGLMProvider testURL testKey "glm-4").ChatCompletion (testLib testTables 200 testBody)
        () testRequest :=
  ⟨(ChatCompletion_dispatch (testManager 200 testBody) () "missing" testRequest).1
      "provider missing 不存在" (by decide),
   (ChatCompletion_dispatch (testManager 200 testBody) () "" testRequest).2.1
      ((NewGLMProvider testURL testKey "glm-4").toAIProvider (testLib testTables 200 testBody))
      rfl⟩

/-- Witness for C14: the exchange of `TestGLMProvider_RequestFormat`; the response has the
id `test-id`, the model `glm-4` and exactly one choice, with the content `Hello!` and the
finish reason `stop`. -/
theorem ChatCompletion_remaps_witness :
    ((NewGLMProvider testURL testKey "glm-4").ChatCompletion (testLib testTables 200 testBody)
        () testRequest).remaps "test-id" "glm-4"
      [{ Index := 0, Message := { Role := "assistant", Content := "Hello!" },
         FinishReason := "stop" }] :=
  (ChatCompletion_remaps (testLib testTables 200 testBody) () testRequest testURL testKey
      "glm-4" testRequestJSON testBody
      (testLib_answers testTables 200 testBody testURL testKey _ _ testTables_marshal)).1
    { ID := "test-id", Created := 0, Model := "glm-4",
      Choices := [{ Index := 0, Message := { Role := "assistant", Content := "Hello!" },
                    FinishReason := "stop" }],
      Usage := { PromptTokens := 10, CompletionTokens := 5, TotalTokens := 15 } }
    (by decide)

/-- Witness for C15: a vendor reports 10 prompt tokens, 5 completion tokens and a total of
99; the DeepSeek, Qwen and Kimi adapters return that total, with the vendor's object
tag. -/
theorem ChatCompletion_usage_witness :
    ∃ resp : ChatCompletionResponse,
      ((NewDeepSeekProvider testURL testKey "glm-4").ChatCompletion
        (testLib testTables 200 testSkewBody) () testRequest).response = some resp ∧
      ((NewQwenProvider testURL testKey "glm-4").ChatCompletion
        (testLib testTables 200 testSkewBody) () testRequest).response = some resp ∧
      ((NewKimiProvider testURL testKey "glm-4").ChatCompletion
        (testLib testTables 200 testSkewBody) () testRequest).response = some resp ∧
      resp.Object = "chat.completion" ∧
      resp.Usage = { PromptTokens := 10, CompletionTokens := 5, TotalTokens := 99 } :=
  (ChatCompletion_usage (testLib testTables 200 testSkewBody) () testRequest testURL testKey
      "glm-4" testRequestJSON testSkewBody
      (testLib_answers testTables 200 testSkewBody testURL testKey _ _
        testTables_marshal)).2.1
    { ID := "skew", Object := "chat.completion", Created := 0, Model := "m", Choices := [],
      Usage := { PromptTokens := 10, CompletionTokens := 5, TotalTokens := 99 } }
    (by decide)

/-- Witness for C16: the 401 case of `TestProvider_ErrorHandling`; the error carries
`Invalid API key` and no response is returned. -/
theorem ChatCompletion_api_error_witness :
    (NewGLMProvider testURL testKey "glm-4").ChatCompletion
        (testLib testTables 401 testErrorBody) () testRequest =
      .failure testRequest [postRequest () testURL testKey testRequestJSON]
        ("GLM API错误: " ++ "Invalid API key") :=
  (ChatCompletion_api_error (testLib testTables 401 testErrorBody) () testRequest testURL
      testKey "glm-4" testRequestJSON testErrorBody 401 "Invalid API key" (by decide)
      (by decide)
      (testLib_answers testTables 401 testErrorBody testURL testKey _ _
        testTables_marshal)).1
    { Error := { Code := "", Message := "Invalid API key" } } (by decide) rfl

/-- Witness for C17, amended: a 500 answer whose body is no JSON, and a 500 answer whose
body is an envelope without a message, give the same error. -/
theorem ChatCompletion_http_error_witness :
    (NewGLMProvider testURL testKey "glm-4").ChatCompletion
        (testLib testTables 500 testHTMLBody) () testRequest =
      .failure testRequest [postRequest () testURL testKey testRequestJSON]
        ("GLM API错误: HTTP " ++ toString (500 : Int)) ∧
    (NewGLMProvider testURL testKey "glm-4").ChatCompletion
        (testLib testTables 500 testBody) () testRequest =
      .failure testRequest [postRequest () testURL testKey testRequestJSON]
        ("GLM API错误: HTTP " ++ toString (500 : Int)) :=
  ⟨(ChatCompletion_http_error (testLib testTables 500 testHTMLBody) () testRequest testURL
      testKey "glm-4" testRequestJSON testHTMLBody 500 (by decide)
      (testLib_answers testTables 500 testHTMLBody testURL testKey _ _
        testTables_marshal)).1
      (by
        intro e he
        have hd : (testLib testTables 500 testHTMLBody).UnmarshalGLMError testHTMLBody =
            .error "invalid character looking for beginning of value" := by decide
        rw [hd] at he
        exact Except.noConfusion he),
   (ChatCompletion_http_error (testLib testTables 500 testBody) () testRequest testURL
      testKey "glm-4" testRequestJSON testBody 500 (by decide)
      (testLib_answers testTables 500 testBody testURL testKey _ _ testTables_marshal)).1
      (by
        intro e he
        have hd : (testLib testTables 500 testBody).UnmarshalGLMError testBody =
            .ok { Error := { Code := "", Message := "" } } := by decide
        rw [hd] at he
        rw [← Except.ok.inj he])⟩

/-- Witness for C18, amended: the test body with status 200 is a success, and the same
body with status 201 is an error. -/
theorem ChatCompletion_status_witness :
    (((NewGLMProvider testURL testKey "glm-4").ChatCompletion
        (testLib testTables 200 testBody) () testRequest).err = none ∧
      ((NewGLMProvider testURL testKey "glm-4").ChatCompletion
        (testLib testTables 200 testBody) () testRequest).response ≠ none) ∧
    (((NewGLMProvider testURL testKey "glm-4").ChatCompletion
        (testLib testTables 201 testBody) () testRequest).response = none ∧
      ((NewGLMProvider testURL testKey "glm-4").ChatCompletion
        (testLib testTables 201 testBody) () testRequest).err =
        some (errorBranchMessage "GLM" 201
          ((testLib testTables 201 testBody).glmErrorMessage testBody))) :=
  ⟨((ChatCompletion_status (testLib testTables 200 testBody) () testRequest testURL testKey
      "glm-4" testRequestJSON testBody 200
      (testLib_answers testTables 200 testBody testURL testKey _ _ testTables_marshal)).1.1
      rfl).1 (by decide),
   (ChatCompletion_status (testLib testTables 201 testBody) () testRequest testURL testKey
      "glm-4" testRequestJSON testBody 201
      (testLib_answers testTables 201 testBody testURL testKey _ _ testTables_marshal)).1.2
      (by decide)⟩

/-- Witness for C19: the request the GLM adapter sends to the test server. -/
theorem ChatCompletion_outbound_witness :
    ((NewGLMProvider testURL testKey "glm-4").ChatCompletion
        (testLib testTables 200 testBody) () testRequest).sent =
      [postRequest () testURL testKey testRequestJSON] ∧
    (postRequest () testURL testKey testRequestJSON).Method = "POST" ∧
    (postRequest () testURL testKey testRequestJSON).URL =
      "http://127.0.0.1:8080" ++ "/chat/completions" ∧
    (postRequest () testURL testKey testRequestJSON).Header.get "Authorization" =
      some (goString "Bearer " ++ goString "test-key") :=
  have hs := ((ChatCompletion_outbound (testLib testTables 200 testBody) () testRequest
    testURL testKey "glm-4").2 rfl).1 testRequestJSON
    (by simp [testLib, testTables_marshal])
  have hr := (ChatCompletion_outbound (testLib testTables 200 testBody) () testRequest
    testURL testKey "glm-4").1 (postRequest () testURL testKey testRequestJSON)
    (Or.inl (by rw [hs.1]; exact List.mem_singleton_self _))
  ⟨hs.1, hr.1, hr.2.1, hr.2.2.2⟩

end ai

namespace crypto

/-! ## Key derivation and the shape of the ciphertext -/

theorem EncodeToString_length (bs : List Byte) :
    (EncodeToString bs).length = 4 * ((bs.length + 2) / 3) := by
  induction bs using EncodeToString.induct with
  | case1 a b c rest ih =>
    rw [EncodeToString]
    simp only [List.length_cons, ih]
    omega
  | case2 a b => simp [EncodeToString]
  | case3 a => simp [EncodeToString]
  | case4 => simp [EncodeToString]

theorem Seal_length (g : GCM) (nonce plaintext : List Byte) :
    (g.Seal [] nonce plaintext []).length = plaintext.length + 16 := by
  simp [GCM.Seal, counterCrypt_length, auth_length]

theorem defaultKey_length : defaultKey.length = 30 := by decide

theorem Encrypt_err (k : GoString) (rand : List Byte) (p : GoString) :
    (Encrypt k rand p).2 =
      if p = [] then none
      else
        match ReadFull rand 12 with
        | .error err => some err
        | .ok _ => none := by
  by_cases hp : p = []
  · simp [Encrypt, hp]
  · rw [Encrypt_eq k rand p hp]
    simp only [hp, if_false]
    split <;> (rename_i heq; simp only [heq])

theorem ReadFull_ne_KeySizeError (rand : List Byte) (n m : Nat) :
    ReadFull rand n ≠ .error (.KeySizeError m) := by
  unfold ReadFull
  repeat' split
  all_goals simp

/-- C27: for every configured secret, `getEncryptionKey` returns exactly 32 bytes: a
non-empty secret shorter than 32 bytes gives the secret followed by zero bytes up to
length 32, a secret of 32 bytes or more gives its first 32 bytes, and the empty (absent)
secret gives the development default key, which has 30 bytes, followed by two zero bytes.
So `aes.NewCipher` accepts the key, `Encrypt` never returns a key-size error, and whether
`Encrypt` fails depends on the plaintext and the random source only, not on the secret. -/
theorem getEncryptionKey_derivation (secret : GoString) (rand : List Byte) (p : GoString) :
    (getEncryptionKey secret).length = 32 ∧
      (secret ≠ [] → secret.length < 32 →
        getEncryptionKey secret =
          secret ++ List.replicate (32 - secret.length) (0 : Byte)) ∧
      (32 ≤ secret.length → getEncryptionKey secret = secret.take 32) ∧
      (secret = [] → getEncryptionKey secret = defaultKey ++ [0, 0]) ∧
      (∃ block, aesNewCipher (getEncryptionKey secret) = .ok block) ∧
      (∀ n, (Encrypt secret rand p).2 ≠ some (.KeySizeError n)) ∧
      (Encrypt secret rand p).2 =
        (if p = [] then none
         else
          match ReadFull rand 12 with
          | .error err => some err
          | .ok _ => none) := by
  refine ⟨getEncryptionKey_length secret, ?_, ?_, ?_, ⟨_, aesNewCipher_key secret⟩, ?_,
    Encrypt_err secret rand p⟩
  · intro hne hlt
    simp [getEncryptionKey, hne, hlt]
  · intro hge
    have hne : secret ≠ [] := by
      intro h
      rw [h] at hge
      simp at hge
    simp [getEncryptionKey, hne, Nat.not_lt.mpr hge]
  · intro he
    subst he
    simp only [getEncryptionKey, if_true, defaultKey_length]
    decide
  · intro n
    rw [Encrypt_err]
    split
    · simp
    · split
      · rename_i err heq
        intro h
        simp only [Option.some.injEq] at h
        subst h
        exact ReadFull_ne_KeySizeError rand 12 n heq
      · simp

/-- Witness for C27: a five-byte secret is padded with 27 zero bytes, a 40-byte secret is
cut to its first 32 bytes, and the absent secret gives the padded default. -/
theorem getEncryptionKey_derivation_witness :
    getEncryptionKey (goString "short") =
        goString "short" ++ List.replicate 27 (0 : Byte) ∧
      getEncryptionKey (List.replicate 40 (7 : Byte)) = List.replicate 32 (7 : Byte) ∧
      getEncryptionKey [] = defaultKey ++ [0, 0] :=
  ⟨(getEncryptionKey_derivation (goString "short") [] []).2.1 (by decide) (by decide),
    (getEncryptionKey_derivation (List.replicate 40 (7 : Byte)) [] []).2.2.1 (by decide),
    (getEncryptionKey_derivation [] [] []).2.2.2.1 rfl⟩

/-- C28: for every non-empty plaintext `p` and every random source supplying a 12-byte
nonce, the string `Encrypt` returns is valid standard base64 that decodes to the nonce
followed by the sealed payload (the ciphertext of `p` and a 16-byte tag), it is longer
than 20 characters, `IsEncrypted` accepts it, and it is strictly longer than `p`, hence
different from `p`; `IsEncrypted("")` is false. -/
theorem Encrypt_output_shape (ENCRYPTION_KEY : GoString) (rand : List Byte) (p : GoString)
    (hp : p ≠ []) (hrand : 12 ≤ rand.length) :
    (Encrypt ENCRYPTION_KEY rand p).2 = none ∧
      DecodeString (Encrypt ENCRYPTION_KEY rand p).1 =
        .ok (rand.take 12 ++ (keyGCM ENCRYPTION_KEY).Seal [] (rand.take 12) p []) ∧
      ((keyGCM ENCRYPTION_KEY).Seal [] (rand.take 12) p []).length = p.length + 16 ∧
      20 < (Encrypt ENCRYPTION_KEY rand p).1.length ∧
      IsEncrypted (Encrypt ENCRYPTION_KEY rand p).1 = true ∧
      p.length < (Encrypt ENCRYPTION_KEY rand p).1.length ∧
      (Encrypt ENCRYPTION_KEY rand p).1 ≠ p ∧
      IsEncrypted [] = false := by
  have hlen : (Encrypt ENCRYPTION_KEY rand p).1.length = 4 * ((p.length + 30) / 3) := by
    rw [Encrypt_of_rand ENCRYPTION_KEY rand p hp hrand]
    simp only [EncodeToString_length, List.length_append, List.length_take, Seal_length]
    rw [Nat.min_eq_left hrand]
    congr 2
    omega
  have hdec : DecodeString (Encrypt ENCRYPTION_KEY rand p).1 =
      .ok (rand.take 12 ++ (keyGCM ENCRYPTION_KEY).Seal [] (rand.take 12) p []) := by
    rw [Encrypt_of_rand ENCRYPTION_KEY rand p hp hrand]
    exact DecodeString_EncodeToString _
  have h20 : 20 < (Encrypt ENCRYPTION_KEY rand p).1.length := by
    rw [hlen]; omega
  have hlt : p.length < (Encrypt ENCRYPTION_KEY rand p).1.length := by
    rw [hlen]; omega
  refine ⟨?_, hdec, Seal_length _ _ _, h20, ?_, hlt, ?_, rfl⟩
  · rw [Encrypt_of_rand ENCRYPTION_KEY rand p hp hrand]
  · have hne : (Encrypt ENCRYPTION_KEY rand p).1 ≠ [] := by
      intro h
      rw [h] at h20
      simp at h20
    simp only [IsEncrypted, hne, if_false, hdec, h20, decide_True]
  · intro h
    rw [h] at hlt
    exact Nat.lt_irrefl _ hlt

/-- Witness for C28: the one-character plaintext `a` under the default key with the nonce
bytes 1 to 12. -/
theorem Encrypt_output_shape_witness :
    IsEncrypted (Encrypt [] [1, 2, 3, 4, 5, 6, 7, 8, 9, 10, 11, 12] (goString "a")).1 = true ∧
      (Encrypt [] [1, 2, 3, 4, 5, 6, 7, 8, 9, 10, 11, 12] (goString "a")).1 ≠ goString "a" :=
  have h := Encrypt_output_shape [] [1, 2, 3, 4, 5, 6, 7, 8, 9, 10, 11, 12] (goString "a")
    (by decide) (by decide)
  ⟨h.2.2.2.2.1, h.2.2.2.2.2.2.1⟩

end crypto

namespace ai

variable {Ctx : Type}

/-! ## The caller's request after a call -/

theorem GLM_ChatCompletion_req (lib : Lib Ctx) (p : GLMProvider) (ctx : Ctx)
    (req : ChatCompletionRequest) : (p.ChatCompletion lib ctx req).req = req := by
  simp only [GLMProvider.ChatCompletion]
  repeat' split
  all_goals rfl

theorem DeepSeek_ChatCompletion_req (lib : Lib Ctx) (p : DeepSeekProvider) (ctx : Ctx)
    (req : ChatCompletionRequest) : (p.ChatCompletion lib ctx req).req = req := by
  simp only [DeepSeekProvider.ChatCompletion]
  repeat' split
  all_goals rfl

theorem Qwen_ChatCompletion_req (lib : Lib Ctx) (p : QwenProvider) (ctx : Ctx)
    (req : ChatCompletionRequest) : (p.ChatCompletion lib ctx req).req = req := by
  simp only [QwenProvider.ChatCompletion]
  repeat' split
  all_goals rfl

theorem Kimi_ChatCompletion_req (lib : Lib Ctx) (p : KimiProvider) (ctx : Ctx)
    (req : ChatCompletionRequest) : (p.ChatCompletion lib ctx req).req = req := by
  simp only [KimiProvider.ChatCompletion]
  repeat' split
  all_goals rfl

theorem OpenAI_ChatCompletion_req (lib : Lib Ctx) (p : OpenAIProvider) (ctx : Ctx)
    (req : ChatCompletionRequest) :
    (p.ChatCompletion lib ctx req).req = { req with Model := p.model } := by
  simp only [OpenAIProvider.ChatCompletion]
  repeat' split
  all_goals rfl

/-- C29: the GLM, DeepSeek, Qwen and Kimi adapters leave the caller's request as it was,
on every path of `ChatCompletion`; the OpenAI adapter leaves it with the adapter's model
in `Model` and with `Messages`, `Temperature`, `MaxTokens` and `Stream` as they were. So
no adapter changes the request's message list. -/
theorem ChatCompletion_frame (lib : Lib Ctx) (ctx : Ctx) (req : ChatCompletionRequest)
    (e : String) (k : GoString) (model : String) :
    ((NewGLMProvider e k model).ChatCompletion lib ctx req).req = req ∧
      ((NewDeepSeekProvider e k model).ChatCompletion lib ctx req).req = req ∧
      ((NewQwenProvider e k model).ChatCompletion lib ctx req).req = req ∧
      ((NewKimiProvider e k model).ChatCompletion lib ctx req).req = req ∧
      ((NewOpenAIProvider e k model).ChatCompletion lib ctx req).req =
        { Model := model, Messages := req.Messages, Temperature := req.Temperature,
          MaxTokens := req.MaxTokens, Stream := req.Stream } ∧
      ((NewOpenAIProvider e k model).ChatCompletion lib ctx req).req.Messages =
        req.Messages :=
  ⟨GLM_ChatCompletion_req lib _ ctx req, DeepSeek_ChatCompletion_req lib _ ctx req,
    Qwen_ChatCompletion_req lib _ ctx req, Kimi_ChatCompletion_req lib _ ctx req,
    OpenAI_ChatCompletion_req lib _ ctx req,
    by rw [OpenAI_ChatCompletion_req]⟩

end ai

namespace ai

/-! ## Streaming -/

/-- C21 (code defect): the OpenAI adapter marshals the caller's request as it is, so for
a request with `Stream` set the body it sends carries `"stream":true`, whereas the GLM,
DeepSeek, Qwen and Kimi adapters send a body without the key for the same request. -/
theorem OpenAI_ChatCompletion_stream :
    bodies ((NewOpenAIProvider testURL testKey "gpt-3.5-turbo").ChatCompletion
        (testLib streamTables 200 testBody) () streamRequest).sent = [streamRequestJSON] ∧
      occursIn (goString "\"stream\":true") streamRequestJSON = true ∧
      bodies ((NewGLMProvider testURL testKey "gpt-3.5-turbo").ChatCompletion
        (testLib streamTables 200 testBody) () streamRequest).sent = [plainRequestJSON] ∧
      bodies ((NewDeepSeekProvider testURL testKey "gpt-3.5-turbo").ChatCompletion
        (testLib streamTables 200 testBody) () streamRequest).sent = [plainRequestJSON] ∧
      bodies ((NewQwenProvider testURL testKey "gpt-3.5-turbo").ChatCompletion
        (testLib streamTables 200 testBody) () streamRequest).sent = [plainRequestJSON] ∧
      bodies ((NewKimiProvider testURL testKey "gpt-3.5-turbo").ChatCompletion
        (testLib streamTables 200 testBody) () streamRequest).sent = [plainRequestJSON] ∧
      occursIn (goString "\"stream\"") plainRequestJSON = false := by
  have hs : (testLib streamTables 200 testBody).Marshal
      { streamRequest with Model := "gpt-3.5-turbo" } = .ok streamRequestJSON := by
    decide
  have hp : (testLib streamTables 200 testBody).Marshal
      (vendorRequest "gpt-3.5-turbo" streamRequest) = .ok plainRequestJSON := by
    decide
  refine ⟨?_, by decide, ?_, ?_, ?_, ?_, by decide⟩
  · rw [OpenAI_ChatCompletion_sent]
    simp only [NewOpenAIProvider, hs]
    rfl
  · rw [GLM_ChatCompletion_sent]
    simp only [NewGLMProvider, hp]
    rfl
  · rw [DeepSeek_ChatCompletion_sent]
    simp only [NewDeepSeekProvider, hp]
    rfl
  · rw [Qwen_ChatCompletion_sent]
    simp only [NewQwenProvider, hp]
    rfl
  · rw [Kimi_ChatCompletion_sent]
    simp only [NewKimiProvider, hp]
    rfl

end ai

namespace handlers

open ai

variable {Ctx : Type}

/-! ## Chat and a response without choices -/

theorem foldl_messages (chatHistory : List models.ChatMessage) (init : List ChatMessage) :
    chatHistory.foldl (fun messages msg =>
      messages ++ [{ Role := msg.MessageType, Content := msg.Content }]) init =
      init ++ chatHistory.map (fun msg => { Role := msg.MessageType, Content := msg.Content }) := by
  induction chatHistory generalizing init with
  | nil => simp
  | cons m ms ih => simp [ih]

theorem Chat_eq (h : AIHandler Ctx) (ctx : Ctx) (req : ChatRequest)
    (character : models.AICharacter) (chatHistory : List models.ChatMessage)
    (hp : h.aiManager.HasProvider req.Provider = true ∨ req.Provider = "") :
    h.Chat ctx req character chatHistory =
      match (h.aiManager.ChatCompletion ctx req.Provider
          (chatCompletionRequest character chatHistory req)).err,
        (h.aiManager.ChatCompletion ctx req.Provider
          (chatCompletionRequest character chatHistory req)).response with
      | some _, _ => .error 500 "AI服务暂时不可用，请稍后重试"
      | none, none => .nilDereference
      | none, some resp =>
        match resp.Choices with
        | [] => .error 500 "AI没有返回响应"
        | choice :: _ =>
          .ok 200
            { Reply := choice.Message.Content, SessionID := req.SessionID,
              ConversationID := req.ConversationID, Model := resp.Model,
              TokenUsage := { Prompt := resp.Usage.PromptTokens,
                              Completion := resp.Usage.CompletionTokens,
                              Total := resp.Usage.TotalTokens } } := by
  have hc : (!h.aiManager.HasProvider req.Provider && decide (req.Provider ≠ "")) = false := by
    rcases hp with hp | hp
    · simp [hp]
    · simp [hp]
  simp only [AIHandler.Chat, hc, foldl_messages, chatCompletionRequest]
  rfl

end handlers

namespace handlers

open ai

variable {Ctx : Type}

/-- Counterexample to C22 as stated: a vendor answers 200 with a body that holds zero
choices; the GLM adapter, called directly or through the registry, returns success (a nil
error) with an empty choices list. -/
theorem ChatCompletion_empty_choices_counterexample :
    ∃ resp : ChatCompletionResponse,
      (NewGLMProvider testURL testKey "glm-4").ChatCompletion
          (testLib testTables 200 testSkewBody) () testRequest =
        .success testRequest [postRequest () testURL testKey testRequestJSON] resp ∧
      ((testManager 200 testSkewBody).ChatCompletion () "glm" testRequest).err = none ∧
      ((testManager 200 testSkewBody).ChatCompletion () "glm" testRequest).response =
        some resp ∧
      resp.Choices = [] :=
  ⟨{ ID := "skew", Object := "chat.completion", Model := "m", Choices := [],
     Usage := { PromptTokens := 10, CompletionTokens := 5, TotalTokens := 99 } },
    rfl, by decide, by decide, rfl⟩

/-- C22, amended: an adapter's `ChatCompletion` returns success with the vendor's choices
as they are, so for a vendor 200 body that decodes with zero choices it returns a nil
error and a response with an empty choices list. The zero-choices case is made a failure
one level up, in `AIHandler.Chat`: once the provider is available, `Chat` answers 500 with
"AI没有返回响应" when the call succeeded with no choice, 500 when the call failed, and 200
with the content of the first choice otherwise; so every 200 answer of `Chat` carries the
content of a first choice. -/
theorem Chat_empty_choices (lib : Lib Ctx) (ctx : Ctx) (req : ChatCompletionRequest)
    (apiURL : String) (apiKey : GoString) (model : String) (jsonReq body : List Byte) :
    (lib.answers ctx apiURL apiKey (vendorRequest model req) jsonReq 200 body →
      (∀ r : glmResponse, lib.UnmarshalGLMResponse body = .ok r → r.Choices = [] →
        ∃ resp, (NewGLMProvider apiURL apiKey model).ChatCompletion lib ctx req =
          .success req [postRequest ctx apiURL apiKey jsonReq] resp ∧ resp.Choices = []) ∧
      (∀ r : deepseekResponse, lib.UnmarshalDeepseekResponse body = .ok r → r.Choices = [] →
        (∃ resp, (NewDeepSeekProvider apiURL apiKey model).ChatCompletion lib ctx req =
          .success req [postRequest ctx apiURL apiKey jsonReq] resp ∧ resp.Choices = []) ∧
        (∃ resp, (NewQwenProvider apiURL apiKey model).ChatCompletion lib ctx req =
          .success req [postRequest ctx apiURL apiKey jsonReq] resp ∧ resp.Choices = []) ∧
        (∃ resp, (NewKimiProvider apiURL apiKey model).ChatCompletion lib ctx req =
          .success req [postRequest ctx apiURL apiKey jsonReq] resp ∧ resp.Choices = []))) ∧
    (lib.answers ctx apiURL apiKey { req with Model := model } jsonReq 200 body →
      ∀ r : ChatCompletionResponse, lib.UnmarshalChatCompletionResponse body = .ok r →
        r.Choices = [] →
        ∃ resp, (NewOpenAIProvider apiURL apiKey model).ChatCompletion lib ctx req =
          .success { req with Model := model } [postRequest ctx apiURL apiKey jsonReq] resp ∧
          resp.Choices = []) ∧
    (∀ (h : AIHandler Ctx) (creq : ChatRequest) (character : models.AICharacter)
        (chatHistory : List models.ChatMessage),
      (h.aiManager.HasProvider creq.Provider = true ∨ creq.Provider = "") →
      (∀ e, (h.aiManager.ChatCompletion ctx creq.Provider
            (chatCompletionRequest character chatHistory creq)).err = some e →
        h.Chat ctx creq character chatHistory = .error 500 "AI服务暂时不可用，请稍后重试") ∧
      (∀ resp, (h.aiManager.ChatCompletion ctx creq.Provider
            (chatCompletionRequest character chatHistory creq)).err = none →
        (h.aiManager.ChatCompletion ctx creq.Provider
            (chatCompletionRequest character chatHistory creq)).response = some resp →
        (resp.Choices = [] →
          h.Chat ctx creq character chatHistory = .error 500 "AI没有返回响应") ∧
        (∀ choice rest, resp.Choices = choice :: rest →
          h.Chat ctx creq character chatHistory =
            .ok 200
              { Reply := choice.Message.Content, SessionID := creq.SessionID,
                ConversationID := creq.ConversationID, Model := resp.Model,
                TokenUsage := { Prompt := resp.Usage.PromptTokens,
                                Completion := resp.Usage.CompletionTokens,
                                Total := resp.Usage.TotalTokens } })) ∧
      (∀ status answer, h.Chat ctx creq character chatHistory = .ok status answer →
        status = 200 ∧
        ∃ resp choice rest,
          (h.aiManager.ChatCompletion ctx creq.Provider
            (chatCompletionRequest character chatHistory creq)).response = some resp ∧
          resp.Choices = choice :: rest ∧ answer.Reply = choice.Message.Content)) := by
  refine ⟨fun ha => ⟨fun r hr hc => ?_, fun r hr hc => ⟨?_, ?_, ?_⟩⟩, fun ha r hr hc => ?_,
    fun h creq character chatHistory hp => ⟨fun e he => ?_, fun resp he hr => ⟨fun hc => ?_,
      fun choice rest hc => ?_⟩, fun status answer hs => ?_⟩⟩
  · rw [GLM_ChatCompletion_answers lib (NewGLMProvider apiURL apiKey model) ctx req
      jsonReq 200 body ha]
    exact ⟨_, by simp only [hr, NewGLMProvider]; rfl, by simp [hc, neutralChoices]⟩
  · rw [DeepSeek_ChatCompletion_answers lib (NewDeepSeekProvider apiURL apiKey model) ctx req
      jsonReq 200 body ha]
    exact ⟨_, by simp only [hr, NewDeepSeekProvider]; rfl, by simp [hc, neutralChoices]⟩
  · rw [Qwen_ChatCompletion_answers lib (NewQwenProvider apiURL apiKey model) ctx req
      jsonReq 200 body ha]
    exact ⟨_, by simp only [hr, NewQwenProvider]; rfl, by simp [hc, neutralChoices]⟩
  · rw [Kimi_ChatCompletion_answers lib (NewKimiProvider apiURL apiKey model) ctx req
      jsonReq 200 body ha]
    exact ⟨_, by simp only [hr, NewKimiProvider]; rfl, by simp [hc, neutralChoices]⟩
  · rw [OpenAI_ChatCompletion_answers lib (NewOpenAIProvider apiURL apiKey model) ctx req
      jsonReq 200 body ha]
    exact ⟨_, by simp only [hr, NewOpenAIProvider]; rfl, hc⟩
  · rw [Chat_eq h ctx creq character chatHistory hp, he]
  · rw [Chat_eq h ctx creq character chatHistory hp, he, hr]
    simp only [hc]
  · rw [Chat_eq h ctx creq character chatHistory hp, he, hr]
    simp only [hc]
  · rw [Chat_eq h ctx creq character chatHistory hp] at hs
    split at hs
    · exact ChatAnswer.noConfusion hs
    · exact ChatAnswer.noConfusion hs
    · rename_i resp herr hresp
      split at hs
      · exact ChatAnswer.noConfusion hs
      · rename_i choice rest hc
        simp only [ChatAnswer.ok.injEq] at hs
        refine ⟨hs.1.symm, resp, choice, rest, hresp, hc, ?_⟩
        rw [← hs.2]

/-- Witness for C22, amended: for the vendor body with zero choices the GLM adapter
succeeds with an empty list and `Chat` answers 500; for the body of the tests `Chat`
answers 200 with the reply `Hello!`. -/
theorem Chat_empty_choices_witness :
    (chatHandler 200 testSkewBody).Chat () testChatRequest testCharacter [] =
        .error 500 "AI没有返回响应" ∧
      (chatHandler 200 testBody).Chat () testChatRequest testCharacter [] =
        .ok 200
          { Reply := "Hello!", SessionID := "s", ConversationID := 1, Model := "glm-4",
            TokenUsage := { Prompt := 10, Completion := 5, Total := 15 } } :=
  ⟨(((Chat_empty_choices (testLib chatTables 200 testSkewBody) () testRequest testURL testKey
      "glm-4" [] testSkewBody).2.2 (chatHandler 200 testSkewBody) testChatRequest
      testCharacter [] (Or.inr rfl)).2.1
      { ID := "skew", Object := "chat.completion", Model := "m", Choices := [],
        Usage := { PromptTokens := 10, CompletionTokens := 5, TotalTokens := 99 } }
      (by decide) (by decide)).1 rfl,
   (((Chat_empty_choices (testLib chatTables 200 testBody) () testRequest testURL testKey
      "glm-4" [] testBody).2.2 (chatHandler 200 testBody) testChatRequest
      testCharacter [] (Or.inr rfl)).2.1
      { ID := "test-id", Object := "chat.completion", Model := "glm-4",
        Choices := [{ Index := 0, Message := { Role := "assistant", Content := "Hello!" },
                      FinishReason := "stop" }],
        Usage := { PromptTokens := 10, CompletionTokens := 5, TotalTokens := 15 } }
      (by decide) (by decide)).2 _ _ rfl⟩

end handlers

namespace ai

/-! ## Sequences of registrations -/

variable {Provider : Type}

theorem registerAll_nil (m : AIManager Provider) : m.registerAll [] = m := rfl

theorem registerAll_cons_some (m : AIManager Provider) (n : String) (a : Provider)
    (regs : List (String × Option Provider)) :
    m.registerAll ((n, some a) :: regs) = (m.RegisterProvider n a).registerAll regs := rfl

theorem registerAll_cons_none (m : AIManager Provider) (n : String)
    (regs : List (String × Option Provider)) :
    m.registerAll ((n, none) :: regs) = m.registerAll regs := rfl

theorem registerAll_append (m : AIManager Provider)
    (regs1 regs2 : List (String × Option Provider)) :
    m.registerAll (regs1 ++ regs2) = (m.registerAll regs1).registerAll regs2 := by
  simp [AIManager.registerAll, List.foldl_append]

theorem get_RegisterProvider (m : AIManager Provider) (n : String) (a : Provider)
    (k : String) :
    (m.RegisterProvider n a).providers.get k = if k = n then some a else m.providers.get k := by
  rw [RegisterProvider_providers]
  split
  · rename_i h
    rw [h]
    exact GoMap.get_set_self _ _ _
  · rename_i h
    exact GoMap.get_set_of_ne _ _ _ _ h

theorem get_registerAll_none (regs : List (String × Option Provider)) (k : String) :
    ∀ m : AIManager Provider, (∀ r ∈ regs, r.1 = k → r.2 = none) →
      (m.registerAll regs).providers.get k = m.providers.get k := by
  induction regs with
  | nil => intro m _; rfl
  | cons r regs ih =>
    intro m h
    obtain ⟨n, o⟩ := r
    have hrest : ∀ r ∈ regs, r.1 = k → r.2 = none :=
      fun r hr => h r (List.mem_cons_of_mem _ hr)
    cases o with
    | none => rw [registerAll_cons_none]; exact ih m hrest
    | some a =>
      rw [registerAll_cons_some, ih _ hrest, get_RegisterProvider]
      have hne : k ≠ n := by
        intro hk
        have := h (n, some a) (List.mem_cons_self _ _) hk.symm
        exact Option.noConfusion this
      simp [hne]

theorem get_registerAll_last (m : AIManager Provider)
    (before after : List (String × Option Provider)) (n : String) (a : Provider)
    (h : ∀ r ∈ after, r.1 = n → r.2 = none) :
    (m.registerAll (before ++ (n, some a) :: after)).providers.get n = some a := by
  rw [registerAll_append, registerAll_cons_some, get_registerAll_none after n _ h,
    get_RegisterProvider]
  simp

theorem HasProvider_registerAll (regs : List (String × Option Provider)) (k : String) :
    ∀ m : AIManager Provider,
      ((m.registerAll regs).HasProvider k = true ↔
        m.HasProvider k = true ∨ ∃ a, (k, some a) ∈ regs) := by
  induction regs with
  | nil => intro m; simp [registerAll_nil]
  | cons r regs ih =>
    intro m
    obtain ⟨n, o⟩ := r
    cases o with
    | none =>
      rw [registerAll_cons_none, ih]
      simp
    | some a =>
      rw [registerAll_cons_some, ih]
      simp only [AIManager.HasProvider, get_RegisterProvider, List.mem_cons, Prod.mk.injEq,
        Option.some.injEq]
      by_cases hk : k = n
      · subst hk
        simp
      · simp [hk]

theorem registerAll_providers_ne_nil (regs : List (String × Option Provider)) :
    ∀ m : AIManager Provider, m.providers ≠ [] → (m.registerAll regs).providers ≠ [] := by
  induction regs with
  | nil => intro m h; exact h
  | cons r regs ih =>
    intro m h
    obtain ⟨n, o⟩ := r
    cases o with
    | none => exact ih m h
    | some a =>
      rw [registerAll_cons_some]
      apply ih
      rw [RegisterProvider_providers]
      exact GoMap.set_ne_nil _ _ _

theorem registerAll_eq_of_nil (regs : List (String × Option Provider)) :
    ∀ m : AIManager Provider, (m.registerAll regs).providers = [] → m.registerAll regs = m := by
  induction regs with
  | nil => intro m _; rfl
  | cons r regs ih =>
    intro m h
    obtain ⟨n, o⟩ := r
    cases o with
    | none => exact ih m h
    | some a =>
      rw [registerAll_cons_some] at h
      exact absurd h (registerAll_providers_ne_nil regs _
        (by rw [RegisterProvider_providers]; exact GoMap.set_ne_nil _ _ _))

theorem GetAllProviders_registerAll (regs : List (String × Option Provider)) :
    ∀ m : AIManager Provider, (regs.map fun r => r.1).Nodup →
      (∀ r ∈ regs, r.1 ∉ m.GetAllProviders) →
      (m.registerAll regs).GetAllProviders =
        m.GetAllProviders ++ (regs.filter fun r => r.2.isSome).map fun r => r.1 := by
  induction regs with
  | nil => intro m _ _; simp [registerAll_nil]
  | cons r regs ih =>
    intro m hnd hdis
    obtain ⟨n, o⟩ := r
    simp only [List.map_cons, List.nodup_cons] at hnd
    have hrest : ∀ r ∈ regs, r.1 ∉ m.GetAllProviders :=
      fun r hr => hdis r (List.mem_cons_of_mem _ hr)
    cases o with
    | none =>
      rw [registerAll_cons_none, ih m hnd.2 hrest]
      simp
    | some a =>
      have hn : n ∉ m.GetAllProviders := hdis (n, some a) (List.mem_cons_self _ _)
      have hkeys : (m.RegisterProvider n a).GetAllProviders = m.GetAllProviders ++ [n] := by
        simp only [AIManager.GetAllProviders] at hn ⊢
        rw [RegisterProvider_providers, GoMap.keys_set]
        simp [hn]
      rw [registerAll_cons_some, ih _ hnd.2, hkeys]
      · simp
      · intro r hr
        rw [hkeys]
        simp only [List.mem_append, List.mem_singleton, not_or]
        refine ⟨hrest r hr, ?_⟩
        intro heq
        exact hnd.1 (by rw [← heq]; exact List.mem_map_of_mem (fun r => r.1) hr)

theorem get_registerAll_invariant (P : String → Provider → Prop)
    (regs : List (String × Option Provider)) :
    ∀ m : AIManager Provider, (∀ n a, m.providers.get n = some a → P n a) →
      (∀ r ∈ regs, ∀ a, r.2 = some a → P r.1 a) →
      ∀ n a, (m.registerAll regs).providers.get n = some a → P n a := by
  induction regs with
  | nil => intro m hm _; exact hm
  | cons r regs ih =>
    intro m hm hregs
    obtain ⟨k, o⟩ := r
    have hrest : ∀ r ∈ regs, ∀ a, r.2 = some a → P r.1 a :=
      fun r hr => hregs r (List.mem_cons_of_mem _ hr)
    cases o with
    | none => exact ih m hm hrest
    | some b =>
      rw [registerAll_cons_some]
      apply ih _ _ hrest
      intro n a hget
      rw [get_RegisterProvider] at hget
      split at hget
      · rename_i hn
        simp only [Option.some.injEq] at hget
        subst hget
        subst hn
        exact hregs (n, some b) (List.mem_cons_self _ _) b rfl
      · exact hm n a hget

theorem GoMap.get_of_mem_keys (m : GoMap Provider) (k : String)
    (h : k ∈ m.map fun kv => kv.1) : ∃ a, m.get k = some a := by
  induction m with
  | nil => simp at h
  | cons kv rest ih =>
    obtain ⟨k0, v0⟩ := kv
    by_cases hk : k0 = k
    · exact ⟨v0, by simp [GoMap.get, hk]⟩
    · simp only [List.map_cons, List.mem_cons] at h
      rcases h with h | h
      · exact absurd h.symm hk
      · obtain ⟨a, ha⟩ := ih h
        exact ⟨a, by simp [GoMap.get, hk, ha]⟩

end ai

namespace ai

variable {Ctx : Type}

/-! ## The adapters of the closed set of vendors -/

theorem adapterFor_some (lib : Lib Ctx) (n apiURL : String) (apiKey : GoString)
    (model : String) (a : AIProvider Ctx) (h : adapterFor lib n apiURL apiKey model = some a) :
    n ∈ vendorNames ∧ a.GetProviderName = n ∧ a.GetModelName = model := by
  unfold adapterFor at h
  repeat' split at h
  all_goals first
    | exact Option.noConfusion h
    | (simp only [Option.some.injEq] at h
       subst h
       rename_i hn
       subst hn
       exact ⟨by decide, rfl, rfl⟩)

theorem adapterFor_none (lib : Lib Ctx) (n apiURL : String) (apiKey : GoString)
    (model : String) (h : n ∉ vendorNames) : adapterFor lib n apiURL apiKey model = none := by
  simp only [vendorNames, List.mem_cons, List.mem_singleton, List.not_mem_nil, or_false,
    not_or] at h
  simp [adapterFor, h]

theorem adapterFor_isSome (lib : Lib Ctx) (n apiURL : String) (apiKey : GoString)
    (model : String) (h : n ∈ vendorNames) :
    ∃ a, adapterFor lib n apiURL apiKey model = some a := by
  cases hc : adapterFor lib n apiURL apiKey model with
  | some a => exact ⟨a, rfl⟩
  | none =>
    exfalso
    unfold adapterFor at hc
    simp only [vendorNames, List.mem_cons, List.mem_singleton, List.not_mem_nil,
      or_false] at h
    repeat' split at hc
    all_goals first
      | exact Option.noConfusion hc
      | (rename_i h1 h2 h3 h4 h5
         rcases h with h | h | h | h | h
         · exact h1 h
         · exact h2 h
         · exact h3 h
         · exact h4 h
         · exact h5 h)

theorem LoadProvidersFromEnv_eq (lib : Lib Ctx) (env : os.Env)
    (m : AIManager (AIProvider Ctx)) :
    m.LoadProvidersFromEnv lib env =
      m.registerAll (vendorEnvs.map (VendorEnv.registration lib env)) := by
  simp only [AIManager.LoadProvidersFromEnv, os.Getenv, vendorEnvs, List.map_cons,
    List.map_nil, VendorEnv.registration, VendorEnv.configured, VendorEnv.adapter,
    AIManager.registerAll, List.foldl_cons, List.foldl_nil, adapterFor]
  by_cases h1 : env "GLM_API_KEY" = "" <;> by_cases h2 : env "DEEPSEEK_API_KEY" = "" <;>
    by_cases h3 : env "QWEN_API_KEY" = "" <;> by_cases h4 : env "KIMI_API_KEY" = "" <;>
    by_cases h5 : env "OPENAI_API_KEY" = "" <;>
    simp [h1, h2, h3, h4, h5]

theorem tagged_of_get (m : AIManager (AIProvider Ctx))
    (h : ∀ n a, m.providers.get n = some a → n ∈ vendorNames ∧ a.GetProviderName = n) :
    m.tagged := by
  intro n hn
  obtain ⟨a, ha⟩ := GoMap.get_of_mem_keys m.providers n hn
  have hv := h n a ha
  have hne : n ≠ "" := by
    intro h0
    rw [h0] at hv
    exact absurd hv.1 (by decide)
  exact ⟨hv.1, a, GetProvider_of_get m n a hne ha, hv.2⟩

theorem registration_tagged (lib : Lib Ctx) (env : os.Env) :
    ∀ r ∈ vendorEnvs.map (VendorEnv.registration lib env), ∀ a, r.2 = some a →
      r.1 ∈ vendorNames ∧ a.GetProviderName = r.1 := by
  intro r hr a ha
  simp only [List.mem_map] at hr
  obtain ⟨v, _, hv⟩ := hr
  subst hv
  simp only [VendorEnv.registration] at ha ⊢
  split at ha
  · have h := adapterFor_some lib _ _ _ _ a ha
    exact ⟨h.1, h.2.1⟩
  · exact Option.noConfusion ha

end ai

namespace handlers

open ai

variable {Ctx : Type}

/-! ## Loading the providers -/

theorem loadProvider_eq (lib : Lib Ctx) (env : os.Env) (m : AIManager (AIProvider Ctx))
    (p : models.AIProvider) :
    loadProvider lib env m p = m.registerAll [rowRegistration lib env p] := by
  have hk : (if (crypto.Decrypt (goString (os.Getenv env "ENCRYPTION_KEY"))
        p.APIKeyEncrypted).2 ≠ none then p.APIKeyEncrypted
      else (crypto.Decrypt (goString (os.Getenv env "ENCRYPTION_KEY"))
        p.APIKeyEncrypted).1) = rowKey env p := by
    unfold rowKey
    generalize crypto.Decrypt (goString (os.Getenv env "ENCRYPTION_KEY")) p.APIKeyEncrypted = d
    obtain ⟨key, err⟩ := d
    cases err <;> simp
  simp only [loadProvider, hk, rowRegistration, AIManager.registerAll, List.foldl_cons,
    List.foldl_nil, adapterFor]
  by_cases h0 : rowKey env p = []
  · simp [h0]
  · simp only [h0, if_false]
    repeat' split
    all_goals first
      | rfl
      | simp_all

theorem foldl_loadProvider (lib : Lib Ctx) (env : os.Env) (rows : List models.AIProvider) :
    ∀ m : AIManager (AIProvider Ctx),
      rows.foldl (loadProvider lib env) m =
        m.registerAll (rows.map (rowRegistration lib env)) := by
  induction rows with
  | nil => intro m; rfl
  | cons p rows ih =>
    intro m
    rw [List.foldl_cons, ih, loadProvider_eq, List.map_cons]
    rfl

theorem loadProvidersFromDB_aiManager (lib : Lib Ctx) (env : os.Env) (db : gorm.DB)
    (h : AIHandler Ctx) :
    (h.loadProvidersFromDB lib env db).aiManager =
      match db.ai_providers with
      | .error _ => h.aiManager
      | .ok rows =>
        h.aiManager.registerAll
          ((rows.filter fun p => p.IsActive).map (rowRegistration lib env)) := by
  unfold AIHandler.loadProvidersFromDB gorm.DB.FindActiveProviders
  cases db.ai_providers with
  | error e => rfl
  | ok rows => simp only [gorm.elems, foldl_loadProvider]

theorem rowRegistration_tagged (lib : Lib Ctx) (env : os.Env) (rows : List models.AIProvider) :
    ∀ r ∈ rows.map (rowRegistration lib env), ∀ a, r.2 = some a →
      r.1 ∈ vendorNames ∧ a.GetProviderName = r.1 := by
  intro r hr a ha
  simp only [List.mem_map] at hr
  obtain ⟨p, _, hp⟩ := hr
  subst hp
  simp only [rowRegistration] at ha ⊢
  split at ha
  · exact Option.noConfusion ha
  · have h := adapterFor_some lib _ _ _ _ a ha
    exact ⟨h.1, h.2.1⟩

end handlers

namespace ai

variable {Ctx : Type}

theorem get_registerAll_of_mem {Provider : Type} (regs : List (String × Option Provider))
    (m : AIManager Provider) (n : String) (a : Provider)
    (hnd : (regs.map fun r => r.1).Nodup) (hmem : (n, some a) ∈ regs) :
    (m.registerAll regs).providers.get n = some a := by
  obtain ⟨before, after, heq⟩ := List.append_of_mem hmem
  subst heq
  apply get_registerAll_last
  intro r hr hname
  exfalso
  simp only [List.map_append, List.map_cons] at hnd
  have h2 := (List.nodup_append.mp hnd).2.1
  simp only [List.nodup_cons] at h2
  exact h2.1 (by rw [← hname]; exact List.mem_map_of_mem (fun r => r.1) hr)

theorem vendorEnvs_names : vendorEnvs.map (fun v => v.name) = vendorNames := rfl

theorem registration_names (lib : Lib Ctx) (env : os.Env) (vs : List VendorEnv) :
    (vs.map (VendorEnv.registration lib env)).map (fun r => r.1) = vs.map fun v => v.name := by
  simp [VendorEnv.registration]

theorem adapter_isSome (lib : Lib Ctx) (env : os.Env) (v : VendorEnv) (hv : v ∈ vendorEnvs) :
    ∃ a, v.adapter lib env = some a := by
  apply adapterFor_isSome
  rw [← vendorEnvs_names]
  exact List.mem_map_of_mem (fun v => v.name) hv

theorem registration_filter (lib : Lib Ctx) (env : os.Env) (vs : List VendorEnv)
    (h : ∀ v ∈ vs, ∃ a, v.adapter lib env = some a) :
    ((vs.map (VendorEnv.registration lib env)).filter fun r => r.2.isSome).map (fun r => r.1) =
      (vs.filter fun v => v.configured env).map fun v => v.name := by
  induction vs with
  | nil => rfl
  | cons v vs ih =>
    have ih1 := ih fun w hw => h w (List.mem_cons_of_mem _ hw)
    obtain ⟨a, ha⟩ := h v (List.mem_cons_self _ _)
    by_cases hc : v.configured env = true
    · simp only [List.map_cons, VendorEnv.registration, hc, if_true, ha, List.filter_cons,
        Option.isSome_some, List.map_cons]
      simp only [VendorEnv.registration] at ih1
      rw [ih1]
    · simp only [List.map_cons, VendorEnv.registration, hc, if_false, List.filter_cons,
        Option.isSome_none, Bool.false_eq_true]
      simp only [VendorEnv.registration] at ih1
      rw [ih1]

theorem LoadProvidersFromEnv_names (lib : Lib Ctx) (env : os.Env) :
    ((NewAIManager : AIManager (AIProvider Ctx)).LoadProvidersFromEnv lib env).GetAllProviders =
      (vendorEnvs.filter fun v => v.configured env).map fun v => v.name := by
  rw [LoadProvidersFromEnv_eq, GetAllProviders_registerAll]
  · rw [registration_filter lib env vendorEnvs (adapter_isSome lib env)]
    rfl
  · rw [registration_names]
    decide
  · intro r _
    simp [NewAIManager, AIManager.GetAllProviders]

theorem LoadProvidersFromEnv_get (lib : Lib Ctx) (env : os.Env) (v : VendorEnv)
    (hv : v ∈ vendorEnvs) (hc : v.configured env = true) :
    ((NewAIManager : AIManager (AIProvider Ctx)).LoadProvidersFromEnv lib env).providers.get
      v.name = v.adapter lib env := by
  obtain ⟨a, ha⟩ := adapter_isSome lib env v hv
  rw [LoadProvidersFromEnv_eq, ha]
  apply get_registerAll_of_mem
  · rw [registration_names]
    decide
  · rw [List.mem_map]
    exact ⟨v, hv, by simp [VendorEnv.registration, hc, ha]⟩

end ai

namespace handlers

open ai

variable {Ctx : Type}

theorem rowRegistration_isSome (lib : Lib Ctx) (env : os.Env) (p : models.AIProvider) :
    (rowRegistration lib env p).2.isSome = !rowSkipped env p := by
  simp only [rowRegistration, rowSkipped]
  by_cases h0 : rowKey env p = []
  · simp [h0]
  · by_cases hn : p.Name ∈ vendorNames
    · obtain ⟨a, ha⟩ := adapterFor_isSome lib p.Name p.APIEndpoint (rowKey env p) p.ModelName hn
      simp [h0, ha, hn]
    · simp [h0, adapterFor_none lib _ _ _ _ hn, hn]

theorem rowRegistration_of_not_skipped (lib : Lib Ctx) (env : os.Env) (p : models.AIProvider)
    (h : rowSkipped env p = false) :
    rowRegistration lib env p =
      (p.Name, adapterFor lib p.Name p.APIEndpoint (rowKey env p) p.ModelName) ∧
    ∃ a, adapterFor lib p.Name p.APIEndpoint (rowKey env p) p.ModelName = some a := by
  simp only [rowSkipped, Bool.or_eq_false_iff, decide_eq_false_iff_not,
    Bool.not_eq_false'] at h
  refine ⟨by simp [rowRegistration, h.1], ?_⟩
  exact adapterFor_isSome lib _ _ _ _ (by simpa using h.2)

theorem rowRegistration_of_skipped (lib : Lib Ctx) (env : os.Env) (p : models.AIProvider)
    (h : rowSkipped env p = true) : rowRegistration lib env p = (p.Name, none) := by
  have h1 := rowRegistration_isSome lib env p
  rw [h] at h1
  have h2 : (rowRegistration lib env p).2 = none := by
    cases hr : (rowRegistration lib env p).2 with
    | none => rfl
    | some a => rw [hr] at h1; simp at h1
  exact Prod.ext rfl h2

theorem rowRegistration_env (lib : Lib Ctx) (env env1 : os.Env)
    (h : env1 "ENCRYPTION_KEY" = env "ENCRYPTION_KEY") :
    rowRegistration lib env1 = rowRegistration lib env := by
  funext p
  simp only [rowRegistration, rowKey, os.Getenv, h]

theorem NewAIHandler_aiManager (lib : Lib Ctx) (env : os.Env) (db : gorm.DB) :
    (NewAIHandler lib env db).aiManager =
      if (emptyHandler.loadProvidersFromDB lib env db).aiManager.GetAllProviders = [] then
        (emptyHandler.loadProvidersFromDB lib env db).aiManager.LoadProvidersFromEnv lib env
      else (emptyHandler.loadProvidersFromDB lib env db).aiManager := by
  simp only [NewAIHandler, emptyHandler, List.length_eq_zero]
  split <;> rfl

theorem ReloadProviders_aiManager (lib : Lib Ctx) (env : os.Env) (db : gorm.DB)
    (h : AIHandler Ctx) :
    (h.ReloadProviders lib env db).handler.aiManager = (NewAIHandler lib env db).aiManager := by
  have hl : ({ h with aiManager := h.aiManager.ClearProviders }.loadProvidersFromDB lib env
      db).aiManager = (emptyHandler.loadProvidersFromDB lib env db).aiManager := by
    rw [loadProvidersFromDB_aiManager, loadProvidersFromDB_aiManager]
    rfl
  rw [NewAIHandler_aiManager]
  simp only [AIHandler.ReloadProviders, List.length_eq_zero]
  rw [← hl]
  split <;> rfl

theorem loaded_eq_of_nil (lib : Lib Ctx) (env : os.Env) (db : gorm.DB)
    (h : (emptyHandler.loadProvidersFromDB lib env db).aiManager.GetAllProviders = []) :
    (emptyHandler.loadProvidersFromDB lib env db).aiManager =
      (NewAIManager : AIManager (AIProvider Ctx)) := by
  rw [loadProvidersFromDB_aiManager] at h ⊢
  cases hdb : db.ai_providers with
  | error e => rfl
  | ok rows =>
    rw [hdb] at h
    simp only at h ⊢
    apply registerAll_eq_of_nil
    simpa [AIManager.GetAllProviders] using h

end handlers

namespace handlers

open ai

variable {Ctx : Type}

/-! ## The bootstrap claims -/

/-- C26: in `loadProvidersFromDB` the key of a row is `Decrypt(stored)` when `Decrypt`
succeeds and the stored value itself when `Decrypt` fails; a row with a non-empty key and
a name of the closed set is registered under its name with the adapter of that vendor,
built from the row's endpoint, that key and the row's model; a row is passed over exactly
when the key is empty or the name is outside the closed set, and then the registry is left
as it was. No row ends the load: after it, a name is registered if and only if it was
registered before or some active row with that name is not passed over, and the last such
row decides the adapter. -/
theorem loadProvidersFromDB_rows (lib : Lib Ctx) (env : os.Env) (p : models.AIProvider)
    (m : AIManager (AIProvider Ctx)) :
    (∀ key, crypto.Decrypt (goString (env "ENCRYPTION_KEY")) p.APIKeyEncrypted = (key, none) →
        rowKey env p = key) ∧
      (∀ key e,
        crypto.Decrypt (goString (env "ENCRYPTION_KEY")) p.APIKeyEncrypted = (key, some e) →
        rowKey env p = p.APIKeyEncrypted) ∧
      (rowKey env p ≠ [] →
        (p.Name = "glm" → loadProvider lib env m p = m.RegisterProvider "glm"
          ((NewGLMProvider p.APIEndpoint (rowKey env p) p.ModelName).toAIProvider lib)) ∧
        (p.Name = "deepseek" → loadProvider lib env m p = m.RegisterProvider "deepseek"
          ((NewDeepSeekProvider p.APIEndpoint (rowKey env p) p.ModelName).toAIProvider lib)) ∧
        (p.Name = "qwen" → loadProvider lib env m p = m.RegisterProvider "qwen"
          ((NewQwenProvider p.APIEndpoint (rowKey env p) p.ModelName).toAIProvider lib)) ∧
        (p.Name = "kimi" → loadProvider lib env m p = m.RegisterProvider "kimi"
          ((NewKimiProvider p.APIEndpoint (rowKey env p) p.ModelName).toAIProvider lib)) ∧
        (p.Name = "openai" → loadProvider lib env m p = m.RegisterProvider "openai"
          ((NewOpenAIProvider p.APIEndpoint (rowKey env p) p.ModelName).toAIProvider lib))) ∧
      (rowSkipped env p = true ↔ rowKey env p = [] ∨ p.Name ∉ vendorNames) ∧
      (rowSkipped env p = true → loadProvider lib env m p = m) ∧
      (rowSkipped env p = false → (loadProvider lib env m p).HasProvider p.Name = true) ∧
      (∀ (h : AIHandler Ctx) (db : gorm.DB) (rows : List models.AIProvider),
        db.ai_providers = .ok rows →
        (∀ name, (h.loadProvidersFromDB lib env db).aiManager.HasProvider name = true ↔
          h.aiManager.HasProvider name = true ∨
            ∃ q ∈ rows, q.IsActive = true ∧ q.Name = name ∧ rowSkipped env q = false) ∧
        (∀ before after, (rows.filter fun q => q.IsActive) = before ++ p :: after →
          rowSkipped env p = false →
          (∀ q ∈ after, q.Name = p.Name → rowSkipped env q = true) →
          (h.loadProvidersFromDB lib env db).aiManager.providers.get p.Name =
            adapterFor lib p.Name p.APIEndpoint (rowKey env p) p.ModelName)) := by
  refine ⟨fun key hd => ?_, fun key e hd => ?_, fun hk => ⟨fun hn => ?_, fun hn => ?_,
    fun hn => ?_, fun hn => ?_, fun hn => ?_⟩, ?_, fun hs => ?_, fun hs => ?_,
    fun h db rows hdb => ⟨fun name => ?_, fun before after hrows hs hafter => ?_⟩⟩
  · simp only [rowKey, os.Getenv, hd]
  · simp only [rowKey, os.Getenv, hd]
  · rw [loadProvider_eq]
    simp [rowRegistration, hk, adapterFor, hn, AIManager.registerAll]
  · rw [loadProvider_eq]
    simp [rowRegistration, hk, adapterFor, hn, AIManager.registerAll]
  · rw [loadProvider_eq]
    simp [rowRegistration, hk, adapterFor, hn, AIManager.registerAll]
  · rw [loadProvider_eq]
    simp [rowRegistration, hk, adapterFor, hn, AIManager.registerAll]
  · rw [loadProvider_eq]
    simp [rowRegistration, hk, adapterFor, hn, AIManager.registerAll]
  · simp [rowSkipped]
  · rw [loadProvider_eq, rowRegistration_of_skipped lib env p hs]
    rfl
  · obtain ⟨hr, a, ha⟩ := rowRegistration_of_not_skipped lib env p hs
    rw [loadProvider_eq, hr, ha, registerAll_cons_some, registerAll_nil]
    simp [AIManager.HasProvider, get_RegisterProvider]
  · rw [loadProvidersFromDB_aiManager, hdb]
    simp only
    rw [HasProvider_registerAll]
    apply or_congr Iff.rfl
    constructor
    · rintro ⟨a, ha⟩
      rw [List.mem_map] at ha
      obtain ⟨q, hq, hqa⟩ := ha
      rw [List.mem_filter] at hq
      have hname : q.Name = name := congrArg Prod.fst hqa
      refine ⟨q, hq.1, hq.2, hname, ?_⟩
      have hsome := rowRegistration_isSome lib env q
      rw [hqa] at hsome
      simpa using hsome.symm
    · rintro ⟨q, hq, hact, hname, hs⟩
      obtain ⟨hr, a, ha⟩ := rowRegistration_of_not_skipped lib env q hs
      refine ⟨a, ?_⟩
      rw [List.mem_map]
      exact ⟨q, List.mem_filter.mpr ⟨hq, hact⟩, by rw [hr, ha, hname]⟩
  · obtain ⟨hr, a, ha⟩ := rowRegistration_of_not_skipped lib env p hs
    rw [loadProvidersFromDB_aiManager, hdb]
    simp only
    rw [hrows, List.map_append, List.map_cons, hr, ha]
    apply get_registerAll_last
    intro r hr1 hname
    rw [List.mem_map] at hr1
    obtain ⟨q, hq, hqr⟩ := hr1
    subst hqr
    rw [rowRegistration_of_skipped lib env q (hafter q hq hname)]

/-- Witness for C26: under the default key the stored value `sk-plain` is no ciphertext,
so the GLM row is registered with that value as its key; and in the test database, where
that row comes first, the Qwen row after it is registered as well, the rows passed over
are not. -/
theorem loadProvidersFromDB_rows_witness :
    loadProvider (testLib testTables 200 testBody) testEnv NewAIManager plainRow =
        NewAIManager.RegisterProvider "glm"
          ((NewGLMProvider testURL (goString "sk-plain") "glm-4").toAIProvider
            (testLib testTables 200 testBody)) ∧
      (emptyHandler.loadProvidersFromDB (testLib testTables 200 testBody) testEnv
          testDB).aiManager.HasProvider "qwen" = true :=
  have h := loadProvidersFromDB_rows (testLib testTables 200 testBody) testEnv plainRow
    NewAIManager
  ⟨(h.2.2.1 (by decide)).1 rfl,
   ((h.2.2.2.2.2.2 emptyHandler testDB _ rfl).1 "qwen").mpr
     (Or.inr ⟨qwenRow, by decide, rfl, rfl, by decide⟩)⟩

end handlers

namespace handlers

open ai

variable {Ctx : Type}

/-- C25: at startup and on reload the registry is the one loaded from the provider rows
when that holds a provider, and the one `LoadProvidersFromEnv` fills otherwise; the two
agree. When the rows give a provider the registry is the store-derived one, whatever the
vendor variables of the environment hold; when they give none it holds exactly the vendors
among glm, deepseek, qwen, kimi and openai whose key variable is not empty, each with the
adapter of the endpoint and model variables or, where these are empty, of the vendor's
defaults. -/
theorem bootstrap_fallback (lib : Lib Ctx) (env : os.Env) (db : gorm.DB) (h : AIHandler Ctx) :
    (NewAIHandler lib env db).aiManager =
        (if (emptyHandler.loadProvidersFromDB lib env db).aiManager.GetAllProviders = [] then
          (emptyHandler.loadProvidersFromDB lib env db).aiManager.LoadProvidersFromEnv lib env
        else (emptyHandler.loadProvidersFromDB lib env db).aiManager) ∧
      (h.ReloadProviders lib env db).handler.aiManager = (NewAIHandler lib env db).aiManager ∧
      ((emptyHandler.loadProvidersFromDB lib env db).aiManager.GetAllProviders ≠ [] →
        (NewAIHandler lib env db).aiManager =
          (emptyHandler.loadProvidersFromDB lib env db).aiManager ∧
        ∀ env1 : os.Env, env1 "ENCRYPTION_KEY" = env "ENCRYPTION_KEY" →
          (NewAIHandler lib env1 db).aiManager = (NewAIHandler lib env db).aiManager) ∧
      ((emptyHandler.loadProvidersFromDB lib env db).aiManager.GetAllProviders = [] →
        (NewAIHandler lib env db).aiManager = NewAIManager.LoadProvidersFromEnv lib env ∧
        (NewAIHandler lib env db).aiManager.GetAllProviders =
          (vendorEnvs.filter fun v => v.configured env).map (fun v => v.name) ∧
        ∀ v ∈ vendorEnvs, v.configured env = true →
          (NewAIHandler lib env db).aiManager.providers.get v.name =
            adapterFor lib v.name
              (if env v.urlVariable = "" then v.defaultURL else env v.urlVariable)
              (goString (env v.keyVariable))
              (if env v.modelVariable = "" then v.defaultModel else env v.modelVariable)) := by
  refine ⟨NewAIHandler_aiManager lib env db, ReloadProviders_aiManager lib env db h,
    fun hne => ?_, fun hnil => ?_⟩
  · have h0 : (NewAIHandler lib env db).aiManager =
        (emptyHandler.loadProvidersFromDB lib env db).aiManager := by
      rw [NewAIHandler_aiManager, if_neg hne]
    refine ⟨h0, fun env1 henv => ?_⟩
    have hl : (emptyHandler.loadProvidersFromDB lib env1 db).aiManager =
        (emptyHandler.loadProvidersFromDB lib env db).aiManager := by
      rw [loadProvidersFromDB_aiManager, loadProvidersFromDB_aiManager,
        rowRegistration_env lib env env1 henv]
    rw [h0, NewAIHandler_aiManager, hl, if_neg hne]
  · have h0 : (NewAIHandler lib env db).aiManager =
        NewAIManager.LoadProvidersFromEnv lib env := by
      rw [NewAIHandler_aiManager, if_pos hnil, loaded_eq_of_nil lib env db hnil]
    refine ⟨h0, ?_, fun v hv hc => ?_⟩
    · rw [h0, LoadProvidersFromEnv_names]
    · rw [h0, LoadProvidersFromEnv_get lib env v hv hc]
      rfl

/-- Witness for C25: with the test database the registry holds the two rows loaded and
nothing from the environment; with an empty database and an environment that sets the keys
of GLM and OpenAI and the model of OpenAI, it holds these two vendors, GLM with the
default endpoint and model, OpenAI with the default endpoint and the model of the
variable. -/
theorem bootstrap_fallback_witness :
    (NewAIHandler (testLib testTables 200 testBody) testEnv testDB).aiManager.GetAllProviders =
        ["glm", "qwen"] ∧
      (NewAIHandler (testLib testTables 200 testBody) testEnv emptyDB).aiManager.GetAllProviders =
        ["glm", "openai"] ∧
      (NewAIHandler (testLib testTables 200 testBody) testEnv emptyDB).aiManager.providers.get
          "glm" =
        some ((NewGLMProvider "https://open.bigmodel.cn/api/paas/v4" (goString "sk-glm")
          "glm-4-flash").toAIProvider (testLib testTables 200 testBody)) ∧
      (NewAIHandler (testLib testTables 200 testBody) testEnv emptyDB).aiManager.providers.get
          "openai" =
        some ((NewOpenAIProvider "https://api.openai.com/v1" (goString "sk-openai")
          "gpt-4o").toAIProvider (testLib testTables 200 testBody)) :=
  have h1 := bootstrap_fallback (testLib testTables 200 testBody) testEnv testDB emptyHandler
  have h2 := bootstrap_fallback (testLib testTables 200 testBody) testEnv emptyDB emptyHandler
  ⟨by rw [(h1.2.2.1 (by decide)).1]; decide,
   (h2.2.2.2 (by decide)).2.1.trans (by decide),
   (h2.2.2.2 (by decide)).2.2
     { name := "glm", keyVariable := "GLM_API_KEY", urlVariable := "GLM_API_URL",
       modelVariable := "GLM_MODEL", defaultURL := "https://open.bigmodel.cn/api/paas/v4",
       defaultModel := "glm-4-flash" } (by simp [vendorEnvs]) (by decide),
   (h2.2.2.2 (by decide)).2.2
     { name := "openai", keyVariable := "OPENAI_API_KEY", urlVariable := "OPENAI_API_URL",
       modelVariable := "OPENAI_MODEL", defaultURL := "https://api.openai.com/v1",
       defaultModel := "gpt-3.5-turbo" } (by simp [vendorEnvs]) (by decide)⟩

/-- C30: every registry that `loadProvidersFromDB` or `LoadProvidersFromEnv` produces from
the empty registry, and so every registry of `NewAIHandler` and `ReloadProviders`, holds
names of the closed set glm, deepseek, qwen, kimi, openai only, and the adapter stored
under a name reports that name; the provider name of each adapter type is a fixed tag,
whatever endpoint, key and model it was constructed with, and its model name is the model
it was constructed with. -/
theorem bootstrap_tagged (lib : Lib Ctx) (env : os.Env) (db : gorm.DB) (h : AIHandler Ctx)
    (e : String) (k : GoString) (model : String) :
    (emptyHandler.loadProvidersFromDB lib env db).aiManager.tagged ∧
      (NewAIManager.LoadProvidersFromEnv lib env).tagged ∧
      (NewAIHandler lib env db).aiManager.tagged ∧
      (h.ReloadProviders lib env db).handler.aiManager.tagged ∧
      ((NewGLMProvider e k model).GetProviderName = "glm" ∧
        (NewDeepSeekProvider e k model).GetProviderName = "deepseek" ∧
        (NewQwenProvider e k model).GetProviderName = "qwen" ∧
        (NewKimiProvider e k model).GetProviderName = "kimi" ∧
        (NewOpenAIProvider e k model).GetProviderName = "openai") ∧
      ((NewGLMProvider e k model).GetModelName = model ∧
        (NewDeepSeekProvider e k model).GetModelName = model ∧
        (NewQwenProvider e k model).GetModelName = model ∧
        (NewKimiProvider e k model).GetModelName = model ∧
        (NewOpenAIProvider e k model).GetModelName = model) := by
  have hempty : ∀ n (a : AIProvider Ctx),
      (NewAIManager : AIManager (AIProvider Ctx)).providers.get n = some a →
        n ∈ vendorNames ∧ a.GetProviderName = n := by
    intro n a hget
    simp [NewAIManager, GoMap.get] at hget
  have hdb : (emptyHandler.loadProvidersFromDB lib env db).aiManager.tagged := by
    apply tagged_of_get
    rw [loadProvidersFromDB_aiManager]
    cases db.ai_providers with
    | error err => exact hempty
    | ok rows =>
      exact get_registerAll_invariant _ _ _ hempty (rowRegistration_tagged lib env _)
  have henv : ∀ m : AIManager (AIProvider Ctx),
      (∀ n a, m.providers.get n = some a → n ∈ vendorNames ∧ a.GetProviderName = n) →
      (m.LoadProvidersFromEnv lib env).tagged := by
    intro m hm
    apply tagged_of_get
    rw [LoadProvidersFromEnv_eq]
    exact get_registerAll_invariant _ _ _ hm (registration_tagged lib env)
  have hnew : (NewAIHandler lib env db).aiManager.tagged := by
    rw [NewAIHandler_aiManager]
    split
    · rename_i hnil
      rw [loaded_eq_of_nil lib env db hnil]
      exact henv _ hempty
    · exact hdb
  refine ⟨hdb, henv _ hempty, hnew, ?_, ⟨rfl, rfl, rfl, rfl, rfl⟩, ⟨rfl, rfl, rfl, rfl, rfl⟩⟩
  rw [ReloadProviders_aiManager]
  exact hnew

end handlers

namespace handlers

open ai

variable {Ctx : Type}

/-! ## The caches -/

theorem clamp_lt_iff (d : Int) :
    (if d < -(2 ^ 63) then -(2 ^ 63) else if 2 ^ 63 - 1 < d then 2 ^ 63 - 1 else d) <
      5 * (60 * 1000000000) ↔ d < 5 * (60 * 1000000000) := by
  norm_num
  split
  · constructor <;> intro _ <;> omega
  · split
    · constructor <;> intro _ <;> omega
    · rfl

theorem Since_lt_iff (now t : time.Time) :
    time.Since now t < 5 * time.Minute ↔ now - t < 5 * time.Minute :=
  clamp_lt_iff (now - t)

theorem foldl_entries (rows : List models.AIProvider) (init : List ModelEntry) :
    rows.foldl (fun modelList p =>
      modelList ++ [{ name := p.Name, model := p.ModelName, display_name := p.DisplayName }])
      init =
      init ++ rows.map fun p =>
        ({ name := p.Name, model := p.ModelName, display_name := p.DisplayName } : ModelEntry) := by
  induction rows generalizing init with
  | nil => simp
  | cons p rows ih => simp [ih]

theorem GetModels_hit (h : AIHandler Ctx) (hd : h.cacheDuration = 5 * time.Minute)
    (db : gorm.DB) (now stored : time.Time) (S : List ModelEntry)
    (hc : h.modelCache = some S) (ht : now - h.modelCacheTime < 5 * time.Minute) :
    h.GetModels db now stored =
      { handler := h, status := 200, payload := some S, queries := 0 } := by
  have hs := (Since_lt_iff now h.modelCacheTime).mpr ht
  simp only [AIHandler.GetModels, hd, hc, hs, ne_eq, not_false_eq_true, and_self, if_true,
    reduceCtorEq]

theorem GetModels_miss (h : AIHandler Ctx) (hd : h.cacheDuration = 5 * time.Minute)
    (db : gorm.DB) (now stored : time.Time)
    (hm : h.modelCache = none ∨ 5 * time.Minute ≤ now - h.modelCacheTime) :
    h.GetModels db now stored =
      { handler := { h with modelCache := some (modelCatalog h.aiManager db),
                            modelCacheTime := stored },
        status := 200, payload := some (modelCatalog h.aiManager db), queries := 1 } := by
  have hcond : ¬(h.modelCache ≠ none ∧ time.Since now h.modelCacheTime < h.cacheDuration) := by
    rintro ⟨h1, h2⟩
    rw [hd, Since_lt_iff] at h2
    rcases hm with hm | hm
    · exact h1 hm
    · exact absurd h2 (not_lt.mpr hm)
  have hcat : (if ((gorm.elems db.FindActiveProviders.1).foldl (fun modelList p =>
          modelList ++ [{ name := p.Name, model := p.ModelName,
                          display_name := p.DisplayName }]) ([] : List ModelEntry)).length = 0
        then (gorm.elems db.FindActiveProviders.1).foldl (fun modelList p =>
          modelList ++ [{ name := p.Name, model := p.ModelName,
                          display_name := p.DisplayName }]) ([] : List ModelEntry) ++
            registryModels h.aiManager
        else (gorm.elems db.FindActiveProviders.1).foldl (fun modelList p =>
          modelList ++ [{ name := p.Name, model := p.ModelName,
                          display_name := p.DisplayName }]) ([] : List ModelEntry)) =
      modelCatalog h.aiManager db := by
    simp only [foldl_entries, List.nil_append, modelCatalog, List.length_eq_zero]
    split <;> (rename_i hr; simp [hr])
  simp only [AIHandler.GetModels, hcond, if_false, hcat]

theorem GetCharacters_hit (h : AIHandler Ctx) (hd : h.cacheDuration = 5 * time.Minute)
    (db : gorm.DB) (now stored : time.Time) (S : List models.AICharacter)
    (hc : h.characterCache = some S) (ht : now - h.characterCacheTime < 5 * time.Minute) :
    h.GetCharacters db now stored =
      { handler := h, status := 200, payload := some S, queries := 0 } := by
  have hs := (Since_lt_iff now h.characterCacheTime).mpr ht
  simp only [AIHandler.GetCharacters, hd, hc, hs, ne_eq, not_false_eq_true, and_self, if_true,
    reduceCtorEq]

theorem GetCharacters_miss (h : AIHandler Ctx) (hd : h.cacheDuration = 5 * time.Minute)
    (db : gorm.DB) (now stored : time.Time)
    (hm : h.characterCache = none ∨ 5 * time.Minute ≤ now - h.characterCacheTime) :
    h.GetCharacters db now stored =
      { handler := { h with characterCache := db.FindActiveCharacters.1,
                            characterCacheTime := stored },
        status := 200, payload := db.FindActiveCharacters.1, queries := 1 } := by
  have hcond : ¬(h.characterCache ≠ none ∧
      time.Since now h.characterCacheTime < h.cacheDuration) := by
    rintro ⟨h1, h2⟩
    rw [hd, Since_lt_iff] at h2
    rcases hm with hm | hm
    · exact h1 hm
    · exact absurd h2 (not_lt.mpr hm)
  simp only [AIHandler.GetCharacters, hcond, if_false]

theorem GetModelsSeq_hits (h : AIHandler Ctx) (hd : h.cacheDuration = 5 * time.Minute)
    (S : List ModelEntry) (hc : h.modelCache = some S) (calls : List CacheCall)
    (ht : ∀ c ∈ calls, c.now - h.modelCacheTime < 5 * time.Minute) :
    h.GetModelsSeq calls =
      (h, calls.map fun _ => { handler := h, status := 200, payload := some S, queries := 0 }) := by
  induction calls with
  | nil => rfl
  | cons c rest ih =>
    have ih1 := ih fun c hc1 => ht c (List.mem_cons_of_mem _ hc1)
    simp only [AIHandler.GetModelsSeq,
      GetModels_hit h hd c.db c.now c.stored S hc (ht c (List.mem_cons_self _ _)), ih1,
      List.map_cons]

theorem GetCharactersSeq_hits (h : AIHandler Ctx) (hd : h.cacheDuration = 5 * time.Minute)
    (S : List models.AICharacter) (hc : h.characterCache = some S) (calls : List CacheCall)
    (ht : ∀ c ∈ calls, c.now - h.characterCacheTime < 5 * time.Minute) :
    h.GetCharactersSeq calls =
      (h, calls.map fun _ => { handler := h, status := 200, payload := some S, queries := 0 }) := by
  induction calls with
  | nil => rfl
  | cons c rest ih =>
    have ih1 := ih fun c hc1 => ht c (List.mem_cons_of_mem _ hc1)
    simp only [AIHandler.GetCharactersSeq,
      GetCharacters_hit h hd c.db c.now c.stored S hc (ht c (List.mem_cons_self _ _)), ih1,
      List.map_cons]

theorem loadProvidersFromDB_caches (lib : Lib Ctx) (env : os.Env) (db : gorm.DB)
    (h : AIHandler Ctx) :
    (h.loadProvidersFromDB lib env db).characterCache = h.characterCache ∧
      (h.loadProvidersFromDB lib env db).characterCacheTime = h.characterCacheTime ∧
      (h.loadProvidersFromDB lib env db).modelCache = h.modelCache ∧
      (h.loadProvidersFromDB lib env db).modelCacheTime = h.modelCacheTime ∧
      (h.loadProvidersFromDB lib env db).cacheDuration = h.cacheDuration := by
  unfold AIHandler.loadProvidersFromDB
  split <;> exact ⟨rfl, rfl, rfl, rfl, rfl⟩

theorem ite_caches (c : Prop) [Decidable c] (h : AIHandler Ctx)
    (m : AIManager (AIProvider Ctx)) :
    (if c then { h with aiManager := m } else h).characterCache = h.characterCache ∧
      (if c then { h with aiManager := m } else h).characterCacheTime = h.characterCacheTime ∧
      (if c then { h with aiManager := m } else h).modelCache = h.modelCache ∧
      (if c then { h with aiManager := m } else h).modelCacheTime = h.modelCacheTime ∧
      (if c then { h with aiManager := m } else h).cacheDuration = h.cacheDuration := by
  split <;> exact ⟨rfl, rfl, rfl, rfl, rfl⟩

theorem NewAIHandler_caches (lib : Lib Ctx) (env : os.Env) (db : gorm.DB) :
    (NewAIHandler lib env db).characterCache = none ∧
      (NewAIHandler lib env db).modelCache = none ∧
      (NewAIHandler lib env db).cacheDuration = 5 * time.Minute := by
  have hl := loadProvidersFromDB_caches lib env db emptyHandler
  have hi := ite_caches
    ((emptyHandler.loadProvidersFromDB lib env db).aiManager.GetAllProviders.length = 0)
    (emptyHandler.loadProvidersFromDB lib env db)
    ((emptyHandler.loadProvidersFromDB lib env db).aiManager.LoadProvidersFromEnv lib env)
  exact ⟨hi.1.trans hl.1, hi.2.2.1.trans hl.2.2.1, hi.2.2.2.2.trans hl.2.2.2.2⟩

theorem ReloadProviders_caches (lib : Lib Ctx) (env : os.Env) (db : gorm.DB)
    (h : AIHandler Ctx) :
    (h.ReloadProviders lib env db).handler.modelCache = none ∧
      (h.ReloadProviders lib env db).handler.modelCacheTime = time.zeroTime ∧
      (h.ReloadProviders lib env db).handler.characterCache = h.characterCache ∧
      (h.ReloadProviders lib env db).handler.characterCacheTime = h.characterCacheTime ∧
      (h.ReloadProviders lib env db).handler.cacheDuration = h.cacheDuration := by
  have hl := loadProvidersFromDB_caches lib env db
    { h with aiManager := h.aiManager.ClearProviders }
  have hi := ite_caches
    (({ h with aiManager := h.aiManager.ClearProviders }.loadProvidersFromDB lib env
      db).aiManager.GetAllProviders.length = 0)
    ({ h with aiManager := h.aiManager.ClearProviders }.loadProvidersFromDB lib env db)
    (({ h with aiManager := h.aiManager.ClearProviders }.loadProvidersFromDB lib env
      db).aiManager.LoadProvidersFromEnv lib env)
  exact ⟨rfl, rfl, hi.1.trans hl.1, hi.2.1.trans hl.2.1, hi.2.2.2.2.trans hl.2.2.2.2⟩

end handlers

namespace handlers

open ai

variable {Ctx : Type}

theorem GetModels_of_none (h : AIHandler Ctx) (db : gorm.DB) (now stored : time.Time)
    (hc : h.modelCache = none) :
    h.GetModels db now stored =
      { handler := { h with modelCache := some (modelCatalog h.aiManager db),
                            modelCacheTime := stored },
        status := 200, payload := some (modelCatalog h.aiManager db), queries := 1 } := by
  have hcat : (if ((gorm.elems db.FindActiveProviders.1).foldl (fun modelList p =>
          modelList ++ [{ name := p.Name, model := p.ModelName,
                          display_name := p.DisplayName }]) ([] : List ModelEntry)).length = 0
        then (gorm.elems db.FindActiveProviders.1).foldl (fun modelList p =>
          modelList ++ [{ name := p.Name, model := p.ModelName,
                          display_name := p.DisplayName }]) ([] : List ModelEntry) ++
            registryModels h.aiManager
        else (gorm.elems db.FindActiveProviders.1).foldl (fun modelList p =>
          modelList ++ [{ name := p.Name, model := p.ModelName,
                          display_name := p.DisplayName }]) ([] : List ModelEntry)) =
      modelCatalog h.aiManager db := by
    simp only [foldl_entries, List.nil_append, modelCatalog, List.length_eq_zero]
    split <;> (rename_i hr; simp [hr])
  simp only [AIHandler.GetModels, hc, ne_eq, not_true_eq_false, false_and, if_false, hcat]

theorem GetCharacters_congr (h1 h2 : AIHandler Ctx) (db : gorm.DB) (now stored : time.Time)
    (hc : h1.characterCache = h2.characterCache)
    (ht : h1.characterCacheTime = h2.characterCacheTime)
    (hd : h1.cacheDuration = h2.cacheDuration) :
    (h1.GetCharacters db now stored).payload = (h2.GetCharacters db now stored).payload ∧
      (h1.GetCharacters db now stored).queries = (h2.GetCharacters db now stored).queries ∧
      (h1.GetCharacters db now stored).handler.characterCache =
        (h2.GetCharacters db now stored).handler.characterCache ∧
      (h1.GetCharacters db now stored).handler.characterCacheTime =
        (h2.GetCharacters db now stored).handler.characterCacheTime := by
  simp only [AIHandler.GetCharacters, hc, ht, hd]
  split <;> exact ⟨rfl, rfl, by simp only [hc], by simp only [ht]⟩

/-! ## The cache claims -/

/-- C23: for a handler with the cache duration of five minutes that `NewAIHandler` sets
and an empty model cache, the first `GetModels` reads the store and returns its catalog
`S1`, captured at the time `t1`; every later call made while `now - t1` is below five
minutes returns `S1` without a query and leaves the handler as it was, whatever the store
holds then and however many such calls there are; and the first call made when `now - t1`
has reached five minutes reads the store again, returns its catalog `S2` and stores it
with the time of that call. The same holds of `GetCharacters` and the snapshot the store
returns. -/
theorem cache_ttl (h : AIHandler Ctx) (hd : h.cacheDuration = 5 * time.Minute)
    (db1 db2 : gorm.DB) (t0 t1 : time.Time) :
    (h.modelCache = none →
      h.GetModels db1 t0 t1 =
        { handler := { h with modelCache := some (modelCatalog h.aiManager db1),
                              modelCacheTime := t1 },
          status := 200, payload := some (modelCatalog h.aiManager db1), queries := 1 } ∧
      (∀ calls : List CacheCall, (∀ c ∈ calls, c.now - t1 < 5 * time.Minute) →
        (h.GetModels db1 t0 t1).handler.GetModelsSeq calls =
          ((h.GetModels db1 t0 t1).handler,
            calls.map fun _ =>
              { handler := (h.GetModels db1 t0 t1).handler, status := 200,
                payload := some (modelCatalog h.aiManager db1), queries := 0 })) ∧
      (∀ now stored : time.Time, 5 * time.Minute ≤ now - t1 →
        (h.GetModels db1 t0 t1).handler.GetModels db2 now stored =
          { handler := { h with modelCache := some (modelCatalog h.aiManager db2),
                                modelCacheTime := stored },
            status := 200, payload := some (modelCatalog h.aiManager db2), queries := 1 })) ∧
    (h.characterCache = none →
      ∀ S1 : List models.AICharacter, db1.FindActiveCharacters.1 = some S1 →
      h.GetCharacters db1 t0 t1 =
        { handler := { h with characterCache := some S1, characterCacheTime := t1 },
          status := 200, payload := some S1, queries := 1 } ∧
      (∀ calls : List CacheCall, (∀ c ∈ calls, c.now - t1 < 5 * time.Minute) →
        (h.GetCharacters db1 t0 t1).handler.GetCharactersSeq calls =
          ((h.GetCharacters db1 t0 t1).handler,
            calls.map fun _ =>
              { handler := (h.GetCharacters db1 t0 t1).handler, status := 200,
                payload := some S1, queries := 0 })) ∧
      (∀ now stored : time.Time, 5 * time.Minute ≤ now - t1 →
        (h.GetCharacters db1 t0 t1).handler.GetCharacters db2 now stored =
          { handler := { h with characterCache := db2.FindActiveCharacters.1,
                                characterCacheTime := stored },
            status := 200, payload := db2.FindActiveCharacters.1, queries := 1 })) := by
  refine ⟨fun hc => ?_, fun hc S1 hS1 => ?_⟩
  · have h1 := GetModels_of_none h db1 t0 t1 hc
    refine ⟨h1, fun calls ht => ?_, fun now stored ht => ?_⟩
    · rw [h1]
      exact GetModelsSeq_hits
        { h with modelCache := some (modelCatalog h.aiManager db1), modelCacheTime := t1 }
        hd _ rfl calls ht
    · rw [h1]
      exact GetModels_miss
        { h with modelCache := some (modelCatalog h.aiManager db1), modelCacheTime := t1 }
        hd db2 now stored (Or.inr ht)
  · have h1 := GetCharacters_miss h hd db1 t0 t1 (Or.inl hc)
    rw [hS1] at h1
    refine ⟨h1, fun calls ht => ?_, fun now stored ht => ?_⟩
    · rw [h1]
      exact GetCharactersSeq_hits
        { h with characterCache := some S1, characterCacheTime := t1 } hd _ rfl calls ht
    · rw [h1]
      exact GetCharacters_miss
        { h with characterCache := some S1, characterCacheTime := t1 } hd db2 now stored
        (Or.inr ht)

/-- Witness for C23: the model catalog and the characters of the test database are
captured at the time 1001; a call one nanosecond before the five minutes are over is
served from the cache although the store has changed, and a call at five minutes reads the
changed store. -/
theorem cache_ttl_witness :
    ((testHandler (testManager 200 testBody)).GetModels testDB 1000 1001).payload =
        some [{ name := "glm", model := "glm-4", display_name := "GLM-4" },
              { name := "gemini", model := "gemini-pro", display_name := "Gemini" },
              { name := "deepseek", model := "deepseek-chat", display_name := "DeepSeek" },
              { name := "qwen", model := "qwen-turbo", display_name := "Qwen" }] ∧
      ((((testHandler (testManager 200 testBody)).GetModels testDB 1000 1001).handler.GetModelsSeq
          [{ db := laterDB, now := 300000001000, stored := 300000001001 }]).2.map
            fun s => (s.payload, s.queries)) =
        [(some [{ name := "glm", model := "glm-4", display_name := "GLM-4" },
                { name := "gemini", model := "gemini-pro", display_name := "Gemini" },
                { name := "deepseek", model := "deepseek-chat", display_name := "DeepSeek" },
                { name := "qwen", model := "qwen-turbo", display_name := "Qwen" }], 0)] ∧
      ((((testHandler (testManager 200 testBody)).GetModels testDB 1000 1001).handler.GetModels
          laterDB 300000001001 300000001002).payload,
        (((testHandler (testManager 200 testBody)).GetModels testDB 1000 1001).handler.GetModels
          laterDB 300000001001 300000001002).queries,
        (((testHandler (testManager 200 testBody)).GetModels testDB 1000 1001).handler.GetModels
          laterDB 300000001001 300000001002).handler.modelCacheTime) =
        (some [{ name := "qwen", model := "qwen-turbo", display_name := "Qwen" }], 1,
          300000001002) ∧
      ((testHandler (testManager 200 testBody)).GetCharacters testDB 1000 1001).payload =
        some [testCharacter] ∧
      ((((testHandler (testManager 200 testBody)).GetCharacters testDB 1000
          1001).handler.GetCharactersSeq
            [{ db := laterDB, now := 300000001000, stored := 300000001001 }]).2.map
              fun s => (s.payload, s.queries)) = [(some [testCharacter], 0)] ∧
      ((((testHandler (testManager 200 testBody)).GetCharacters testDB 1000
          1001).handler.GetCharacters laterDB 300000001001 300000001002).payload,
        (((testHandler (testManager 200 testBody)).GetCharacters testDB 1000
          1001).handler.GetCharacters laterDB 300000001001 300000001002).queries) =
        (some [], 1) :=
  have h := (cache_ttl (testHandler (testManager 200 testBody)) rfl testDB laterDB 1000 1001).1
    rfl
  have hc := (cache_ttl (testHandler (testManager 200 testBody)) rfl testDB laterDB 1000
    1001).2 rfl [testCharacter] rfl
  ⟨(congrArg (fun s => s.payload) h.1).trans (by decide),
   (congrArg (fun r => r.2.map fun s => (s.payload, s.queries))
      (h.2.1 [{ db := laterDB, now := 300000001000, stored := 300000001001 }]
        (by decide))).trans (by decide),
   (congrArg (fun s => (s.payload, s.queries, s.handler.modelCacheTime))
      (h.2.2 300000001001 300000001002 (by decide))).trans (by decide),
   congrArg (fun s => s.payload) hc.1,
   congrArg (fun r => r.2.map fun s => (s.payload, s.queries))
      (hc.2.1 [{ db := laterDB, now := 300000001000, stored := 300000001001 }] (by decide)),
   (congrArg (fun s => (s.payload, s.queries))
      (hc.2.2 300000001001 300000001002 (by decide))).trans (by decide)⟩

end handlers

namespace ai

variable {Ctx : Type}

theorem registerAll_keys_nodup {Provider : Type} (regs : List (String × Option Provider)) :
    ∀ m : AIManager Provider, m.GetAllProviders.Nodup →
      (m.registerAll regs).GetAllProviders.Nodup := by
  induction regs with
  | nil => intro m h; exact h
  | cons r regs ih =>
    intro m h
    obtain ⟨n, o⟩ := r
    cases o with
    | none => exact ih m h
    | some a =>
      rw [registerAll_cons_some]
      apply ih
      simp only [AIManager.GetAllProviders] at h ⊢
      rw [RegisterProvider_providers]
      exact GoMap.keys_set_nodup _ _ _ h

theorem registerAll_keys_ne {Provider : Type} (regs : List (String × Option Provider))
    (hregs : ∀ r ∈ regs, ∀ a, r.2 = some a → r.1 ≠ "") :
    ∀ m : AIManager Provider, "" ∉ m.GetAllProviders →
      "" ∉ (m.registerAll regs).GetAllProviders := by
  induction regs with
  | nil => intro m h; exact h
  | cons r regs ih =>
    have hrest : ∀ r ∈ regs, ∀ a, r.2 = some a → r.1 ≠ "" :=
      fun r hr => hregs r (List.mem_cons_of_mem _ hr)
    intro m h
    obtain ⟨n, o⟩ := r
    cases o with
    | none => exact ih hrest m h
    | some a =>
      rw [registerAll_cons_some]
      apply ih hrest
      have hn : n ≠ "" := hregs (n, some a) (List.mem_cons_self _ _) a rfl
      simp only [AIManager.GetAllProviders] at h ⊢
      rw [RegisterProvider_providers, GoMap.keys_set]
      split
      · exact h
      · simp only [List.mem_append, List.mem_singleton, not_or]
        exact ⟨h, fun h0 => hn h0.symm⟩

theorem GoMap.get_of_mem_nodup {V : Type} (l : GoMap V)
    (hnd : (l.map fun kv => kv.1).Nodup) : ∀ kv ∈ l, l.get kv.1 = some kv.2 := by
  induction l with
  | nil => intro kv h; simp at h
  | cons x rest ih =>
    obtain ⟨k0, v0⟩ := x
    simp only [List.map_cons, List.nodup_cons] at hnd
    intro kv hkv
    simp only [List.mem_cons] at hkv
    rcases hkv with hkv | hkv
    · subst hkv
      simp [GoMap.get]
    · have hne : k0 ≠ kv.1 := by
        intro heq
        exact hnd.1 (by rw [heq]; exact List.mem_map_of_mem (fun kv => kv.1) hkv)
      simp only [GoMap.get, hne, if_false]
      exact ih hnd.2 kv hkv

theorem filterMap_map_of_some {α β γ : Type} (l : List α) (f : α → β) (g : β → Option γ)
    (e : α → γ) (h : ∀ x ∈ l, g (f x) = some (e x)) : (l.map f).filterMap g = l.map e := by
  induction l with
  | nil => rfl
  | cons x rest ih =>
    have hx := h x (List.mem_cons_self _ _)
    have ih1 := ih fun y hy => h y (List.mem_cons_of_mem _ hy)
    simp only [List.map_cons, List.filterMap_cons, hx, ih1]

theorem foldl_append_option {α β : Type} (F : List β → α → List β) (G : α → Option β)
    (hF : ∀ acc a, F acc a = acc ++ (G a).toList) (l : List α) :
    ∀ init : List β, l.foldl F init = init ++ l.filterMap G := by
  induction l with
  | nil => intro init; simp
  | cons a l ih =>
    intro init
    rw [List.foldl_cons, ih, hF, List.filterMap_cons]
    cases G a <;> simp

end ai

namespace handlers

open ai

variable {Ctx : Type}

theorem registryModels_eq (m : AIManager (AIProvider Ctx)) (hnd : m.GetAllProviders.Nodup)
    (hne : "" ∉ m.GetAllProviders) :
    registryModels m =
      m.providers.map fun kv =>
        { name := kv.1, model := kv.2.GetModelName,
          display_name := kv.1 ++ " - " ++ kv.2.GetModelName } := by
  unfold registryModels
  refine (foldl_append_option _
    (fun name => (m.GetProvider name).1.map fun provider =>
      ({ name := name, model := provider.GetModelName,
         display_name := name ++ " - " ++ provider.GetModelName } : ModelEntry))
    ?_ _ _).trans ?_
  · intro acc a
    cases h : (m.GetProvider a).1 <;> simp [h]
  · rw [List.nil_append]
    unfold AIManager.GetAllProviders
    apply filterMap_map_of_some
    intro kv hkv
    have hk : kv.1 ≠ "" := by
      intro h0
      apply hne
      rw [← h0]
      exact List.mem_map_of_mem (fun kv => kv.1) hkv
    rw [GetProvider_of_get m kv.1 kv.2 hk (GoMap.get_of_mem_nodup m.providers hnd kv hkv)]
    rfl

theorem NewAIHandler_registry (lib : Lib Ctx) (env : os.Env) (db : gorm.DB) :
    (NewAIHandler lib env db).aiManager.GetAllProviders.Nodup ∧
      "" ∉ (NewAIHandler lib env db).aiManager.GetAllProviders := by
  have hrows : ∀ rows : List models.AIProvider,
      ∀ r ∈ rows.map (rowRegistration lib env), ∀ a, r.2 = some a → r.1 ≠ "" := by
    intro rows r hr a ha h0
    have h := (rowRegistration_tagged lib env rows r hr a ha).1
    rw [h0] at h
    exact absurd h (by decide)
  have henv : ∀ r ∈ vendorEnvs.map (VendorEnv.registration lib env), ∀ a, r.2 = some a →
      r.1 ≠ "" := by
    intro r hr a ha h0
    have h := (registration_tagged lib env r hr a ha).1
    rw [h0] at h
    exact absurd h (by decide)
  have hnew : (NewAIManager : AIManager (AIProvider Ctx)).GetAllProviders.Nodup ∧
      "" ∉ (NewAIManager : AIManager (AIProvider Ctx)).GetAllProviders := by
    simp [NewAIManager, AIManager.GetAllProviders]
  have hloaded : (emptyHandler.loadProvidersFromDB lib env db).aiManager.GetAllProviders.Nodup ∧
      "" ∉ (emptyHandler.loadProvidersFromDB lib env db).aiManager.GetAllProviders := by
    rw [loadProvidersFromDB_aiManager]
    cases db.ai_providers with
    | error err => exact hnew
    | ok rows =>
      exact ⟨registerAll_keys_nodup _ _ hnew.1, registerAll_keys_ne _ (hrows _) _ hnew.2⟩
  rw [NewAIHandler_aiManager]
  split
  · rw [LoadProvidersFromEnv_eq]
    exact ⟨registerAll_keys_nodup _ _ hloaded.1, registerAll_keys_ne _ henv _ hloaded.2⟩
  · exact hloaded

theorem GetModels_payload_of_none (h : AIHandler Ctx) (db : gorm.DB) (now stored : time.Time)
    (hc : h.modelCache = none) :
    (h.GetModels db now stored).queries = 1 ∧ (h.GetModels db now stored).status = 200 ∧
      (h.GetModels db now stored).handler.modelCache = (h.GetModels db now stored).payload ∧
      (h.GetModels db now stored).handler.modelCacheTime = stored ∧
      (h.GetModels db now stored).handler.aiManager = h.aiManager ∧
      (h.GetModels db now stored).handler.characterCache = h.characterCache ∧
      (h.GetModels db now stored).handler.characterCacheTime = h.characterCacheTime ∧
      (∀ rows, db.ai_providers = .ok rows → (rows.filter fun p => p.IsActive) ≠ [] →
        (h.GetModels db now stored).payload =
          some ((rows.filter fun p => p.IsActive).map fun p =>
            { name := p.Name, model := p.ModelName, display_name := p.DisplayName })) ∧
      (∀ rows, db.ai_providers = .ok rows → (rows.filter fun p => p.IsActive) = [] →
        (h.GetModels db now stored).payload = some (registryModels h.aiManager)) ∧
      (∀ err, db.ai_providers = .error err →
        (h.GetModels db now stored).payload = some (registryModels h.aiManager)) := by
  rw [GetModels_of_none h db now stored hc]
  refine ⟨rfl, rfl, rfl, rfl, rfl, rfl, rfl, fun rows hdb hrows => ?_,
    fun rows hdb hrows => ?_, fun err hdb => ?_⟩
  · simp [modelCatalog, gorm.DB.FindActiveProviders, hdb, gorm.elems, hrows]
  · simp [modelCatalog, gorm.DB.FindActiveProviders, hdb, gorm.elems, hrows]
  · simp [modelCatalog, gorm.DB.FindActiveProviders, hdb, gorm.elems]

end handlers

namespace handlers

open ai

variable {Ctx : Type}

/-- C24: after `ReloadProviders` the model cache is `nil` and its time is the zero time,
so the next `GetModels` issues a query, whatever the clock reads and however recently the
entry had been captured, and rebuilds the catalog: one entry per active row of the store,
with the row's name, model and display name, or, when the store has no active row (or the
query fails), one entry per provider of the registry as reloaded, with the provider's
name, the model its adapter reports and the two joined by " - " as the display name; the
rebuilt catalog is stored with the time of that call. The character cache, its time and
the cache duration are as they were, so `GetCharacters` answers after the reload as it
would have answered before. -/
theorem ReloadProviders_invalidates (lib : Lib Ctx) (env : os.Env) (db : gorm.DB)
    (h : AIHandler Ctx) (db1 : gorm.DB) (now stored : time.Time) :
    (h.ReloadProviders lib env db).handler.modelCache = none ∧
      (h.ReloadProviders lib env db).handler.modelCacheTime = time.zeroTime ∧
      (h.ReloadProviders lib env db).handler.characterCache = h.characterCache ∧
      (h.ReloadProviders lib env db).handler.characterCacheTime = h.characterCacheTime ∧
      (h.ReloadProviders lib env db).handler.cacheDuration = h.cacheDuration ∧
      ((h.ReloadProviders lib env db).handler.GetModels db1 now stored).queries = 1 ∧
      ((h.ReloadProviders lib env db).handler.GetModels db1 now stored).status = 200 ∧
      ((h.ReloadProviders lib env db).handler.GetModels db1 now stored).handler.modelCache =
        ((h.ReloadProviders lib env db).handler.GetModels db1 now stored).payload ∧
      ((h.ReloadProviders lib env db).handler.GetModels db1 now stored).handler.modelCacheTime =
        stored ∧
      (∀ rows, db1.ai_providers = .ok rows → (rows.filter fun p => p.IsActive) ≠ [] →
        ((h.ReloadProviders lib env db).handler.GetModels db1 now stored).payload =
          some ((rows.filter fun p => p.IsActive).map fun p =>
            { name := p.Name, model := p.ModelName, display_name := p.DisplayName })) ∧
      (∀ rows, db1.ai_providers = .ok rows → (rows.filter fun p => p.IsActive) = [] →
        ((h.ReloadProviders lib env db).handler.GetModels db1 now stored).payload =
          some ((h.ReloadProviders lib env db).handler.aiManager.providers.map fun kv =>
            { name := kv.1, model := kv.2.GetModelName,
              display_name := kv.1 ++ " - " ++ kv.2.GetModelName })) ∧
      (∀ err, db1.ai_providers = .error err →
        ((h.ReloadProviders lib env db).handler.GetModels db1 now stored).payload =
          some ((h.ReloadProviders lib env db).handler.aiManager.providers.map fun kv =>
            { name := kv.1, model := kv.2.GetModelName,
              display_name := kv.1 ++ " - " ++ kv.2.GetModelName })) ∧
      ((h.ReloadProviders lib env db).handler.GetCharacters db1 now stored).payload =
        (h.GetCharacters db1 now stored).payload ∧
      ((h.ReloadProviders lib env db).handler.GetCharacters db1 now stored).queries =
        (h.GetCharacters db1 now stored).queries := by
  have hc := ReloadProviders_caches lib env db h
  have hg := GetCharacters_congr (h.ReloadProviders lib env db).handler h db1 now stored
    hc.2.2.1 hc.2.2.2.1 hc.2.2.2.2
  have hp := GetModels_payload_of_none (h.ReloadProviders lib env db).handler db1 now stored
    hc.1
  have hreg : registryModels (h.ReloadProviders lib env db).handler.aiManager =
      (h.ReloadProviders lib env db).handler.aiManager.providers.map fun kv =>
        { name := kv.1, model := kv.2.GetModelName,
          display_name := kv.1 ++ " - " ++ kv.2.GetModelName } := by
    apply registryModels_eq
    · rw [ReloadProviders_aiManager]
      exact (NewAIHandler_registry lib env db).1
    · rw [ReloadProviders_aiManager]
      exact (NewAIHandler_registry lib env db).2
  refine ⟨hc.1, hc.2.1, hc.2.2.1, hc.2.2.2.1, hc.2.2.2.2, hp.1, hp.2.1, hp.2.2.1, hp.2.2.2.1,
    hp.2.2.2.2.2.2.2.1, fun rows hdb hrows => ?_, fun err hdb => ?_, hg.1, hg.2.1⟩
  · rw [hp.2.2.2.2.2.2.2.2.1 rows hdb hrows, hreg]
  · rw [hp.2.2.2.2.2.2.2.2.2 err hdb, hreg]

/-- Witness for C24: a handler whose model cache was filled from the test database at
the time 1001 is reloaded against an empty database, with keys for GLM and OpenAI in the
environment. A `GetModels` one nanosecond later queries the store: with the test database
it returns the four active rows, and with the empty database the two providers of the
reloaded registry with the models their adapters report. -/
theorem ReloadProviders_invalidates_witness :
    ((testHandler (testManager 200 testBody)).GetModels testDB 1000 1001).handler.modelCache ≠
        none ∧
      (((((testHandler (testManager 200 testBody)).GetModels testDB 1000
          1001).handler.ReloadProviders (testLib testTables 200 testBody) testEnv
            emptyDB).handler.GetModels testDB 1002 1003).payload,
        ((((testHandler (testManager 200 testBody)).GetModels testDB 1000
          1001).handler.ReloadProviders (testLib testTables 200 testBody) testEnv
            emptyDB).handler.GetModels testDB 1002 1003).queries) =
        (some [{ name := "glm", model := "glm-4", display_name := "GLM-4" },
               { name := "gemini", model := "gemini-pro", display_name := "Gemini" },
               { name := "deepseek", model := "deepseek-chat", display_name := "DeepSeek" },
               { name := "qwen", model := "qwen-turbo", display_name := "Qwen" }], 1) ∧
      ((((testHandler (testManager 200 testBody)).GetModels testDB 1000
          1001).handler.ReloadProviders (testLib testTables 200 testBody) testEnv
            emptyDB).handler.GetModels emptyDB 1002 1003).payload =
        some [{ name := "glm", model := "glm-4-flash", display_name := "glm - glm-4-flash" },
              { name := "openai", model := "gpt-4o", display_name := "openai - gpt-4o" }] :=
  have h1 := ReloadProviders_invalidates (testLib testTables 200 testBody) testEnv emptyDB
    ((testHandler (testManager 200 testBody)).GetModels testDB 1000 1001).handler testDB
    1002 1003
  have h2 := ReloadProviders_invalidates (testLib testTables 200 testBody) testEnv emptyDB
    ((testHandler (testManager 200 testBody)).GetModels testDB 1000 1001).handler emptyDB
    1002 1003
  ⟨by decide,
   Prod.ext ((h1.2.2.2.2.2.2.2.2.2.1 _ rfl (by decide)).trans (by decide)) h1.2.2.2.2.2.1,
   (h2.2.2.2.2.2.2.2.2.2.2.1 _ rfl (by decide)).trans (by decide)⟩

end handlers
